import Mathlib

/-! Verification development for `artificial_reql_cluster_interface_t`.

A shallow embedding of
`src/clustering/administration/artificial_reql_cluster_interface.cc`:
the dispatcher that answers administrative calls on the reserved database
`rethinkdb` itself and hands every other call to the next cluster interface
(`m_next`).

Conventions of the embedding.

* A C++ method `bool op(args..., T *result_out, admin_err_t *error_out)` becomes a
  function that receives the contents of `*result_out` / `*error_out` at the time of
  the call and returns a `ret T`: the returned `bool`, the contents of both
  out-parameters after the call, and the list of calls made on `m_next`.
* A call that does not return normally (null pointer dereference, failed
  `guarantee`, exception leaving the function) is an `Except.error` of a `fault_t`.
* Types that are declared outside the file are records of the data that the file
  itself reads; objects with virtual methods are records of functions.
* A method called on an object outside the file (the next interface, a table backend,
  `auth::grant`) is taken to return; exceptions are followed only through the `try`
  block of `table_estimate_doc_counts`, the one place where the file handles them.
* `strprintf` with `%s` is string concatenation with the `c_str()` of the argument.

The class `make_obj_term_t` of `src/rdb_protocol/terms/datum_terms.cc` is embedded in
a section of its own, after the dispatcher.
-/

/-! ## Strings and names -/

/-- The NUL character, the terminator of a C string. -/
def NUL : Char := Char.ofNat 0

/-- The text that `printf("%s", s.c_str())` prints for a `std::string` `s`: the
characters up to the first NUL. -/
def std_string_c_str (s : String) : String := String.mk (s.data.takeWhile (fun c => c != NUL))

/-- The character `s[0]` of a `std::string`: the first character, or the
terminating NUL when the string is empty. -/
def std_string_at0 (s : String) : Char :=
  match s.data with
  | [] => NUL
  | c :: _ => c

/-- The type `name_string_t` (declared in `containers/name_string.hpp`): a string that
passed the validity check of the type. Of that check the embedding keeps the one
consequence the file depends on: a name holds no NUL character, so that `c_str()`
is the whole name. -/
structure name_string_t where
  str : String
  no_nul : NUL ∉ str.data
deriving DecidableEq

/-- The method `name_string_t::c_str()`. -/
def name_string_t.c_str (n : name_string_t) : String := std_string_c_str n.str

/-! ## Identifiers -/

/-- The type `uuid_u`, by its 128-bit value. -/
structure uuid_u where
  value : Nat
deriving DecidableEq

abbrev database_id_t := uuid_u
abbrev namespace_id_t := uuid_u

/-- The two functions of `containers/uuid.hpp` that the file calls; their bodies
are not part of the file, so they are parameters of the development. -/
structure uuid_functions where
  str_to_uuid : String → uuid_u
  from_hash : uuid_u → String → uuid_u

/-! ## Errors -/

/-- Modelled from the spec: the enumeration `query_state_t` of an `admin_err_t`, which
is declared outside the file. Section 3 gives it as "enumeration{FAILED, ...}": the
file itself writes only `FAILED`, and `INDETERMINATE` is the other state that an error
made elsewhere can carry. -/
inductive query_state_t where
  | FAILED
  | INDETERMINATE
deriving DecidableEq, Repr

/-- The record `admin_err_t{msg, query_state}`. -/
structure admin_err_t where
  msg : String
  query_state : query_state_t
deriving DecidableEq, Repr

/-- An exception in flight. `base_exc_t` stands for `ql::base_exc_t` and all its
subclasses (the exceptions of the query evaluator), `other` for every exception
outside that hierarchy; `what` is the text of `what()`. -/
inductive exception_t where
  | base_exc_t (what : String)
  | other (what : String)
deriving DecidableEq, Repr

/-- The ways in which a call can fail to return. -/
inductive fault_t where
  | null_dereference
  | guarantee_failed
  | uncaught (e : exception_t)
deriving DecidableEq, Repr

/-! ## Values passed through the interface -/

/-- The type `ql::datum_t`, as far as the file builds or reads one. -/
inductive datum_t where
  | uninitialized
  | null
  | num (n : Int)
  | str (s : String)
  | other (tag : Nat)
deriving DecidableEq, Repr

/-- The type `ql::db_t`: a database handle with its id and its name. -/
structure db_t where
  id : database_id_t
  name : name_string_t
deriving DecidableEq

/-- The type `signal_t`. A `cross_thread_signal_t` is a signal built from a source
signal and the number of the thread it is delivered on. -/
inductive signal_t where
  | plain (id : Nat)
  | cross_thread_signal_t (source : signal_t) (thread : Nat)
deriving DecidableEq, Repr

structure user_context_t where
  id : Nat
deriving DecidableEq, Repr

structure username_t where
  name : String
deriving DecidableEq, Repr

structure backtrace_id_t where
  id : Nat
deriving DecidableEq, Repr

/-- The constant `ql::backtrace_id_t::empty()`. -/
def backtrace_id_t.empty : backtrace_id_t := { id := 0 }

structure rdb_context_t where
  id : Nat
deriving DecidableEq, Repr

/-- The type `ql::env_t`; the file reads its `interruptor`. -/
structure env_t where
  id : Nat
  interruptor : signal_t
deriving DecidableEq, Repr

structure table_generate_config_params_t where
  id : Nat
deriving DecidableEq, Repr

structure write_durability_t where
  tag : Nat
deriving DecidableEq, Repr

structure table_readiness_t where
  tag : Nat
deriving DecidableEq, Repr

structure emergency_repair_mode_t where
  tag : Nat
deriving DecidableEq, Repr

structure write_hook_config_t where
  id : Nat
deriving DecidableEq, Repr

structure sindex_config_t where
  id : Nat
deriving DecidableEq, Repr

structure sindex_status_t where
  id : Nat
deriving DecidableEq, Repr

/-- The enumeration `admin_identifier_format_t`. -/
inductive admin_identifier_format_t where
  | name
  | uuid
deriving DecidableEq, Repr

/-- The enumeration `sorting_t`. -/
inductive sorting_t where
  | UNORDERED
  | ASCENDING
  | DESCENDING
deriving DecidableEq, Repr

/-- The type `ql::datum_range_t`; `universe` is `datum_range_t::universe()`. -/
inductive datum_range_t where
  | universe
  | bounded (left right : datum_t)
deriving DecidableEq, Repr

/-- The type `ql::datumspec_t`, built from one range. -/
structure datumspec_t where
  range : datum_range_t
deriving DecidableEq, Repr

/-- The type `ql::val_t`, by the datum it holds. -/
structure val_t where
  datum : datum_t
deriving DecidableEq, Repr

/-! ## Row streams and table backends -/

/-- Modelled from the spec: the type `ql::datum_stream_t`, which the file only
receives and hands to the evaluator. Section 4.4 calls it "a lazy, finite,
non-restartable sequence of rows"; `rows` are the rows it yields and `failure` is the
exception, if any, that reading the stream to its end raises. -/
structure datum_stream_t where
  rows : List datum_t
  failure : Option exception_t
deriving DecidableEq, Repr

/-- The terminal `ql::count_wire_func_t()`. -/
structure count_wire_func_t where
deriving DecidableEq, Repr

/-- Modelled from the spec: the method `datum_stream_t::run_terminal` for the count
terminal, supplied by the query evaluator. Section 4.4: it "applies a terminal
reduction (e.g., count) to the stream"; section 6: the evaluator is capable "of
raising a recoverable evaluation error". The count of a stream that is read without
error is the number of its rows. -/
def datum_stream_t.run_terminal (docs : datum_stream_t) (_env : env_t)
    (_terminal : count_wire_func_t) : Except exception_t val_t :=
  match docs.failure with
  | some e => .error e
  | none => .ok { datum := datum_t.num (docs.rows.length : Int) }

/-- Modelled from the spec: the method `val_t::as_int<int64_t>()` of the evaluator,
which the file applies to the value of the count aggregate (section 4.4, "runs a count
aggregate over it"): the integer of a numeric value; every other value raises an
evaluation error. Row counts are far below `2 ^ 63`, so the conversion to `int64_t`
keeps the number. -/
def val_t.as_int (v : val_t) : Except exception_t Int :=
  match v.datum with
  | datum_t.num n => .ok n
  | _ => .error (exception_t.base_exc_t "Expected type NUMBER but found something else.")

/-- An object of class `artificial_table_backend_t`: `addr` tells instances apart,
and `read_all_rows_as_stream` is its virtual method, taking the contents of
`*rows_out` and `*error_out` and returning the `bool` and their new contents. -/
structure artificial_table_backend_t where
  addr : Nat
  read_all_rows_as_stream :
    user_context_t → backtrace_id_t → datumspec_t → sorting_t → signal_t →
    Option datum_stream_t → admin_err_t → Bool × Option datum_stream_t × admin_err_t

/-- A pointer `artificial_table_backend_t *`; `none` is `nullptr`. -/
abbrev backend_ptr := Option artificial_table_backend_t

/-- The class `base_table_t` with the one subclass the file constructs:
`artificial_table_t(rdb_context, database_id, backend)`; `other` is a table handle
of any other class. -/
inductive base_table_t where
  | artificial_table_t (rdb_context : rdb_context_t) (database_id : database_id_t)
      (backend : backend_ptr)
  | other (id : Nat)

/-- The type `table_backends_map_t`, a
`std::map<name_string_t, std::pair<artificial_table_backend_t *, artificial_table_backend_t *>>`,
by the list of its entries in iteration order. The functions below do not
depend on the list being sorted or free of repeated keys. -/
structure table_backends_map_t where
  entries : List (name_string_t × (backend_ptr × backend_ptr))

/-- The method `std::map::find`: the entry with the given key, `none` for `end()`. -/
def table_backends_map_t.find (m : table_backends_map_t) (name : name_string_t) :
    Option (name_string_t × (backend_ptr × backend_ptr)) :=
  m.entries.find? (fun it => decide (it.1 = name))

/-- The keys of the map: the registered table names. -/
def table_backends_map_t.names (m : table_backends_map_t) : List name_string_t :=
  m.entries.map (fun it => it.1)

/-! ## The next cluster interface -/

/-- The contents of a `std::map<std::string, std::pair<sindex_config_t, sindex_status_t>>`. -/
abbrev sindex_map_t := List (String × (sindex_config_t × sindex_status_t))

/-- What a method of the next interface hands back: the returned `bool`, the new
contents of its result out-parameter and the new contents of `*error_out`. -/
abbrev reply (T : Type) := Bool × T × admin_err_t

/-- An object of the abstract class `reql_cluster_interface_t`, the target of
`m_next`: one function per virtual method, with the arguments in the order of the
C++ declaration. Out-parameters are passed by their contents at the time of the
call. -/
structure reql_cluster_interface_t where
  db_create : user_context_t → name_string_t → signal_t → datum_t → admin_err_t → reply datum_t
  db_drop : user_context_t → name_string_t → signal_t → datum_t → admin_err_t → reply datum_t
  db_list : signal_t → Finset name_string_t → admin_err_t → reply (Finset name_string_t)
  db_find : name_string_t → signal_t → Option db_t → admin_err_t → reply (Option db_t)
  db_config : user_context_t → db_t → backtrace_id_t → env_t → Option val_t → admin_err_t →
    reply (Option val_t)
  table_create : user_context_t → name_string_t → db_t → table_generate_config_params_t →
    String → write_durability_t → signal_t → datum_t → admin_err_t → reply datum_t
  table_drop : user_context_t → name_string_t → db_t → signal_t → datum_t → admin_err_t →
    reply datum_t
  table_list : db_t → signal_t → Finset name_string_t → admin_err_t →
    reply (Finset name_string_t)
  table_find : name_string_t → db_t → Option admin_identifier_format_t → signal_t →
    Option base_table_t → admin_err_t → reply (Option base_table_t)
  table_estimate_doc_counts : user_context_t → db_t → name_string_t → env_t → List Int →
    admin_err_t → reply (List Int)
  table_config : user_context_t → db_t → name_string_t → backtrace_id_t → env_t →
    Option val_t → admin_err_t → reply (Option val_t)
  table_status : db_t → name_string_t → backtrace_id_t → env_t → Option val_t →
    admin_err_t → reply (Option val_t)
  table_wait : db_t → name_string_t → table_readiness_t → signal_t → datum_t →
    admin_err_t → reply datum_t
  db_wait : db_t → table_readiness_t → signal_t → datum_t → admin_err_t → reply datum_t
  table_reconfigure : user_context_t → db_t → name_string_t →
    table_generate_config_params_t → Bool → signal_t → datum_t → admin_err_t → reply datum_t
  db_reconfigure : user_context_t → db_t → table_generate_config_params_t → Bool →
    signal_t → datum_t → admin_err_t → reply datum_t
  table_emergency_repair : user_context_t → db_t → name_string_t →
    emergency_repair_mode_t → Bool → signal_t → datum_t → admin_err_t → reply datum_t
  table_rebalance : user_context_t → db_t → name_string_t → signal_t → datum_t →
    admin_err_t → reply datum_t
  db_rebalance : user_context_t → db_t → signal_t → datum_t → admin_err_t → reply datum_t
  grant_global : user_context_t → username_t → datum_t → signal_t → datum_t →
    admin_err_t → reply datum_t
  grant_database : user_context_t → database_id_t → username_t → datum_t → signal_t →
    datum_t → admin_err_t → reply datum_t
  grant_table : user_context_t → database_id_t → namespace_id_t → username_t → datum_t →
    signal_t → datum_t → admin_err_t → reply datum_t
  set_write_hook : user_context_t → db_t → name_string_t → Option write_hook_config_t →
    signal_t → admin_err_t → reply (Option write_hook_config_t)
  get_write_hook : user_context_t → db_t → name_string_t → signal_t → datum_t →
    admin_err_t → reply datum_t
  sindex_create : user_context_t → db_t → name_string_t → String → sindex_config_t →
    signal_t → admin_err_t → reply Unit
  sindex_drop : user_context_t → db_t → name_string_t → String → signal_t → admin_err_t →
    reply Unit
  sindex_rename : user_context_t → db_t → name_string_t → String → String → Bool →
    signal_t → admin_err_t → reply Unit
  sindex_list : db_t → name_string_t → signal_t → admin_err_t → sindex_map_t →
    reply sindex_map_t

/-- The record of one call made on `m_next`: the method and the arguments it was
given, out-parameters by their contents at the time of the call. -/
inductive next_call where
  | db_create (user_context : user_context_t) (name : name_string_t) (interruptor : signal_t)
      (result_out : datum_t) (error_out : admin_err_t)
  | db_drop (user_context : user_context_t) (name : name_string_t) (interruptor : signal_t)
      (result_out : datum_t) (error_out : admin_err_t)
  | db_list (interruptor : signal_t) (names_out : Finset name_string_t)
      (error_out : admin_err_t)
  | db_find (name : name_string_t) (interruptor : signal_t) (db_out : Option db_t)
      (error_out : admin_err_t)
  | db_config (user_context : user_context_t) (db : db_t) (bt : backtrace_id_t) (env : env_t)
      (selection_out : Option val_t) (error_out : admin_err_t)
  | table_create (user_context : user_context_t) (name : name_string_t) (db : db_t)
      (config_params : table_generate_config_params_t) (primary_key : String)
      (durability : write_durability_t) (interruptor : signal_t) (result_out : datum_t)
      (error_out : admin_err_t)
  | table_drop (user_context : user_context_t) (name : name_string_t) (db : db_t)
      (interruptor : signal_t) (result_out : datum_t) (error_out : admin_err_t)
  | table_list (db : db_t) (interruptor : signal_t) (names_out : Finset name_string_t)
      (error_out : admin_err_t)
  | table_find (name : name_string_t) (db : db_t)
      (identifier_format : Option admin_identifier_format_t) (interruptor : signal_t)
      (table_out : Option base_table_t) (error_out : admin_err_t)
  | table_estimate_doc_counts (user_context : user_context_t) (db : db_t)
      (name : name_string_t) (env : env_t) (doc_counts_out : List Int)
      (error_out : admin_err_t)
  | table_config (user_context : user_context_t) (db : db_t) (name : name_string_t)
      (bt : backtrace_id_t) (env : env_t) (selection_out : Option val_t)
      (error_out : admin_err_t)
  | table_status (db : db_t) (name : name_string_t) (bt : backtrace_id_t) (env : env_t)
      (selection_out : Option val_t) (error_out : admin_err_t)
  | table_wait (db : db_t) (name : name_string_t) (readiness : table_readiness_t)
      (interruptor : signal_t) (result_out : datum_t) (error_out : admin_err_t)
  | db_wait (db : db_t) (readiness : table_readiness_t) (interruptor : signal_t)
      (result_out : datum_t) (error_out : admin_err_t)
  | table_reconfigure (user_context : user_context_t) (db : db_t) (name : name_string_t)
      (params : table_generate_config_params_t) (dry_run : Bool) (interruptor : signal_t)
      (result_out : datum_t) (error_out : admin_err_t)
  | db_reconfigure (user_context : user_context_t) (db : db_t)
      (params : table_generate_config_params_t) (dry_run : Bool) (interruptor : signal_t)
      (result_out : datum_t) (error_out : admin_err_t)
  | table_emergency_repair (user_context : user_context_t) (db : db_t)
      (name : name_string_t) (mode : emergency_repair_mode_t) (dry_run : Bool)
      (interruptor : signal_t) (result_out : datum_t) (error_out : admin_err_t)
  | table_rebalance (user_context : user_context_t) (db : db_t) (name : name_string_t)
      (interruptor : signal_t) (result_out : datum_t) (error_out : admin_err_t)
  | db_rebalance (user_context : user_context_t) (db : db_t) (interruptor : signal_t)
      (result_out : datum_t) (error_out : admin_err_t)
  | grant_global (user_context : user_context_t) (username : username_t)
      (permissions : datum_t) (interruptor : signal_t) (result_out : datum_t)
      (error_out : admin_err_t)
  | grant_database (user_context : user_context_t) (database : database_id_t)
      (username : username_t) (permissions : datum_t) (interruptor : signal_t)
      (result_out : datum_t) (error_out : admin_err_t)
  | grant_table (user_context : user_context_t) (database : database_id_t)
      (table : namespace_id_t) (username : username_t) (permissions : datum_t)
      (interruptor : signal_t) (result_out : datum_t) (error_out : admin_err_t)
  | set_write_hook (user_context : user_context_t) (db : db_t) (table : name_string_t)
      (config : Option write_hook_config_t) (interruptor : signal_t)
      (error_out : admin_err_t)
  | get_write_hook (user_context : user_context_t) (db : db_t) (table : name_string_t)
      (interruptor : signal_t) (write_hook_datum_out : datum_t) (error_out : admin_err_t)
  | sindex_create (user_context : user_context_t) (db : db_t) (table : name_string_t)
      (name : String) (config : sindex_config_t) (interruptor : signal_t)
      (error_out : admin_err_t)
  | sindex_drop (user_context : user_context_t) (db : db_t) (table : name_string_t)
      (name : String) (interruptor : signal_t) (error_out : admin_err_t)
  | sindex_rename (user_context : user_context_t) (db : db_t) (table : name_string_t)
      (name : String) (new_name : String) (overwrite : Bool) (interruptor : signal_t)
      (error_out : admin_err_t)
  | sindex_list (db : db_t) (table : name_string_t) (interruptor : signal_t)
      (error_out : admin_err_t) (configs_and_statuses_out : sindex_map_t)

/-- What a method of the dispatcher leaves behind when it returns: the returned
`bool`, the contents of its result out-parameter and of `*error_out`, and the calls
it made on `m_next`, in order. -/
structure ret (T : Type) where
  value : Bool
  result_out : T
  error_out : admin_err_t
  next_calls : List next_call

/-! ## The dispatcher -/

/-- The parts of `clustering/administration/auth` that the file uses and does not
define. `auth_semilattice_metadata_t` is the content behind the semilattice view,
`permissions_ref` is a reference `auth::permissions_t &` into a user, the two
accessors are the methods of `auth::user_t`, and `grant` is the function
`auth::grant` with its arguments in the order of the C++ call; it hands back its
reply together with the content of the view after the call. -/
structure auth_lib where
  auth_semilattice_metadata_t : Type
  user_t : Type
  permissions_ref : Type
  get_database_permissions : user_t → database_id_t → permissions_ref
  get_table_permissions : user_t → namespace_id_t → permissions_ref
  grant : auth_semilattice_metadata_t → rdb_context_t → user_context_t → username_t →
    datum_t → signal_t → (user_t → permissions_ref) → datum_t → admin_err_t →
    reply datum_t × auth_semilattice_metadata_t

/-- The static member `database_name`: `name_string_t::guarantee_valid("rethinkdb")`. -/
def database_name : name_string_t := { str := "rethinkdb", no_nul := by decide }

/-- The static member `database_id`:
`uuid_u::from_hash(str_to_uuid("39a24924-14ec-4deb-99f1-742eda7aba5e"), "rethinkdb")`. -/
def database_id (F : uuid_functions) : uuid_u :=
  F.from_hash (F.str_to_uuid "39a24924-14ec-4deb-99f1-742eda7aba5e") "rethinkdb"

/-- The data members of an `artificial_reql_cluster_interface_t`. `m_next` is the
pointer to the next interface (`none` is `nullptr`, the value the constructor gives
it); `home_thread` is the value of `home_thread()`. -/
structure artificial_reql_cluster_interface_t (A : auth_lib) where
  m_auth_semilattice_view : A.auth_semilattice_metadata_t
  m_rdb_context : rdb_context_t
  m_table_backends : table_backends_map_t
  m_next : Option reql_cluster_interface_t
  home_thread : Nat

namespace artificial_reql_cluster_interface_t

variable {A : auth_lib}

/-- The constructor: it stores its two arguments, leaves the map of backends empty
and sets `m_next` to `nullptr`. -/
def constructor (auth_semilattice_view : A.auth_semilattice_metadata_t)
    (rdb_context : rdb_context_t) (home_thread : Nat) :
    artificial_reql_cluster_interface_t A :=
  { m_auth_semilattice_view := auth_semilattice_view
    m_rdb_context := rdb_context
    m_table_backends := { entries := [] }
    m_next := none
    home_thread := home_thread }

/-- The method `set_next_reql_cluster_interface`. -/
def set_next_reql_cluster_interface (self : artificial_reql_cluster_interface_t A)
    (next : Option reql_cluster_interface_t) : artificial_reql_cluster_interface_t A :=
  { self with m_next := next }

/-- The method `next_or_error`. `error_out` is the pointer argument (`none` is
`nullptr`); the result is the returned `bool` and the contents of `*error_out`
afterwards. -/
def next_or_error (self : artificial_reql_cluster_interface_t A)
    (error_out : Option admin_err_t) : Bool × Option admin_err_t :=
  match self.m_next with
  | none =>
    match error_out with
    | some _ =>
      (false, some { msg := "Failed to find an interface.", query_state := query_state_t.FAILED })
    | none => (false, none)
  | some _ => (true, error_out)

/-- The expression `m_next->op(...)`: dereferencing `m_next` and calling one method
of the object. `call` records the method and its arguments, `op` performs the call
on the object. -/
def deref_next {T : Type} (self : artificial_reql_cluster_interface_t A) (call : next_call)
    (op : reql_cluster_interface_t → reply T) : Except fault_t (ret T) :=
  match self.m_next with
  | none => .error fault_t.null_dereference
  | some next =>
    let r := op next
    .ok { value := r.1, result_out := r.2.1, error_out := r.2.2, next_calls := [call] }

/-- The expression `next_or_error(error_out) && m_next->op(...)`, with the
short-circuit of `&&`: when `next_or_error` returns false nothing else is
evaluated. -/
def next_or_error_and {T : Type} (self : artificial_reql_cluster_interface_t A)
    (result_out : T) (error_out : admin_err_t) (call : next_call)
    (op : reql_cluster_interface_t → reply T) : Except fault_t (ret T) :=
  match self.next_or_error (some error_out) with
  | (false, error_out1) =>
    .ok { value := false, result_out := result_out, error_out := error_out1.getD error_out,
          next_calls := [] }
  | (true, _) => self.deref_next call op

/-- The method `db_create`. -/
def db_create (self : artificial_reql_cluster_interface_t A) (user_context : user_context_t)
    (name : name_string_t) (interruptor : signal_t) (result_out : datum_t)
    (error_out : admin_err_t) : Except fault_t (ret datum_t) :=
  if name = database_name then
    .ok { value := false, result_out := result_out,
          error_out := { msg := "Database `" ++ database_name.c_str ++ "` already exists.",
                         query_state := query_state_t.FAILED },
          next_calls := [] }
  else
    self.next_or_error_and result_out error_out
      (next_call.db_create user_context name interruptor result_out error_out)
      (fun next => next.db_create user_context name interruptor result_out error_out)

/-- The method `db_drop`. -/
def db_drop (self : artificial_reql_cluster_interface_t A) (user_context : user_context_t)
    (name : name_string_t) (interruptor : signal_t) (result_out : datum_t)
    (error_out : admin_err_t) : Except fault_t (ret datum_t) :=
  if name = database_name then
    .ok { value := false, result_out := result_out,
          error_out := { msg := "Database `" ++ database_name.c_str
                                  ++ "` is special; you can't delete it.",
                         query_state := query_state_t.FAILED },
          next_calls := [] }
  else
    self.next_or_error_and result_out error_out
      (next_call.db_drop user_context name interruptor result_out error_out)
      (fun next => next.db_drop user_context name interruptor result_out error_out)

/-- The method `db_list`. It tests `m_next` itself, without `next_or_error`. -/
def db_list (self : artificial_reql_cluster_interface_t A) (interruptor : signal_t)
    (names_out : Finset name_string_t) (error_out : admin_err_t) :
    Except fault_t (ret (Finset name_string_t)) :=
  match self.m_next with
  | none =>
    .ok { value := false, result_out := names_out, error_out := error_out, next_calls := [] }
  | some next =>
    let r := next.db_list interruptor names_out error_out
    if r.1 = false then
      .ok { value := false, result_out := r.2.1, error_out := r.2.2,
            next_calls := [next_call.db_list interruptor names_out error_out] }
    else if database_name ∈ r.2.1 then
      .error fault_t.guarantee_failed
    else
      .ok { value := true, result_out := insert database_name r.2.1, error_out := r.2.2,
            next_calls := [next_call.db_list interruptor names_out error_out] }

/-- The method `db_find`. -/
def db_find (F : uuid_functions) (self : artificial_reql_cluster_interface_t A)
    (name : name_string_t) (interruptor : signal_t) (db_out : Option db_t)
    (error_out : admin_err_t) : Except fault_t (ret (Option db_t)) :=
  if name = database_name then
    .ok { value := true, result_out := some { id := database_id F, name := database_name },
          error_out := error_out, next_calls := [] }
  else
    self.next_or_error_and db_out error_out
      (next_call.db_find name interruptor db_out error_out)
      (fun next => next.db_find name interruptor db_out error_out)

/-- The method `db_config`. -/
def db_config (self : artificial_reql_cluster_interface_t A) (user_context : user_context_t)
    (db : db_t) (bt : backtrace_id_t) (env : env_t) (selection_out : Option val_t)
    (error_out : admin_err_t) : Except fault_t (ret (Option val_t)) :=
  if db.name = database_name then
    .ok { value := false, result_out := selection_out,
          error_out := { msg := "Database `" ++ database_name.c_str
                                  ++ "` is special; you can't configure it.",
                         query_state := query_state_t.FAILED },
          next_calls := [] }
  else
    self.next_or_error_and selection_out error_out
      (next_call.db_config user_context db bt env selection_out error_out)
      (fun next => next.db_config user_context db bt env selection_out error_out)

/-- The method `table_create`. -/
def table_create (self : artificial_reql_cluster_interface_t A) (user_context : user_context_t)
    (name : name_string_t) (db : db_t) (config_params : table_generate_config_params_t)
    (primary_key : String) (durability : write_durability_t) (interruptor : signal_t)
    (result_out : datum_t) (error_out : admin_err_t) : Except fault_t (ret datum_t) :=
  if db.name = database_name then
    .ok { value := false, result_out := result_out,
          error_out := { msg := "Database `" ++ database_name.c_str
                                  ++ "` is special; you can't create new tables in it.",
                         query_state := query_state_t.FAILED },
          next_calls := [] }
  else
    self.next_or_error_and result_out error_out
      (next_call.table_create user_context name db config_params primary_key durability
        interruptor result_out error_out)
      (fun next => next.table_create user_context name db config_params primary_key durability
        interruptor result_out error_out)

/-- The method `table_drop`. -/
def table_drop (self : artificial_reql_cluster_interface_t A) (user_context : user_context_t)
    (name : name_string_t) (db : db_t) (interruptor : signal_t) (result_out : datum_t)
    (error_out : admin_err_t) : Except fault_t (ret datum_t) :=
  if db.name = database_name then
    .ok { value := false, result_out := result_out,
          error_out := { msg := "Database `" ++ database_name.c_str
                                  ++ "` is special; you can't drop tables in it.",
                         query_state := query_state_t.FAILED },
          next_calls := [] }
  else
    self.next_or_error_and result_out error_out
      (next_call.table_drop user_context name db interruptor result_out error_out)
      (fun next => next.table_drop user_context name db interruptor result_out error_out)

/-- The method `table_list`. The loop runs over the entries of `m_table_backends` in
iteration order, skips a name whose first character is an underscore and inserts every
other name into `*names_out`. -/
def table_list (self : artificial_reql_cluster_interface_t A) (db : db_t)
    (interruptor : signal_t) (names_out : Finset name_string_t) (error_out : admin_err_t) :
    Except fault_t (ret (Finset name_string_t)) :=
  if db.name = database_name then
    .ok { value := true,
          result_out := self.m_table_backends.entries.foldl
            (fun names it => if std_string_at0 it.1.str = '_' then names else insert it.1 names)
            names_out,
          error_out := error_out, next_calls := [] }
  else
    self.next_or_error_and names_out error_out
      (next_call.table_list db interruptor names_out error_out)
      (fun next => next.table_list db interruptor names_out error_out)

/-- The method `table_find`. -/
def table_find (F : uuid_functions) (self : artificial_reql_cluster_interface_t A)
    (name : name_string_t) (db : db_t) (identifier_format : Option admin_identifier_format_t)
    (interruptor : signal_t) (table_out : Option base_table_t) (error_out : admin_err_t) :
    Except fault_t (ret (Option base_table_t)) :=
  if db.name = database_name then
    match self.m_table_backends.find name with
    | some it =>
      let backend : backend_ptr :=
        match identifier_format with
        | none => it.2.1
        | some admin_identifier_format_t.name => it.2.1
        | some admin_identifier_format_t.uuid => it.2.2
      .ok { value := true,
            result_out := some (base_table_t.artificial_table_t self.m_rdb_context
              (database_id F) backend),
            error_out := error_out, next_calls := [] }
    | none =>
      .ok { value := false, result_out := table_out,
            error_out := { msg := "Table `" ++ database_name.c_str ++ "." ++ name.c_str
                                    ++ "` does not exist.",
                           query_state := query_state_t.FAILED },
            next_calls := [] }
  else
    self.next_or_error_and table_out error_out
      (next_call.table_find name db identifier_format interruptor table_out error_out)
      (fun next => next.table_find name db identifier_format interruptor table_out error_out)

/-- The method `table_estimate_doc_counts`. The local `docs` starts as a null
`counted_t`; the body of the `try` block is `run_terminal` followed by `as_int`, and the
`catch` clause takes a `ql::base_exc_t` only, so any other exception leaves the
method. -/
def table_estimate_doc_counts (self : artificial_reql_cluster_interface_t A)
    (user_context : user_context_t) (db : db_t) (name : name_string_t) (env : env_t)
    (doc_counts_out : List Int) (error_out : admin_err_t) : Except fault_t (ret (List Int)) :=
  if db.name = database_name then
    match self.m_table_backends.find name with
    | some it =>
      match it.2.2 with
      | none => .error fault_t.null_dereference
      | some backend =>
        match backend.read_all_rows_as_stream user_context backtrace_id_t.empty
            { range := datum_range_t.universe } sorting_t.UNORDERED env.interruptor none
            error_out with
        | (false, _, error_out1) =>
          .ok { value := false, result_out := doc_counts_out,
                error_out := { error_out1 with
                  msg := "When estimating doc count: " ++ error_out1.msg },
                next_calls := [] }
        | (true, none, _) => .error fault_t.null_dereference
        | (true, some docs, error_out1) =>
          match (docs.run_terminal env {}).bind (fun count => count.as_int) with
          | .ok count =>
            .ok { value := true, result_out := [count], error_out := error_out1,
                  next_calls := [] }
          | .error (exception_t.base_exc_t what) =>
            .ok { value := false, result_out := doc_counts_out,
                  error_out := { msg := "When estimating doc count: " ++ what,
                                 query_state := query_state_t.FAILED },
                  next_calls := [] }
          | .error e => .error (fault_t.uncaught e)
    | none =>
      .ok { value := false, result_out := doc_counts_out,
            error_out := { msg := "Table `" ++ database_name.c_str ++ "." ++ name.c_str
                                    ++ "` does not exist.",
                           query_state := query_state_t.FAILED },
            next_calls := [] }
  else
    self.next_or_error_and doc_counts_out error_out
      (next_call.table_estimate_doc_counts user_context db name env doc_counts_out error_out)
      (fun next => next.table_estimate_doc_counts user_context db name env doc_counts_out
        error_out)

/-- The method `table_config`. -/
def table_config (self : artificial_reql_cluster_interface_t A) (user_context : user_context_t)
    (db : db_t) (name : name_string_t) (bt : backtrace_id_t) (env : env_t)
    (selection_out : Option val_t) (error_out : admin_err_t) :
    Except fault_t (ret (Option val_t)) :=
  if db.name = database_name then
    .ok { value := false, result_out := selection_out,
          error_out := { msg := "Database `" ++ database_name.c_str
                                  ++ "` is special; you can't configure the tables in it.",
                         query_state := query_state_t.FAILED },
          next_calls := [] }
  else
    self.next_or_error_and selection_out error_out
      (next_call.table_config user_context db name bt env selection_out error_out)
      (fun next => next.table_config user_context db name bt env selection_out error_out)

/-- The method `table_status`. -/
def table_status (self : artificial_reql_cluster_interface_t A) (db : db_t)
    (name : name_string_t) (bt : backtrace_id_t) (env : env_t) (selection_out : Option val_t)
    (error_out : admin_err_t) : Except fault_t (ret (Option val_t)) :=
  if db.name = database_name then
    .ok { value := false, result_out := selection_out,
          error_out := { msg := "Database `" ++ database_name.c_str
              ++ "` is special; the system tables in it don't have meaningful status information.",
                         query_state := query_state_t.FAILED },
          next_calls := [] }
  else
    self.next_or_error_and selection_out error_out
      (next_call.table_status db name bt env selection_out error_out)
      (fun next => next.table_status db name bt env selection_out error_out)

/-- The method `table_wait`. -/
def table_wait (self : artificial_reql_cluster_interface_t A) (db : db_t)
    (name : name_string_t) (readiness : table_readiness_t) (interruptor : signal_t)
    (result_out : datum_t) (error_out : admin_err_t) : Except fault_t (ret datum_t) :=
  if db.name = database_name then
    .ok { value := false, result_out := result_out,
          error_out := { msg := "Database `" ++ database_name.c_str
  ++ "` is special; the system tables in it are always available and don't need to be waited on.",
                         query_state := query_state_t.FAILED },
          next_calls := [] }
  else
    self.next_or_error_and result_out error_out
      (next_call.table_wait db name readiness interruptor result_out error_out)
      (fun next => next.table_wait db name readiness interruptor result_out error_out)

/-- The method `db_wait`. -/
def db_wait (self : artificial_reql_cluster_interface_t A) (db : db_t)
    (readiness : table_readiness_t) (interruptor : signal_t) (result_out : datum_t)
    (error_out : admin_err_t) : Except fault_t (ret datum_t) :=
  if db.name = database_name then
    .ok { value := false, result_out := result_out,
          error_out := { msg := "Database `" ++ database_name.c_str
  ++ "` is special; the system tables in it are always available and don't need to be waited on.",
                         query_state := query_state_t.FAILED },
          next_calls := [] }
  else
    self.next_or_error_and result_out error_out
      (next_call.db_wait db readiness interruptor result_out error_out)
      (fun next => next.db_wait db readiness interruptor result_out error_out)

/-- The method `table_reconfigure`. -/
def table_reconfigure (self : artificial_reql_cluster_interface_t A)
    (user_context : user_context_t) (db : db_t) (name : name_string_t)
    (params : table_generate_config_params_t) (dry_run : Bool) (interruptor : signal_t)
    (result_out : datum_t) (error_out : admin_err_t) : Except fault_t (ret datum_t) :=
  if db.name = database_name then
    .ok { value := false, result_out := result_out,
          error_out := { msg := "Database `" ++ database_name.c_str
                                  ++ "` is special; you can't configure the tables in it.",
                         query_state := query_state_t.FAILED },
          next_calls := [] }
  else
    self.next_or_error_and result_out error_out
      (next_call.table_reconfigure user_context db name params dry_run interruptor result_out
        error_out)
      (fun next => next.table_reconfigure user_context db name params dry_run interruptor
        result_out error_out)

/-- The method `db_reconfigure`. -/
def db_reconfigure (self : artificial_reql_cluster_interface_t A)
    (user_context : user_context_t) (db : db_t) (params : table_generate_config_params_t)
    (dry_run : Bool) (interruptor : signal_t) (result_out : datum_t)
    (error_out : admin_err_t) : Except fault_t (ret datum_t) :=
  if db.name = database_name then
    .ok { value := false, result_out := result_out,
          error_out := { msg := "Database `" ++ database_name.c_str
                                  ++ "` is special; you can't configure the tables in it.",
                         query_state := query_state_t.FAILED },
          next_calls := [] }
  else
    self.next_or_error_and result_out error_out
      (next_call.db_reconfigure user_context db params dry_run interruptor result_out error_out)
      (fun next => next.db_reconfigure user_context db params dry_run interruptor result_out
        error_out)

/-- The method `table_emergency_repair`. -/
def table_emergency_repair (self : artificial_reql_cluster_interface_t A)
    (user_context : user_context_t) (db : db_t) (name : name_string_t)
    (mode : emergency_repair_mode_t) (dry_run : Bool) (interruptor : signal_t)
    (result_out : datum_t) (error_out : admin_err_t) : Except fault_t (ret datum_t) :=
  if db.name = database_name then
    .ok { value := false, result_out := result_out,
          error_out := { msg := "Database `" ++ database_name.c_str
                                  ++ "` is special; you can't configure the tables in it.",
                         query_state := query_state_t.FAILED },
          next_calls := [] }
  else
    self.next_or_error_and result_out error_out
      (next_call.table_emergency_repair user_context db name mode dry_run interruptor
        result_out error_out)
      (fun next => next.table_emergency_repair user_context db name mode dry_run interruptor
        result_out error_out)

/-- The method `table_rebalance`. -/
def table_rebalance (self : artificial_reql_cluster_interface_t A)
    (user_context : user_context_t) (db : db_t) (name : name_string_t)
    (interruptor : signal_t) (result_out : datum_t) (error_out : admin_err_t) :
    Except fault_t (ret datum_t) :=
  if db.name = database_name then
    .ok { value := false, result_out := result_out,
          error_out := { msg := "Database `" ++ database_name.c_str
                                  ++ "` is special; you can't rebalance the tables in it.",
                         query_state := query_state_t.FAILED },
          next_calls := [] }
  else
    self.next_or_error_and result_out error_out
      (next_call.table_rebalance user_context db name interruptor result_out error_out)
      (fun next => next.table_rebalance user_context db name interruptor result_out error_out)

/-- The method `db_rebalance`. -/
def db_rebalance (self : artificial_reql_cluster_interface_t A)
    (user_context : user_context_t) (db : db_t) (interruptor : signal_t)
    (result_out : datum_t) (error_out : admin_err_t) : Except fault_t (ret datum_t) :=
  if db.name = database_name then
    .ok { value := false, result_out := result_out,
          error_out := { msg := "Database `" ++ database_name.c_str
                                  ++ "` is special; you can't rebalance the tables in it.",
                         query_state := query_state_t.FAILED },
          next_calls := [] }
  else
    self.next_or_error_and result_out error_out
      (next_call.db_rebalance user_context db interruptor result_out error_out)
      (fun next => next.db_rebalance user_context db interruptor result_out error_out)

/-- The method `grant_global`. -/
def grant_global (self : artificial_reql_cluster_interface_t A)
    (user_context : user_context_t) (username : username_t) (permissions : datum_t)
    (interruptor : signal_t) (result_out : datum_t) (error_out : admin_err_t) :
    Except fault_t (ret datum_t) :=
  self.next_or_error_and result_out error_out
    (next_call.grant_global user_context username permissions interruptor result_out error_out)
    (fun next => next.grant_global user_context username permissions interruptor result_out
      error_out)

/-- The method `grant_database`. Next to the `ret` it hands back the content of the
semilattice view after the call. In the branch of the reserved database the
interruptor given to `auth::grant` is the `cross_thread_signal_t` built from
`interruptor` and `home_thread()`, and the selector is the lambda
`user.get_database_permissions(database)`. -/
def grant_database (F : uuid_functions) (self : artificial_reql_cluster_interface_t A)
    (user_context : user_context_t) (database : database_id_t) (username : username_t)
    (permissions : datum_t) (interruptor : signal_t) (result_out : datum_t)
    (error_out : admin_err_t) :
    Except fault_t (ret datum_t × A.auth_semilattice_metadata_t) :=
  if database = database_id F then
    let cross_thread_interruptor := signal_t.cross_thread_signal_t interruptor self.home_thread
    let r := A.grant self.m_auth_semilattice_view self.m_rdb_context user_context username
      permissions cross_thread_interruptor
      (fun user => A.get_database_permissions user database) result_out error_out
    .ok ({ value := r.1.1, result_out := r.1.2.1, error_out := r.1.2.2, next_calls := [] }, r.2)
  else
    (self.next_or_error_and result_out error_out
      (next_call.grant_database user_context database username permissions interruptor
        result_out error_out)
      (fun next => next.grant_database user_context database username permissions interruptor
        result_out error_out)).map (fun r => (r, self.m_auth_semilattice_view))

/-- The method `grant_table`, built like `grant_database`; the selector is the lambda
`user.get_table_permissions(table)`. -/
def grant_table (F : uuid_functions) (self : artificial_reql_cluster_interface_t A)
    (user_context : user_context_t) (database : database_id_t) (table : namespace_id_t)
    (username : username_t) (permissions : datum_t) (interruptor : signal_t)
    (result_out : datum_t) (error_out : admin_err_t) :
    Except fault_t (ret datum_t × A.auth_semilattice_metadata_t) :=
  if database = database_id F then
    let cross_thread_interruptor := signal_t.cross_thread_signal_t interruptor self.home_thread
    let r := A.grant self.m_auth_semilattice_view self.m_rdb_context user_context username
      permissions cross_thread_interruptor
      (fun user => A.get_table_permissions user table) result_out error_out
    .ok ({ value := r.1.1, result_out := r.1.2.1, error_out := r.1.2.2, next_calls := [] }, r.2)
  else
    (self.next_or_error_and result_out error_out
      (next_call.grant_table user_context database table username permissions interruptor
        result_out error_out)
      (fun next => next.grant_table user_context database table username permissions
        interruptor result_out error_out)).map (fun r => (r, self.m_auth_semilattice_view))

/-- The method `set_write_hook`. The result out-parameter is the reference argument
`config`. The last statement is `return m_next->set_write_hook(...)`, without
`next_or_error`. -/
def set_write_hook (self : artificial_reql_cluster_interface_t A)
    (user_context : user_context_t) (db : db_t) (table : name_string_t)
    (config : Option write_hook_config_t) (interruptor : signal_t) (error_out : admin_err_t) :
    Except fault_t (ret (Option write_hook_config_t)) :=
  if db.name = database_name then
    .ok { value := false, result_out := config,
          error_out := { msg := "Database `" ++ database_name.c_str
                            ++ "` is special; you can't set a write hook on the tables in it.",
                         query_state := query_state_t.FAILED },
          next_calls := [] }
  else
    self.deref_next
      (next_call.set_write_hook user_context db table config interruptor error_out)
      (fun next => next.set_write_hook user_context db table config interruptor error_out)

/-- The method `get_write_hook`. The last statement is
`return m_next->get_write_hook(...)`, without `next_or_error`. -/
def get_write_hook (self : artificial_reql_cluster_interface_t A)
    (user_context : user_context_t) (db : db_t) (table : name_string_t)
    (interruptor : signal_t) (write_hook_datum_out : datum_t) (error_out : admin_err_t) :
    Except fault_t (ret datum_t) :=
  if db.name = database_name then
    .ok { value := true, result_out := datum_t.null, error_out := error_out,
          next_calls := [] }
  else
    self.deref_next
      (next_call.get_write_hook user_context db table interruptor write_hook_datum_out
        error_out)
      (fun next => next.get_write_hook user_context db table interruptor write_hook_datum_out
        error_out)

/-- The method `sindex_create`. -/
def sindex_create (self : artificial_reql_cluster_interface_t A)
    (user_context : user_context_t) (db : db_t) (table : name_string_t) (name : String)
    (config : sindex_config_t) (interruptor : signal_t) (error_out : admin_err_t) :
    Except fault_t (ret Unit) :=
  if db.name = database_name then
    .ok { value := false, result_out := (),
          error_out := { msg := "Database `" ++ database_name.c_str
                  ++ "` is special; you can't create secondary indexes on the tables in it.",
                         query_state := query_state_t.FAILED },
          next_calls := [] }
  else
    self.next_or_error_and () error_out
      (next_call.sindex_create user_context db table name config interruptor error_out)
      (fun next => next.sindex_create user_context db table name config interruptor error_out)

/-- The method `sindex_drop`. -/
def sindex_drop (self : artificial_reql_cluster_interface_t A)
    (user_context : user_context_t) (db : db_t) (table : name_string_t) (name : String)
    (interruptor : signal_t) (error_out : admin_err_t) : Except fault_t (ret Unit) :=
  if db.name = database_name then
    .ok { value := false, result_out := (),
          error_out := { msg := "Index `" ++ std_string_c_str name
                                  ++ "` does not exist on table `" ++ db.name.c_str ++ "."
                                  ++ table.c_str ++ "`.",
                         query_state := query_state_t.FAILED },
          next_calls := [] }
  else
    self.next_or_error_and () error_out
      (next_call.sindex_drop user_context db table name interruptor error_out)
      (fun next => next.sindex_drop user_context db table name interruptor error_out)

/-- The method `sindex_rename`. -/
def sindex_rename (self : artificial_reql_cluster_interface_t A)
    (user_context : user_context_t) (db : db_t) (table : name_string_t) (name : String)
    (new_name : String) (overwrite : Bool) (interruptor : signal_t)
    (error_out : admin_err_t) : Except fault_t (ret Unit) :=
  if db.name = database_name then
    .ok { value := false, result_out := (),
          error_out := { msg := "Index `" ++ std_string_c_str name
                                  ++ "` does not exist on table `" ++ db.name.c_str ++ "."
                                  ++ table.c_str ++ "`.",
                         query_state := query_state_t.FAILED },
          next_calls := [] }
  else
    self.next_or_error_and () error_out
      (next_call.sindex_rename user_context db table name new_name overwrite interruptor
        error_out)
      (fun next => next.sindex_rename user_context db table name new_name overwrite
        interruptor error_out)

/-- The method `sindex_list`. -/
def sindex_list (self : artificial_reql_cluster_interface_t A) (db : db_t)
    (table : name_string_t) (interruptor : signal_t) (error_out : admin_err_t)
    (configs_and_statuses_out : sindex_map_t) : Except fault_t (ret sindex_map_t) :=
  if db.name = database_name then
    .ok { value := true, result_out := [], error_out := error_out, next_calls := [] }
  else
    self.next_or_error_and configs_and_statuses_out error_out
      (next_call.sindex_list db table interruptor error_out configs_and_statuses_out)
      (fun next => next.sindex_list db table interruptor error_out configs_and_statuses_out)

/-- The method `get_table_backend`; the result `none` is `nullptr`. -/
def get_table_backend (self : artificial_reql_cluster_interface_t A)
    (table_name : name_string_t) (admin_identifier_format : admin_identifier_format_t) :
    backend_ptr :=
  match self.m_table_backends.find table_name with
  | some table_backend =>
    match admin_identifier_format with
    | admin_identifier_format_t.name => table_backend.2.1
    | admin_identifier_format_t.uuid => table_backend.2.2
  | none => none

/-- The method `get_table_backends_map`. -/
def get_table_backends_map (self : artificial_reql_cluster_interface_t A) :
    table_backends_map_t :=
  self.m_table_backends

end artificial_reql_cluster_interface_t

/-! ## Registration of table backends -/

/-- The place of a new entry in a list of entries that is in key order: before the
first entry with a greater key. Names are ordered as their strings, character by
character. -/
def insert_in_key_order (entry : name_string_t × (backend_ptr × backend_ptr)) :
    List (name_string_t × (backend_ptr × backend_ptr)) →
      List (name_string_t × (backend_ptr × backend_ptr))
  | [] => [entry]
  | hd :: tl =>
    if entry.1.str.data < hd.1.str.data then entry :: hd :: tl
    else hd :: insert_in_key_order entry tl

/-- The method `std::map::insert`: with a key that the map does not hold, the entry
is added and the flag is `true`; with a key that it holds, the map stays as it is and
the flag is `false`. -/
def table_backends_map_t.insert (m : table_backends_map_t)
    (entry : name_string_t × (backend_ptr × backend_ptr)) : table_backends_map_t × Bool :=
  match m.find entry.1 with
  | some _ => (m, false)
  | none => ({ entries := insert_in_key_order entry m.entries }, true)

/-- The method `std::map::erase` for the entry of the given key. -/
def table_backends_map_t.erase (m : table_backends_map_t) (name : name_string_t) :
    table_backends_map_t :=
  { entries := m.entries.filter (fun it => decide (it.1 ≠ name)) }

/-- Modelled from the spec: the class `backend_sentry_t`, which the file constructs and
which is declared outside it. Section 3: a ScopedRegistration "owns exactly one
(TableName → BackendEntry) mapping inside a registry; on destruction it must remove
precisely that mapping". `key` is the name of the mapping it owns. -/
structure backend_sentry_t where
  key : name_string_t
deriving DecidableEq

/-- Modelled from the spec: the constructor `backend_sentry_t(map, name, pair)`.
Section 4.2: "ScopedRegistration wraps `insert` at construction" and
"`insert(name, entry) -> fails if name already present`"; section 7: duplicate
registration of the same name is an invariant violation that aborts. The result is
the map after the insertion and the sentry. -/
def backend_sentry_t.constructor (map : table_backends_map_t) (name : name_string_t)
    (pair : backend_ptr × backend_ptr) :
    Except fault_t (table_backends_map_t × backend_sentry_t) :=
  match map.insert (name, pair) with
  | (map1, true) => .ok (map1, { key := name })
  | (_, false) => .error fault_t.guarantee_failed

/-- Modelled from the spec: the destructor of `backend_sentry_t`. Section 4.2:
"ScopedRegistration wraps `insert` at construction and `remove` at destruction". The
result is the map after the removal. -/
def backend_sentry_t.destructor (sentry : backend_sentry_t) (map : table_backends_map_t) :
    table_backends_map_t :=
  map.erase sentry.key

/-- The method `get_table_backends_map_mutable` returns the address of
`m_table_backends`; this is the dispatcher after the map `map` was stored through that
pointer. -/
def artificial_reql_cluster_interface_t.store_table_backends_map {A : auth_lib}
    (self : artificial_reql_cluster_interface_t A) (map : table_backends_map_t) :
    artificial_reql_cluster_interface_t A :=
  { self with m_table_backends := map }

/-! ## The standard backends -/

/-- The objects that the `new` expressions in the constructor of
`artificial_reql_cluster_backends_t` create, one field for each expression; the two
objects of a loop `for (int format = 0; format < 2; ++format)` are the fields `_0` and
`_1`. The classes of the objects are declared outside the file, so the objects are
parameters of the constructor. -/
structure new_backends_t where
  permissions_backend_0 : artificial_table_backend_t
  permissions_backend_1 : artificial_table_backend_t
  users_backend : artificial_table_backend_t
  cluster_config_backend : artificial_table_backend_t
  db_config_backend : artificial_table_backend_t
  issues_backend_0 : artificial_table_backend_t
  issues_backend_1 : artificial_table_backend_t
  logs_backend_0 : artificial_table_backend_t
  logs_backend_1 : artificial_table_backend_t
  server_config_backend : artificial_table_backend_t
  server_status_backend_0 : artificial_table_backend_t
  server_status_backend_1 : artificial_table_backend_t
  stats_backend_0 : artificial_table_backend_t
  stats_backend_1 : artificial_table_backend_t
  table_config_backend_0 : artificial_table_backend_t
  table_config_backend_1 : artificial_table_backend_t
  table_status_backend_0 : artificial_table_backend_t
  table_status_backend_1 : artificial_table_backend_t
  jobs_backend_0 : artificial_table_backend_t
  jobs_backend_1 : artificial_table_backend_t
  debug_scratch_backend : artificial_table_backend_t
  debug_stats_backend : artificial_table_backend_t
  debug_table_status_backend : artificial_table_backend_t

/-- The data members of an `artificial_reql_cluster_backends_t` that its constructor
sets: for each table the `scoped_ptr_t` of its backend (a pair for an array
`x_backend[2]`) and its sentry. -/
structure artificial_reql_cluster_backends_t where
  permissions_backend : backend_ptr × backend_ptr
  permissions_sentry : backend_sentry_t
  users_backend : backend_ptr
  users_sentry : backend_sentry_t
  cluster_config_backend : backend_ptr
  cluster_config_sentry : backend_sentry_t
  db_config_backend : backend_ptr
  db_config_sentry : backend_sentry_t
  issues_backend : backend_ptr × backend_ptr
  issues_sentry : backend_sentry_t
  logs_backend : backend_ptr × backend_ptr
  logs_sentry : backend_sentry_t
  server_config_backend : backend_ptr
  server_config_sentry : backend_sentry_t
  server_status_backend : backend_ptr × backend_ptr
  server_status_sentry : backend_sentry_t
  stats_backend : backend_ptr × backend_ptr
  stats_sentry : backend_sentry_t
  table_config_backend : backend_ptr × backend_ptr
  table_config_sentry : backend_sentry_t
  table_status_backend : backend_ptr × backend_ptr
  table_status_sentry : backend_sentry_t
  jobs_backend : backend_ptr × backend_ptr
  jobs_sentry : backend_sentry_t
  debug_scratch_backend : backend_ptr
  debug_scratch_sentry : backend_sentry_t
  debug_stats_backend : backend_ptr
  debug_stats_sentry : backend_sentry_t
  debug_table_status_backend : backend_ptr
  debug_table_status_sentry : backend_sentry_t

/-- The constructor of `artificial_reql_cluster_backends_t`. Every `init(new ...)`
stores the address of the new object, every `backend_sentry_t(...)` works on the map
behind `get_table_backends_map_mutable()`. The result is the dispatcher with the map
as the constructor leaves it, and the members. -/
def artificial_reql_cluster_backends_t.constructor {A : auth_lib}
    (artificial_reql_cluster_interface : artificial_reql_cluster_interface_t A)
    (created : new_backends_t) :
    Except fault_t (artificial_reql_cluster_interface_t A × artificial_reql_cluster_backends_t) := do
  let map := artificial_reql_cluster_interface.m_table_backends
  let permissions_backend : backend_ptr × backend_ptr :=
    (some created.permissions_backend_0, some created.permissions_backend_1)
  let (map, permissions_sentry) ← backend_sentry_t.constructor map
    { str := "permissions", no_nul := by decide } (permissions_backend.1, permissions_backend.2)
  let users_backend : backend_ptr := some created.users_backend
  let (map, users_sentry) ← backend_sentry_t.constructor map
    { str := "users", no_nul := by decide } (users_backend, users_backend)
  let cluster_config_backend : backend_ptr := some created.cluster_config_backend
  let (map, cluster_config_sentry) ← backend_sentry_t.constructor map
    { str := "cluster_config", no_nul := by decide } (cluster_config_backend, cluster_config_backend)
  let db_config_backend : backend_ptr := some created.db_config_backend
  let (map, db_config_sentry) ← backend_sentry_t.constructor map
    { str := "db_config", no_nul := by decide } (db_config_backend, db_config_backend)
  let issues_backend : backend_ptr × backend_ptr :=
    (some created.issues_backend_0, some created.issues_backend_1)
  let (map, issues_sentry) ← backend_sentry_t.constructor map
    { str := "current_issues", no_nul := by decide } (issues_backend.1, issues_backend.2)
  let logs_backend : backend_ptr × backend_ptr :=
    (some created.logs_backend_0, some created.logs_backend_1)
  let (map, logs_sentry) ← backend_sentry_t.constructor map
    { str := "logs", no_nul := by decide } (logs_backend.1, logs_backend.2)
  let server_config_backend : backend_ptr := some created.server_config_backend
  let (map, server_config_sentry) ← backend_sentry_t.constructor map
    { str := "server_config", no_nul := by decide } (server_config_backend, server_config_backend)
  let server_status_backend : backend_ptr × backend_ptr :=
    (some created.server_status_backend_0, some created.server_status_backend_1)
  let (map, server_status_sentry) ← backend_sentry_t.constructor map
    { str := "server_status", no_nul := by decide } (server_status_backend.1, server_status_backend.2)
  let stats_backend : backend_ptr × backend_ptr :=
    (some created.stats_backend_0, some created.stats_backend_1)
  let (map, stats_sentry) ← backend_sentry_t.constructor map
    { str := "stats", no_nul := by decide } (stats_backend.1, stats_backend.2)
  let table_config_backend : backend_ptr × backend_ptr :=
    (some created.table_config_backend_0, some created.table_config_backend_1)
  let (map, table_config_sentry) ← backend_sentry_t.constructor map
    { str := "table_config", no_nul := by decide } (table_config_backend.1, table_config_backend.2)
  let table_status_backend : backend_ptr × backend_ptr :=
    (some created.table_status_backend_0, some created.table_status_backend_1)
  let (map, table_status_sentry) ← backend_sentry_t.constructor map
    { str := "table_status", no_nul := by decide } (table_status_backend.1, table_status_backend.2)
  let jobs_backend : backend_ptr × backend_ptr :=
    (some created.jobs_backend_0, some created.jobs_backend_1)
  let (map, jobs_sentry) ← backend_sentry_t.constructor map
    { str := "jobs", no_nul := by decide } (jobs_backend.1, jobs_backend.2)
  let debug_scratch_backend : backend_ptr := some created.debug_scratch_backend
  let (map, debug_scratch_sentry) ← backend_sentry_t.constructor map
    { str := "_debug_scratch", no_nul := by decide } (debug_scratch_backend, debug_scratch_backend)
  let debug_stats_backend : backend_ptr := some created.debug_stats_backend
  let (map, debug_stats_sentry) ← backend_sentry_t.constructor map
    { str := "_debug_stats", no_nul := by decide } (debug_stats_backend, debug_stats_backend)
  let debug_table_status_backend : backend_ptr := some created.debug_table_status_backend
  let (map, debug_table_status_sentry) ← backend_sentry_t.constructor map
    { str := "_debug_table_status", no_nul := by decide } (debug_table_status_backend, debug_table_status_backend)
  return (artificial_reql_cluster_interface.store_table_backends_map map,
    { permissions_backend := permissions_backend
      permissions_sentry := permissions_sentry
      users_backend := users_backend
      users_sentry := users_sentry
      cluster_config_backend := cluster_config_backend
      cluster_config_sentry := cluster_config_sentry
      db_config_backend := db_config_backend
      db_config_sentry := db_config_sentry
      issues_backend := issues_backend
      issues_sentry := issues_sentry
      logs_backend := logs_backend
      logs_sentry := logs_sentry
      server_config_backend := server_config_backend
      server_config_sentry := server_config_sentry
      server_status_backend := server_status_backend
      server_status_sentry := server_status_sentry
      stats_backend := stats_backend
      stats_sentry := stats_sentry
      table_config_backend := table_config_backend
      table_config_sentry := table_config_sentry
      table_status_backend := table_status_backend
      table_status_sentry := table_status_sentry
      jobs_backend := jobs_backend
      jobs_sentry := jobs_sentry
      debug_scratch_backend := debug_scratch_backend
      debug_scratch_sentry := debug_scratch_sentry
      debug_stats_backend := debug_stats_backend
      debug_stats_sentry := debug_stats_sentry
      debug_table_status_backend := debug_table_status_backend
      debug_table_status_sentry := debug_table_status_sentry })

/-! ## The term `make_obj`

A shallow embedding of the class `make_obj_term_t` of
`src/rdb_protocol/terms/datum_terms.cc`. A function that can leave by an exception
returns an `Except exception_t`; `rcheck` raises an exception of the `ql::base_exc_t`
hierarchy with the given message (its type tag, `base_exc_t::GENERIC`, is not kept). -/

/-- The protobuf message `Term`, as far as the file reads it: the type tag, the
positional arguments (`args`) and the named arguments (`optargs`, the list of the
`Term_AssocPair`s with their `key` and `val`). -/
inductive Term where
  | mk (type : Nat) (args : List Term) (optargs : List (String × Term))

/-- The positional arguments of a `Term`. -/
def Term.args : Term → List Term
  | .mk _ args _ => args

/-- The named arguments of a `Term`. -/
def Term.optargs : Term → List (String × Term)
  | .mk _ _ optargs => optargs

/-- The method `Term::args_size()`. -/
def Term.args_size (term : Term) : Nat := term.args.length

/-- The method `Term::optargs_size()`. -/
def Term.optargs_size (term : Term) : Nat := term.optargs.length

namespace ql

structure compile_env_t where
  id : Nat
deriving DecidableEq, Repr

structure scope_env_t where
  id : Nat
deriving DecidableEq, Repr

/-- The enumeration `eval_flags_t`, a set of bits. -/
structure eval_flags_t where
  bits : Nat
deriving DecidableEq, Repr

/-- The flag set `NO_FLAGS`. -/
def NO_FLAGS : eval_flags_t := { bits := 0 }

/-- The flag `LITERAL_OK`. -/
def LITERAL_OK : eval_flags_t := { bits := 1 }

/-- An object of the abstract class `term_t`, by its method `eval`. -/
structure term_t where
  id : Nat
  eval : scope_env_t → eval_flags_t → Except exception_t val_t

/-- The function `new_val` for a datum. -/
def new_val (d : datum_t) : val_t := { datum := d }

/-- The method `val_t::as_datum()` of the value of a sub-term. -/
def as_datum (v : val_t) : datum_t := v.datum

/-- The macro `rcheck(pred, base_exc_t::GENERIC, msg)`: nothing happens when `pred`
holds, otherwise an exception with the message `msg` is raised. -/
def rcheck (pred : Bool) (msg : String) : Except exception_t Unit :=
  if pred then .ok () else .error (exception_t.base_exc_t msg)

/-- The class `datum_ptr_t` (declared in `rdb_protocol/datum.hpp`, outside the file) for
an object under construction, as a parameter of the development. `empty` is the value
of `datum_ptr_t acc(datum_t::R_OBJECT)`; `add acc key val` is the call
`acc.add(key, val)`: the object afterwards and the returned `bool`; `to_counted` is
`acc.to_counted()`; `keys` are the keys that an object holds. The last three fields are
the contract of the class on which `term_eval` relies: a new object holds no key, the
`bool` of `add` tells that the key was already there (the file calls it `dup`), and
after `add` the object holds the key next to the keys it held. -/
structure datum_ptr_lib where
  object : Type
  empty : object
  add : object → String → datum_t → object × Bool
  to_counted : object → datum_t
  keys : object → Finset String
  keys_empty : keys empty = ∅
  add_flag : ∀ (acc : object) (key : String) (val : datum_t),
    (add acc key val).2 = true ↔ key ∈ keys acc
  keys_add : ∀ (acc : object) (key : String) (val : datum_t),
    keys (add acc key val).1 = insert key (keys acc)

/-- The place of a new entry in the entries of a `std::map` with `std::string` keys,
which are in key order: before the first entry with a greater key. Strings are ordered
character by character. -/
def std_map_insert_in_key_order {V : Type} (entry : String × V) :
    List (String × V) → List (String × V)
  | [] => [entry]
  | hd :: tl =>
    if entry.1.data < hd.1.data then entry :: hd :: tl
    else hd :: std_map_insert_in_key_order entry tl

/-- The method `std::map::insert` on a map with `std::string` keys, given by its
entries in iteration order: with a key that the map does not hold, the entry is added
and the flag (`res.second`) is `true`; with a key that it holds, the map stays as it is
and the flag is `false`. -/
def std_map_insert {V : Type} (map : List (String × V)) (entry : String × V) :
    List (String × V) × Bool :=
  if entry.1 ∈ map.map (fun it => it.1) then (map, false)
  else (std_map_insert_in_key_order entry map, true)

/-- The data member of a `make_obj_term_t`: the map `optargs`, by its entries in
iteration order. -/
structure make_obj_term_t where
  optargs : List (String × term_t)

/-- The loop of the constructor of `make_obj_term_t` over the pairs `term->optargs(i)`
that are still to come, with the map `optargs` built so far: the value of the pair is
compiled, the pair of the key and the compiled term is inserted, and `rcheck` raises
"Duplicate object key: " followed by the key when the insertion found the key in the
map. `compile_term` is declared outside the file and is a parameter. -/
def make_obj_term_t.compile_optargs
    (compile_term : compile_env_t → Term → Except exception_t term_t) (env : compile_env_t) :
    List (String × Term) → List (String × term_t) → Except exception_t (List (String × term_t))
  | [], optargs => .ok optargs
  | pair :: rest, optargs =>
    match compile_term env pair.2 with
    | .error e => .error e
    | .ok t =>
      match rcheck (std_map_insert optargs (pair.1, t)).2
          ("Duplicate object key: " ++ std_string_c_str pair.1) with
      | .error e => .error e
      | .ok _ =>
        make_obj_term_t.compile_optargs compile_term env rest
          (std_map_insert optargs (pair.1, t)).1

/-- The constructor `make_obj_term_t(env, term)`: the `rcheck` on `args_size()`, then
the loop over the optargs, started with an empty map. -/
def make_obj_term_t.constructor
    (compile_term : compile_env_t → Term → Except exception_t term_t) (env : compile_env_t)
    (term : Term) : Except exception_t make_obj_term_t :=
  match rcheck (term.args_size == 0) "MAKE_OBJ term must not have any args." with
  | .error e => .error e
  | .ok _ =>
    match make_obj_term_t.compile_optargs compile_term env term.optargs [] with
    | .error e => .error e
    | .ok optargs => .ok { optargs := optargs }

/-- The ways in which `term_eval` of a `make_obj_term_t` ends: it returns a value, it is
left by the exception that the evaluation of a sub-term raised, or it is left by the
exception of its own `rcheck(!dup, ...)`. -/
inductive term_eval_t (T : Type) where
  | returned (value : T)
  | raised_by_sub_term (e : exception_t)
  | raised_by_duplicate_check (e : exception_t)

/-- What the caller of `term_eval` sees: the value or the exception. -/
def term_eval_t.to_except {T : Type} : term_eval_t T → Except exception_t T
  | .returned value => .ok value
  | .raised_by_sub_term e => .error e
  | .raised_by_duplicate_check e => .error e

/-- The flags with which `term_eval` evaluates the sub-terms:
`literal_ok ? LITERAL_OK : NO_FLAGS` with `literal_ok = flags & LITERAL_OK`. -/
def make_obj_term_t.new_flags (flags : eval_flags_t) : eval_flags_t :=
  if flags.bits &&& LITERAL_OK.bits ≠ 0 then LITERAL_OK else NO_FLAGS

/-- The loop of `term_eval` over the entries of `optargs` that are still to come, with
the object `acc` built so far: the sub-term is evaluated, its datum is added under the
key, and `rcheck` raises "Duplicate object key: " followed by the key and a period when
`add` reported a duplicate. The sampler of the profiler has no part in the result. -/
def make_obj_term_t.eval_optargs (B : datum_ptr_lib) (env : scope_env_t)
    (new_flags : eval_flags_t) : List (String × term_t) → B.object → term_eval_t B.object
  | [], acc => .returned acc
  | it :: rest, acc =>
    match it.2.eval env new_flags with
    | .error e => .raised_by_sub_term e
    | .ok v =>
      match rcheck (!(B.add acc it.1 (as_datum v)).2)
          ("Duplicate object key: " ++ std_string_c_str it.1 ++ ".") with
      | .error e => .raised_by_duplicate_check e
      | .ok _ =>
        make_obj_term_t.eval_optargs B env new_flags rest (B.add acc it.1 (as_datum v)).1

/-- The loop of `term_eval` over all of `optargs`, started with a new object; the
result is the object `acc` at the end of the loop. -/
def make_obj_term_t.term_eval_acc (B : datum_ptr_lib) (self : make_obj_term_t)
    (env : scope_env_t) (flags : eval_flags_t) : term_eval_t B.object :=
  make_obj_term_t.eval_optargs B env (make_obj_term_t.new_flags flags) self.optargs B.empty

/-- The method `term_eval`: the loop, then `new_val(acc.to_counted())`. -/
def make_obj_term_t.term_eval (B : datum_ptr_lib) (self : make_obj_term_t)
    (env : scope_env_t) (flags : eval_flags_t) : term_eval_t val_t :=
  match self.term_eval_acc B env flags with
  | .returned acc => .returned (new_val (B.to_counted acc))
  | .raised_by_sub_term e => .raised_by_sub_term e
  | .raised_by_duplicate_check e => .raised_by_duplicate_check e

/-- The function `make_make_obj_term`: the new `make_obj_term_t` as a `term_t`, whose
`eval` runs `term_eval`. -/
def make_make_obj_term (B : datum_ptr_lib)
    (compile_term : compile_env_t → Term → Except exception_t term_t) (env : compile_env_t)
    (term : Term) : Except exception_t term_t :=
  match make_obj_term_t.constructor compile_term env term with
  | .error e => .error e
  | .ok self =>
    .ok { id := 0, eval := fun scope flags => (self.term_eval B scope flags).to_except }

end ql

/-! ## Vocabulary of the statements -/

/-- A call was rejected without the next interface being consulted: it returned
`false`, the error has a non-empty message and state `FAILED`, and no call was made on
`m_next`. -/
def rejected_without_next {T : Type} (o : Except fault_t (ret T)) : Prop :=
  ∃ r, o = .ok r ∧ r.value = false ∧ r.error_out.msg ≠ "" ∧
    r.error_out.query_state = query_state_t.FAILED ∧ r.next_calls = []

/-! ## Concrete instances

Small instances of the parameters and of the objects of the embedding, on which the
statements below are evaluated. -/

/-- An instance of the uuid functions; with it `database_id` is the uuid of value 46. -/
def example_uuid_functions : uuid_functions :=
  { str_to_uuid := fun s => { value := s.length }
    from_hash := fun base name => { value := base.value + name.length + 1 } }

/-- An instance of the auth library: a user is a number, a permission reference is a
scope tag with an id, the view holds the list of grants made, and `grant` records the
grant and succeeds with the permissions as its result. -/
def example_auth_lib : auth_lib :=
  { auth_semilattice_metadata_t := List (String × Nat × Nat)
    user_t := Nat
    permissions_ref := Nat × Nat
    get_database_permissions := fun _ database => (0, database.value)
    get_table_permissions := fun _ table => (1, table.value)
    grant := fun view _ _ username permissions _ selector _ error_out =>
      ((true, permissions, error_out), (username.name, selector 0) :: view) }

/-- A backend that answers a request for all rows, unordered, with the given stream
and refuses every other request. -/
def example_backend (addr : Nat) (docs : datum_stream_t) : artificial_table_backend_t :=
  { addr := addr
    read_all_rows_as_stream := fun _ _ datumspec sorting _ rows_out error_out =>
      if datumspec.range = datum_range_t.universe ∧ sorting = sorting_t.UNORDERED then
        (true, some docs, error_out)
      else
        (false, rows_out, { msg := "unexpected request", query_state := query_state_t.FAILED }) }

/-- The table name `logs`. -/
def example_logs : name_string_t := { str := "logs", no_nul := by decide }

/-- The table name `_debug_scratch`. -/
def example_debug_scratch : name_string_t := { str := "_debug_scratch", no_nul := by decide }

/-- The table name `users`. -/
def example_users : name_string_t := { str := "users", no_nul := by decide }

/-- The database name `test`. -/
def example_test : name_string_t := { str := "test", no_nul := by decide }

/-- The name-addressed backend of the table `logs`: one row. -/
def example_logs_by_name : artificial_table_backend_t :=
  example_backend 2 { rows := [datum_t.null], failure := none }

/-- The uuid-addressed backend of the table `logs`: two rows. -/
def example_logs_by_uuid : artificial_table_backend_t :=
  example_backend 3 { rows := [datum_t.null, datum_t.null], failure := none }

/-- The table name `jobs`. -/
def example_jobs : name_string_t := { str := "jobs", no_nul := by decide }

/-- A stream whose evaluation raises an evaluation error. -/
def example_failing_docs : datum_stream_t :=
  { rows := [datum_t.null], failure := some (exception_t.base_exc_t "Evaluation failed.") }

/-- A stream without rows. -/
def example_empty_docs : datum_stream_t := { rows := [], failure := none }

/-- The backend of the table `jobs`: reading its stream raises an evaluation error. -/
def example_jobs_backend : artificial_table_backend_t := example_backend 4 example_failing_docs

/-- The backend of the table `_debug_scratch`: no rows. -/
def example_debug_scratch_backend : artificial_table_backend_t :=
  example_backend 1 example_empty_docs

/-- A registry with the hidden table `_debug_scratch` (one instance in both slots),
the table `logs` (two instances) and the table `jobs` (one instance, whose stream
fails). -/
def example_registry : table_backends_map_t :=
  { entries :=
      [ (example_debug_scratch,
          (some example_debug_scratch_backend, some example_debug_scratch_backend)),
        (example_logs, (some example_logs_by_name, some example_logs_by_uuid)),
        (example_jobs, (some example_jobs_backend, some example_jobs_backend)) ] }

/-- A dispatcher with `example_registry` and no next interface. -/
def example_interface : artificial_reql_cluster_interface_t example_auth_lib :=
  { m_auth_semilattice_view := []
    m_rdb_context := { id := 7 }
    m_table_backends := example_registry
    m_next := none
    home_thread := 0 }

/-- The outcome of a forwarded call that found no next interface: the method returns
`false`, its result out-parameter keeps the contents `result_out` it had, the error is
`{"Failed to find an interface.", FAILED}`, and nothing was called. -/
def failed_to_find_an_interface {T : Type} (result_out : T) : Except fault_t (ret T) :=
  .ok { value := false,
        result_out := result_out,
        error_out := { msg := "Failed to find an interface.",
                       query_state := query_state_t.FAILED },
        next_calls := [] }

/-- A caller. -/
def example_user_context : user_context_t := { id := 1 }

/-- An evaluation environment. -/
def example_env : env_t := { id := 2, interruptor := signal_t.plain 0 }

/-- The database `test`, which is not the reserved one. -/
def example_db : db_t := { id := { value := 9 }, name := example_test }

/-- The contents of an error record before a call. -/
def example_error : admin_err_t := { msg := "", query_state := query_state_t.INDETERMINATE }

/-- The contents of a map of secondary indexes before a call. -/
def example_sindex_map : sindex_map_t := [("by_time", ({ id := 12 }, { id := 13 }))]

/-- The outcome of a call that was handed to the next interface: the method returns
what the next interface replied (`r`), and `call` is the one call that was made. -/
def forwarded {T : Type} (call : next_call) (r : reply T) : Except fault_t (ret T) :=
  .ok { value := r.1, result_out := r.2.1, error_out := r.2.2, next_calls := [call] }

/-- The outcome of a grant that the dispatcher performs itself: `auth::grant` is run
on the semilattice view with the interruptor `cross_thread_signal_t(interruptor,
home_thread())` and the given selector; the method returns what `auth::grant` returned,
the view holds what `auth::grant` left in it, and no call is made on `m_next`. -/
def granted_by_auth {A : auth_lib} (self : artificial_reql_cluster_interface_t A)
    (user_context : user_context_t) (username : username_t) (permissions : datum_t)
    (interruptor : signal_t) (selector : A.user_t → A.permissions_ref) (result_out : datum_t)
    (error_out : admin_err_t) : Except fault_t (ret datum_t × A.auth_semilattice_metadata_t) :=
  .ok ({ value := (A.grant self.m_auth_semilattice_view self.m_rdb_context user_context
                    username permissions
                    (signal_t.cross_thread_signal_t interruptor self.home_thread) selector
                    result_out error_out).1.1,
         result_out := (A.grant self.m_auth_semilattice_view self.m_rdb_context user_context
                    username permissions
                    (signal_t.cross_thread_signal_t interruptor self.home_thread) selector
                    result_out error_out).1.2.1,
         error_out := (A.grant self.m_auth_semilattice_view self.m_rdb_context user_context
                    username permissions
                    (signal_t.cross_thread_signal_t interruptor self.home_thread) selector
                    result_out error_out).1.2.2,
         next_calls := [] },
       (A.grant self.m_auth_semilattice_view self.m_rdb_context user_context username
          permissions (signal_t.cross_thread_signal_t interruptor self.home_thread) selector
          result_out error_out).2)

/-- A next interface: every method succeeds; the methods with a datum result write
the datum `other 1`, the other methods leave their out-parameters as they are. -/
def example_next : reql_cluster_interface_t :=
  { db_create := fun _ _ _ _ error_out => (true, datum_t.other 1, error_out)
    db_drop := fun _ _ _ _ error_out => (true, datum_t.other 1, error_out)
    db_list := fun _ names_out error_out => (true, names_out, error_out)
    db_find := fun name _ _ error_out => (true, some { id := { value := 9 }, name := name },
      error_out)
    db_config := fun _ _ _ _ selection_out error_out => (true, selection_out, error_out)
    table_create := fun _ _ _ _ _ _ _ _ error_out => (true, datum_t.other 1, error_out)
    table_drop := fun _ _ _ _ _ error_out => (true, datum_t.other 1, error_out)
    table_list := fun _ _ names_out error_out => (true, names_out, error_out)
    table_find := fun _ _ _ _ table_out error_out => (true, table_out, error_out)
    table_estimate_doc_counts := fun _ _ _ _ doc_counts_out error_out =>
      (true, doc_counts_out, error_out)
    table_config := fun _ _ _ _ _ selection_out error_out => (true, selection_out, error_out)
    table_status := fun _ _ _ _ selection_out error_out => (true, selection_out, error_out)
    table_wait := fun _ _ _ _ _ error_out => (true, datum_t.other 1, error_out)
    db_wait := fun _ _ _ _ error_out => (true, datum_t.other 1, error_out)
    table_reconfigure := fun _ _ _ _ _ _ _ error_out => (true, datum_t.other 1, error_out)
    db_reconfigure := fun _ _ _ _ _ _ error_out => (true, datum_t.other 1, error_out)
    table_emergency_repair := fun _ _ _ _ _ _ _ error_out =>
      (true, datum_t.other 1, error_out)
    table_rebalance := fun _ _ _ _ _ error_out => (true, datum_t.other 1, error_out)
    db_rebalance := fun _ _ _ _ error_out => (true, datum_t.other 1, error_out)
    grant_global := fun _ _ _ _ _ error_out => (true, datum_t.other 1, error_out)
    grant_database := fun _ _ _ _ _ _ error_out => (true, datum_t.other 1, error_out)
    grant_table := fun _ _ _ _ _ _ _ error_out => (true, datum_t.other 1, error_out)
    set_write_hook := fun _ _ _ config _ error_out => (true, config, error_out)
    get_write_hook := fun _ _ _ _ _ error_out => (true, datum_t.other 1, error_out)
    sindex_create := fun _ _ _ _ _ _ error_out => (true, (), error_out)
    sindex_drop := fun _ _ _ _ _ error_out => (true, (), error_out)
    sindex_rename := fun _ _ _ _ _ _ _ error_out => (true, (), error_out)
    sindex_list := fun _ _ _ error_out configs_and_statuses_out =>
      (true, configs_and_statuses_out, error_out) }

/-- The dispatcher `example_interface` after `set_next_reql_cluster_interface` with
`example_next`. -/
def example_interface_with_next : artificial_reql_cluster_interface_t example_auth_lib :=
  example_interface.set_next_reql_cluster_interface (some example_next)

/-- The map that the constructor of `artificial_reql_cluster_backends_t` leaves behind
when it starts from an empty map, for the created objects `created`: the fifteen
entries in key order. -/
def standard_table_backends (created : new_backends_t) : table_backends_map_t :=
  { entries :=
      [ ({ str := "_debug_scratch", no_nul := by decide },
          (some created.debug_scratch_backend, some created.debug_scratch_backend)),
        ({ str := "_debug_stats", no_nul := by decide },
          (some created.debug_stats_backend, some created.debug_stats_backend)),
        ({ str := "_debug_table_status", no_nul := by decide },
          (some created.debug_table_status_backend, some created.debug_table_status_backend)),
        ({ str := "cluster_config", no_nul := by decide },
          (some created.cluster_config_backend, some created.cluster_config_backend)),
        ({ str := "current_issues", no_nul := by decide },
          (some created.issues_backend_0, some created.issues_backend_1)),
        ({ str := "db_config", no_nul := by decide },
          (some created.db_config_backend, some created.db_config_backend)),
        ({ str := "jobs", no_nul := by decide },
          (some created.jobs_backend_0, some created.jobs_backend_1)),
        ({ str := "logs", no_nul := by decide },
          (some created.logs_backend_0, some created.logs_backend_1)),
        ({ str := "permissions", no_nul := by decide },
          (some created.permissions_backend_0, some created.permissions_backend_1)),
        ({ str := "server_config", no_nul := by decide },
          (some created.server_config_backend, some created.server_config_backend)),
        ({ str := "server_status", no_nul := by decide },
          (some created.server_status_backend_0, some created.server_status_backend_1)),
        ({ str := "stats", no_nul := by decide },
          (some created.stats_backend_0, some created.stats_backend_1)),
        ({ str := "table_config", no_nul := by decide },
          (some created.table_config_backend_0, some created.table_config_backend_1)),
        ({ str := "table_status", no_nul := by decide },
          (some created.table_status_backend_0, some created.table_status_backend_1)),
        ({ str := "users", no_nul := by decide },
          (some created.users_backend, some created.users_backend)) ] }

/-- The dispatcher after the sentry `sentry` was destroyed: its map is the map that
the destructor leaves. -/
def after_destruction {A : auth_lib} (self : artificial_reql_cluster_interface_t A)
    (sentry : backend_sentry_t) : artificial_reql_cluster_interface_t A :=
  self.store_table_backends_map (sentry.destructor self.m_table_backends)

/-- The dispatcher `example_interface` after a sentry registered the table `users`
with the one instance `example_logs_by_name` in both slots. -/
def example_interface_with_users : artificial_reql_cluster_interface_t example_auth_lib :=
  match backend_sentry_t.constructor example_interface.m_table_backends example_users
      (some example_logs_by_name, some example_logs_by_name) with
  | .ok (map, _) => example_interface.store_table_backends_map map
  | .error _ => example_interface

/-- The sentry of the table `users`. -/
def example_users_sentry : backend_sentry_t := { key := example_users }

/-- The objects created for the standard backends: 23 instances with the addresses
10 to 32. -/
def example_new_backends : new_backends_t :=
  { permissions_backend_0 := example_backend 10 example_empty_docs
    permissions_backend_1 := example_backend 11 example_empty_docs
    users_backend := example_backend 12 example_empty_docs
    cluster_config_backend := example_backend 13 example_empty_docs
    db_config_backend := example_backend 14 example_empty_docs
    issues_backend_0 := example_backend 15 example_empty_docs
    issues_backend_1 := example_backend 16 example_empty_docs
    logs_backend_0 := example_backend 17 example_empty_docs
    logs_backend_1 := example_backend 18 example_empty_docs
    server_config_backend := example_backend 19 example_empty_docs
    server_status_backend_0 := example_backend 20 example_empty_docs
    server_status_backend_1 := example_backend 21 example_empty_docs
    stats_backend_0 := example_backend 22 example_empty_docs
    stats_backend_1 := example_backend 23 example_empty_docs
    table_config_backend_0 := example_backend 24 example_empty_docs
    table_config_backend_1 := example_backend 25 example_empty_docs
    table_status_backend_0 := example_backend 26 example_empty_docs
    table_status_backend_1 := example_backend 27 example_empty_docs
    jobs_backend_0 := example_backend 28 example_empty_docs
    jobs_backend_1 := example_backend 29 example_empty_docs
    debug_scratch_backend := example_backend 30 example_empty_docs
    debug_stats_backend := example_backend 31 example_empty_docs
    debug_table_status_backend := example_backend 32 example_empty_docs }

/-- A dispatcher as its constructor leaves it: no table registered, no next
interface. -/
def example_new_interface : artificial_reql_cluster_interface_t example_auth_lib :=
  artificial_reql_cluster_interface_t.constructor [] { id := 7 } 0

/-- The table name `stats`. -/
def example_stats : name_string_t := { str := "stats", no_nul := by decide }

/-- A backend whose `read_all_rows_as_stream` fails and reports an error of state
`INDETERMINATE`. -/
def example_unreachable_backend : artificial_table_backend_t :=
  { addr := 5
    read_all_rows_as_stream := fun _ _ _ _ _ rows_out _ =>
      (false, rows_out,
        { msg := "The server is unreachable.", query_state := query_state_t.INDETERMINATE }) }

/-- A dispatcher whose one table, `stats`, has `example_unreachable_backend` in both
slots. -/
def example_interface_with_stats : artificial_reql_cluster_interface_t example_auth_lib :=
  example_interface.store_table_backends_map
    { entries :=
        [(example_stats, (some example_unreachable_backend, some example_unreachable_backend))] }

/-- A call was rejected with an error that names the reserved database: it returned
`false`, the error message is not empty and contains the name of the reserved database,
the state is `FAILED`, and no call was made on `m_next`. -/
def rejected_naming_reserved_database {T : Type} (o : Except fault_t (ret T)) : Prop :=
  ∃ r, o = .ok r ∧ r.value = false ∧ r.error_out.msg ≠ ""
    ∧ database_name.str.data <:+: r.error_out.msg.data
    ∧ r.error_out.query_state = query_state_t.FAILED ∧ r.next_calls = []

/-- A next interface whose `db_list` fails; its other methods are those of
`example_next`. -/
def example_failing_next : reql_cluster_interface_t :=
  { example_next with
    db_list := fun _ names_out _ =>
      (false, names_out,
        { msg := "The cluster is unreachable.", query_state := query_state_t.INDETERMINATE }) }

/-- The dispatcher `example_interface` after `set_next_reql_cluster_interface` with
`example_failing_next`. -/
def example_interface_with_failing_next :
    artificial_reql_cluster_interface_t example_auth_lib :=
  example_interface.set_next_reql_cluster_interface (some example_failing_next)

/-- A stream whose evaluation is interrupted: the exception that the evaluator raises
is not of the `ql::base_exc_t` hierarchy. -/
def example_interrupted_docs : datum_stream_t :=
  { rows := [datum_t.null], failure := some (exception_t.other "interrupted") }

/-- The table name `current_issues`. -/
def example_issues : name_string_t := { str := "current_issues", no_nul := by decide }

/-- A backend that delivers `example_interrupted_docs`. -/
def example_interrupted_backend : artificial_table_backend_t :=
  example_backend 6 example_interrupted_docs

/-- A dispatcher whose one table, `current_issues`, has `example_interrupted_backend`
in both slots. -/
def example_interface_with_issues : artificial_reql_cluster_interface_t example_auth_lib :=
  example_interface.store_table_backends_map
    { entries :=
        [(example_issues, (some example_interrupted_backend, some example_interrupted_backend))] }

/-! ## Concrete instances for `make_obj` -/

/-- An instance of the object builder: an object is the list of its pairs, `add`
appends a pair under a new key and reports a key that is already there, and the
finished object is the datum `other n` for its `n` pairs. -/
def example_datum_ptr_lib : ql.datum_ptr_lib :=
  { object := List (String × datum_t)
    empty := []
    add := fun acc key val =>
      if key ∈ acc.map (fun it => it.1) then (acc, true) else (acc ++ [(key, val)], false)
    to_counted := fun acc => datum_t.other acc.length
    keys := fun acc => (acc.map (fun it => it.1)).toFinset
    keys_empty := rfl
    add_flag := by
      intro acc key val
      by_cases h : key ∈ acc.map (fun it => it.1)
      · simp [h]
      · simp [h]
    keys_add := by
      intro acc key val
      by_cases h : key ∈ acc.map (fun it => it.1)
      · simp only [if_pos h]
        rw [Finset.insert_eq_of_mem (List.mem_toFinset.mpr h)]
      · simp only [if_neg h, List.map_append, List.map_cons, List.map_nil]
        ext k
        simp only [List.mem_toFinset, List.mem_append, List.mem_singleton, Finset.mem_insert]
        tauto }

/-- A compiled term that evaluates to the number 1. -/
def example_leaf_term : ql.term_t :=
  { id := 1, eval := fun _ _ => .ok (ql.new_val (datum_t.num 1)) }

/-- A `compile_term` for terms of two kinds: a term with the type tag 3 (`MAKE_OBJ`) is
built by `make_make_obj_term` of the file, its own sub-terms compiling to
`example_leaf_term`; every other term compiles to `example_leaf_term`. -/
def example_compile_term : ql.compile_env_t → Term → Except exception_t ql.term_t :=
  fun env term =>
    match term with
    | .mk 3 _ _ =>
      ql.make_make_obj_term example_datum_ptr_lib (fun _ _ => .ok example_leaf_term) env term
    | _ => .ok example_leaf_term

/-- A datum term: type tag 1, no arguments. -/
def example_datum_term : Term := .mk 1 [] []

/-- A `MAKE_OBJ` term with the optargs `b` and `a`, in this order. -/
def example_object_term : Term :=
  .mk 3 [] [("b", example_datum_term), ("a", example_datum_term)]

/-- A `MAKE_OBJ` term in which the key `a` comes twice. -/
def example_duplicate_term : Term :=
  .mk 3 [] [("a", example_datum_term), ("b", example_datum_term), ("a", example_datum_term)]

/-- A `MAKE_OBJ` term with one positional argument. -/
def example_args_term : Term := .mk 3 [example_datum_term] []

/-- A `MAKE_OBJ` term without positional arguments whose one optarg, `a`, is
`example_args_term`. -/
def example_nested_term : Term := .mk 3 [] [("a", example_args_term)]

/-- The `make_obj_term_t` built from `example_object_term`: the compiled sub-terms under
the keys `a` and `b`. -/
def example_make_obj_term : ql.make_obj_term_t :=
  { optargs := [("a", example_leaf_term), ("b", example_leaf_term)] }

/-- A `MAKE_OBJ` term without positional arguments in which the key `a` comes twice,
after an optarg `x` whose sub-term is `example_args_term`. -/
def example_bad_then_duplicate_term : Term :=
  .mk 3 []
    [("x", example_args_term), ("a", example_datum_term), ("a", example_datum_term)]

/-- A `MAKE_OBJ` term without positional arguments in which the key `a` comes twice,
the second time with the sub-term `example_args_term`. -/
def example_duplicate_bad_term : Term :=
  .mk 3 [] [("a", example_datum_term), ("a", example_args_term)]

/-- A `MAKE_OBJ` term without positional arguments in which the key `a` comes twice,
followed by an optarg `b` whose sub-term is `example_args_term`. -/
def example_duplicate_then_bad_term : Term :=
  .mk 3 []
    [("a", example_datum_term), ("a", example_datum_term), ("b", example_args_term)]

/-! ## Elementary facts about strings and the registry -/

theorem std_string_c_str_of_no_nul (s : String) (h : NUL ∉ s.data) : std_string_c_str s = s := by
  unfold std_string_c_str
  have : s.data.takeWhile (fun c => c != NUL) = s.data := by
    rw [List.takeWhile_eq_self_iff]
    intro c hc
    simp only [bne_iff_ne, ne_eq]
    rintro rfl
    exact h hc
  rw [this]

theorem name_string_t.c_str_eq (n : name_string_t) : n.c_str = n.str :=
  std_string_c_str_of_no_nul n.str n.no_nul

theorem database_name_c_str : database_name.c_str = "rethinkdb" :=
  name_string_t.c_str_eq database_name

theorem std_string_at0_eq_underscore_iff (s : String) :
    std_string_at0 s = '_' ↔ s.data.head? = some '_' := by
  unfold std_string_at0
  cases h : s.data with
  | nil => simp [NUL]
  | cons c cs => simp

theorem table_backends_map_t.find_eq_none_iff (m : table_backends_map_t)
    (name : name_string_t) : m.find name = none ↔ name ∉ m.names := by
  simp only [table_backends_map_t.find, table_backends_map_t.names, List.find?_eq_none,
    List.mem_map, decide_eq_true_eq, not_exists, not_and]

theorem table_backends_map_t.find_some (m : table_backends_map_t) (name : name_string_t)
    (it : name_string_t × (backend_ptr × backend_ptr)) (h : m.find name = some it) :
    it ∈ m.entries ∧ it.1 = name := by
  unfold table_backends_map_t.find at h
  refine ⟨List.mem_of_find?_eq_some h, ?_⟩
  have := List.find?_some h
  simpa using this

theorem table_backends_map_t.find_of_mem (m : table_backends_map_t) (name : name_string_t)
    (pair : backend_ptr × backend_ptr) (hnodup : m.names.Nodup)
    (hmem : (name, pair) ∈ m.entries) : m.find name = some (name, pair) := by
  obtain ⟨entries⟩ := m
  simp only [table_backends_map_t.find, table_backends_map_t.names] at *
  induction entries with
  | nil => simp at hmem
  | cons hd tl ih =>
    rw [List.map_cons, List.nodup_cons] at hnodup
    rw [List.find?_cons]
    rcases List.mem_cons.mp hmem with heq | htl
    · subst heq
      simp
    · have hne : hd.1 ≠ name := by
        intro heq
        apply hnodup.1
        rw [heq]
        exact List.mem_map.mpr ⟨(name, pair), htl, rfl⟩
      simp only [hne, decide_False]
      exact ih hnodup.2 htl

theorem mem_table_list_loop (entries : List (name_string_t × (backend_ptr × backend_ptr)))
    (names_out : Finset name_string_t) (n : name_string_t) :
    n ∈ entries.foldl
        (fun names it => if std_string_at0 it.1.str = '_' then names else insert it.1 names)
        names_out
      ↔ n ∈ names_out ∨ (n ∈ entries.map (fun it => it.1) ∧ std_string_at0 n.str ≠ '_') := by
  induction entries generalizing names_out with
  | nil => simp
  | cons hd tl ih =>
    rw [List.foldl_cons, ih]
    by_cases hhd : std_string_at0 hd.1.str = '_'
    · simp only [hhd, if_true, List.map_cons, List.mem_cons]
      constructor
      · rintro (h | ⟨h1, h2⟩)
        · exact Or.inl h
        · exact Or.inr ⟨Or.inr h1, h2⟩
      · rintro (h | ⟨h1 | h1, h2⟩)
        · exact Or.inl h
        · exact absurd (h1 ▸ hhd) h2
        · exact Or.inr ⟨h1, h2⟩
    · simp only [hhd, if_false, List.map_cons, List.mem_cons, Finset.mem_insert]
      constructor
      · rintro ((h | h) | ⟨h1, h2⟩)
        · exact Or.inr ⟨Or.inl h, h ▸ hhd⟩
        · exact Or.inl h
        · exact Or.inr ⟨Or.inr h1, h2⟩
      · rintro (h | ⟨h1 | h1, h2⟩)
        · exact Or.inl (Or.inr h)
        · exact Or.inl (Or.inl h1)
        · exact Or.inr ⟨h1, h2⟩

theorem artificial_reql_cluster_interface_t.next_or_error_and_of_null {A : auth_lib}
    {T : Type} (self : artificial_reql_cluster_interface_t A) (result_out : T)
    (error_out : admin_err_t) (call : next_call) (op : reql_cluster_interface_t → reply T)
    (hnext : self.m_next = none) :
    self.next_or_error_and result_out error_out call op
      = failed_to_find_an_interface result_out := by
  simp [next_or_error_and, next_or_error, hnext, failed_to_find_an_interface]

theorem artificial_reql_cluster_interface_t.next_or_error_and_of_some {A : auth_lib}
    {T : Type} (self : artificial_reql_cluster_interface_t A) (result_out : T)
    (error_out : admin_err_t) (call : next_call) (op : reql_cluster_interface_t → reply T)
    (next : reql_cluster_interface_t) (hnext : self.m_next = some next) :
    self.next_or_error_and result_out error_out call op = forwarded call (op next) := by
  simp [next_or_error_and, next_or_error, deref_next, hnext, forwarded]

theorem artificial_reql_cluster_interface_t.deref_next_of_some {A : auth_lib} {T : Type}
    (self : artificial_reql_cluster_interface_t A) (call : next_call)
    (op : reql_cluster_interface_t → reply T) (next : reql_cluster_interface_t)
    (hnext : self.m_next = some next) : self.deref_next call op = forwarded call (op next) := by
  simp [deref_next, hnext, forwarded]

set_option maxHeartbeats 1000000 in
theorem artificial_reql_cluster_backends_t.constructor_of_empty {A : auth_lib}
    (self : artificial_reql_cluster_interface_t A) (created : new_backends_t)
    (hempty : self.m_table_backends.entries = []) :
    ∃ members, artificial_reql_cluster_backends_t.constructor self created
      = .ok (self.store_table_backends_map (standard_table_backends created), members) := by
  obtain ⟨view, ctx, ⟨entries⟩, next, thread⟩ := self
  simp only at hempty
  subst hempty
  simp +decide only [artificial_reql_cluster_backends_t.constructor,
    backend_sentry_t.constructor, table_backends_map_t.insert, table_backends_map_t.find,
    insert_in_key_order, bind, Except.bind, List.find?, pure, Except.pure,
    name_string_t.mk.injEq, decide_eq_true_eq, decide_False, decide_True, if_true, if_false,
    String.reduceEq]
  exact ⟨_, rfl⟩

theorem artificial_reql_cluster_interface_t.table_list_of_reserved {A : auth_lib}
    (self : artificial_reql_cluster_interface_t A) (db_id : database_id_t)
    (interruptor : signal_t) (error_out : admin_err_t) :
    self.table_list { id := db_id, name := database_name } interruptor ∅ error_out
      = .ok { value := true,
              result_out := (self.m_table_backends.names.filter
                (fun n => decide (std_string_at0 n.str ≠ '_'))).toFinset,
              error_out := error_out,
              next_calls := [] } := by
  simp only [table_list, if_true]
  congr 2
  ext n
  rw [mem_table_list_loop]
  simp only [Finset.not_mem_empty, false_or, List.mem_toFinset, List.mem_filter,
    decide_eq_true_eq, table_backends_map_t.names, ne_eq]

theorem name_string_t.eq_of_str_eq (a b : name_string_t) (h : a.str = b.str) : a = b := by
  obtain ⟨sa, ha⟩ := a
  obtain ⟨sb, hb⟩ := b
  simp only at h
  subst h
  rfl

theorem table_backends_map_t.find_erase_self (m : table_backends_map_t)
    (name : name_string_t) : (m.erase name).find name = none := by
  simp only [table_backends_map_t.find, table_backends_map_t.erase, List.find?_eq_none,
    List.mem_filter, decide_eq_true_eq, and_imp]
  intro it _ hne
  exact hne

theorem table_backends_map_t.find_erase_of_ne (m : table_backends_map_t)
    (name other : name_string_t) (hne : other ≠ name) :
    (m.erase name).find other = m.find other := by
  obtain ⟨entries⟩ := m
  simp only [table_backends_map_t.find, table_backends_map_t.erase]
  induction entries with
  | nil => rfl
  | cons hd tl ih =>
    by_cases hhd : hd.1 = name
    · have hother : hd.1 ≠ other := fun h => hne (h.symm.trans hhd)
      rw [List.filter_cons_of_neg (by simpa using hhd),
        List.find?_cons_of_neg _ (by simpa using hother)]
      exact ih
    · rw [List.filter_cons_of_pos (by simpa using hhd)]
      by_cases ho : hd.1 = other
      · rw [List.find?_cons_of_pos _ (by simpa using ho),
          List.find?_cons_of_pos _ (by simpa using ho)]
      · rw [List.find?_cons_of_neg _ (by simpa using ho),
          List.find?_cons_of_neg _ (by simpa using ho)]
        exact ih

theorem find_insert_in_key_order_self
    (entry : name_string_t × (backend_ptr × backend_ptr))
    (entries : List (name_string_t × (backend_ptr × backend_ptr)))
    (hfresh : entries.find? (fun it => decide (it.1 = entry.1)) = none) :
    (insert_in_key_order entry entries).find? (fun it => decide (it.1 = entry.1))
      = some entry := by
  induction entries with
  | nil => simp [insert_in_key_order]
  | cons hd tl ih =>
    rw [List.find?_cons] at hfresh
    cases hdec : decide (hd.1 = entry.1) with
    | true => rw [hdec] at hfresh; cases hfresh
    | false =>
      rw [hdec] at hfresh
      unfold insert_in_key_order
      split
      · simp
      · rw [List.find?_cons, hdec]
        exact ih hfresh

theorem find_insert_in_key_order_of_ne
    (entry : name_string_t × (backend_ptr × backend_ptr))
    (entries : List (name_string_t × (backend_ptr × backend_ptr)))
    (other : name_string_t) (hne : other ≠ entry.1) :
    (insert_in_key_order entry entries).find? (fun it => decide (it.1 = other))
      = entries.find? (fun it => decide (it.1 = other)) := by
  have hentry : decide (entry.1 = other) = false := by
    simpa using fun h : entry.1 = other => hne h.symm
  induction entries with
  | nil => simp [insert_in_key_order, hentry]
  | cons hd tl ih =>
    unfold insert_in_key_order
    split
    · rw [List.find?_cons, hentry]
    · rw [List.find?_cons, List.find?_cons, ih]

theorem database_name_infix_of_append (head tail : String) :
    database_name.str.data <:+: (head ++ "rethinkdb" ++ tail).data :=
  ⟨head.data, tail.data, by simp only [String.data_append]; rfl⟩

theorem ne_empty_of_database_name_infix (msg : String)
    (h : database_name.str.data <:+: msg.data) : msg ≠ "" := by
  rintro rfl
  obtain ⟨before, after, heq⟩ := h
  have hlen := congrArg List.length heq
  simp [database_name] at hlen

/-! ## Elementary facts about the map of optargs -/

namespace ql

theorem rcheck_true (msg : String) : rcheck true msg = .ok () := rfl

theorem rcheck_false (msg : String) :
    rcheck false msg = .error (exception_t.base_exc_t msg) := rfl

theorem mem_std_map_insert_in_key_order {V : Type} (entry x : String × V)
    (map : List (String × V)) :
    x ∈ std_map_insert_in_key_order entry map ↔ x = entry ∨ x ∈ map := by
  induction map with
  | nil => simp [std_map_insert_in_key_order]
  | cons hd tl ih =>
    unfold std_map_insert_in_key_order
    split
    · simp
    · simp only [List.mem_cons, ih]
      constructor
      · rintro (h | h | h)
        · exact Or.inr (Or.inl h)
        · exact Or.inl h
        · exact Or.inr (Or.inr h)
      · rintro (h | h | h)
        · exact Or.inr (Or.inl h)
        · exact Or.inl h
        · exact Or.inr (Or.inr h)

theorem keys_std_map_insert_in_key_order {V : Type} (entry : String × V)
    (map : List (String × V)) :
    ((std_map_insert_in_key_order entry map).map (fun it => it.1)).Perm
      (entry.1 :: map.map (fun it => it.1)) := by
  induction map with
  | nil => simp [std_map_insert_in_key_order]
  | cons hd tl ih =>
    unfold std_map_insert_in_key_order
    split
    · exact List.Perm.refl _
    · simp only [List.map_cons]
      exact (List.Perm.cons _ ih).trans (List.Perm.swap _ _ _)

theorem std_map_insert_of_not_mem {V : Type} (map : List (String × V)) (entry : String × V)
    (h : entry.1 ∉ map.map (fun it => it.1)) :
    std_map_insert map entry = (std_map_insert_in_key_order entry map, true) := by
  simp only [std_map_insert, if_neg h]

theorem std_map_insert_of_mem {V : Type} (map : List (String × V)) (entry : String × V)
    (h : entry.1 ∈ map.map (fun it => it.1)) : std_map_insert map entry = (map, false) := by
  simp only [std_map_insert, if_pos h]

theorem mem_keys_std_map_insert_in_key_order {V : Type} (entry : String × V)
    (map : List (String × V)) (key : String) :
    key ∈ (std_map_insert_in_key_order entry map).map (fun it => it.1)
      ↔ key = entry.1 ∨ key ∈ map.map (fun it => it.1) := by
  rw [(keys_std_map_insert_in_key_order entry map).mem_iff, List.mem_cons]

theorem make_obj_term_t.compile_optargs_succeeds
    (compile_term : compile_env_t → Term → Except exception_t term_t) (env : compile_env_t)
    (pairs : List (String × Term)) :
    ∀ optargs : List (String × term_t),
      (pairs.map (fun p => p.1)).Nodup →
      (∀ key ∈ pairs.map (fun p => p.1), key ∉ optargs.map (fun it => it.1)) →
      (∀ p ∈ pairs, ∃ t, compile_term env p.2 = .ok t) →
      ∃ out, make_obj_term_t.compile_optargs compile_term env pairs optargs = .ok out
        ∧ (out.map (fun it => it.1)).Perm
            (pairs.map (fun p => p.1) ++ optargs.map (fun it => it.1))
        ∧ (∀ x ∈ optargs, x ∈ out)
        ∧ ∀ (key : String) (child : Term), (key, child) ∈ pairs →
            ∃ t, compile_term env child = .ok t ∧ (key, t) ∈ out := by
  induction pairs with
  | nil =>
    intro optargs _ _ _
    exact ⟨optargs, rfl, by simp, fun x hx => hx, by simp⟩
  | cons p rest ih =>
    intro optargs hnodup hfresh hcompile
    obtain ⟨t, ht⟩ := hcompile p (List.mem_cons_self _ _)
    rw [List.map_cons, List.nodup_cons] at hnodup
    have hp : p.1 ∉ optargs.map (fun it => it.1) :=
      hfresh p.1 (by simp)
    have hins := std_map_insert_of_not_mem optargs (p.1, t) hp
    have hfresh1 : ∀ key ∈ rest.map (fun p => p.1),
        key ∉ (std_map_insert_in_key_order (p.1, t) optargs).map (fun it => it.1) := by
      intro key hkey hmem
      rcases (mem_keys_std_map_insert_in_key_order _ _ _).mp hmem with h | h
      · exact hnodup.1 (h ▸ hkey)
      · exact hfresh key (List.mem_cons_of_mem _ hkey) h
    obtain ⟨out, hout, hperm, hsub, hall⟩ := ih (std_map_insert_in_key_order (p.1, t) optargs)
      hnodup.2 hfresh1 (fun q hq => hcompile q (List.mem_cons_of_mem _ hq))
    refine ⟨out, ?_, ?_, ?_, ?_⟩
    · simp only [make_obj_term_t.compile_optargs, ht, hins, rcheck_true]
      exact hout
    · refine hperm.trans ?_
      refine (List.Perm.append_left _ (keys_std_map_insert_in_key_order (p.1, t) optargs)).trans ?_
      simp only [List.map_cons, List.cons_append]
      exact List.perm_middle
    · intro x hx
      exact hsub x ((mem_std_map_insert_in_key_order _ _ _).mpr (Or.inr hx))
    · intro key child hmem
      rcases List.mem_cons.mp hmem with h | h
      · refine ⟨t, ?_, hsub _ ((mem_std_map_insert_in_key_order _ _ _).mpr (Or.inl ?_))⟩
        · rw [← ht, ← h]
        · rw [← h]
      · exact hall key child h

theorem make_obj_term_t.keys_of_compile_optargs
    (compile_term : compile_env_t → Term → Except exception_t term_t) (env : compile_env_t)
    (pairs : List (String × Term)) :
    ∀ optargs out : List (String × term_t),
      make_obj_term_t.compile_optargs compile_term env pairs optargs = .ok out →
      ((pairs.map (fun p => p.1)).Nodup
        ∧ ∀ key ∈ pairs.map (fun p => p.1), key ∉ optargs.map (fun it => it.1))
      ∧ ((optargs.map (fun it => it.1)).Nodup → (out.map (fun it => it.1)).Nodup) := by
  induction pairs with
  | nil =>
    intro optargs out h
    simp only [make_obj_term_t.compile_optargs, Except.ok.injEq] at h
    subst h
    exact ⟨⟨List.nodup_nil, by simp⟩, fun h => h⟩
  | cons p rest ih =>
    intro optargs out h
    cases ht : compile_term env p.2 with
    | error e => simp [make_obj_term_t.compile_optargs, ht] at h
    | ok t =>
      by_cases hp : p.1 ∈ optargs.map (fun it => it.1)
      · have hins := std_map_insert_of_mem optargs (p.1, t) hp
        simp [make_obj_term_t.compile_optargs, ht, hins, rcheck_false] at h
      · have hins := std_map_insert_of_not_mem optargs (p.1, t) hp
        simp only [make_obj_term_t.compile_optargs, ht, hins, rcheck_true] at h
        obtain ⟨⟨hnodup, hfresh⟩, hout⟩ := ih _ _ h
        have hrest : p.1 ∉ rest.map (fun p => p.1) := by
          intro hmem
          exact hfresh p.1 hmem
            ((mem_keys_std_map_insert_in_key_order _ _ _).mpr (Or.inl rfl))
        refine ⟨⟨?_, ?_⟩, ?_⟩
        · rw [List.map_cons, List.nodup_cons]
          exact ⟨hrest, hnodup⟩
        · intro key hkey hmem
          rcases List.mem_cons.mp hkey with hk | hk
          · have hk1 : key = p.1 := hk
            exact hp (hk1 ▸ hmem)
          · exact hfresh key hk
              ((mem_keys_std_map_insert_in_key_order _ _ _).mpr (Or.inr hmem))
        · intro hacc
          apply hout
          rw [(keys_std_map_insert_in_key_order (p.1, t) optargs).nodup_iff, List.nodup_cons]
          exact ⟨hp, hacc⟩

theorem make_obj_term_t.compile_optargs_append
    (compile_term : compile_env_t → Term → Except exception_t term_t) (env : compile_env_t)
    (before : List (String × Term)) :
    ∀ (rest : List (String × Term)) (optargs out : List (String × term_t)),
      make_obj_term_t.compile_optargs compile_term env before optargs = .ok out →
      make_obj_term_t.compile_optargs compile_term env (before ++ rest) optargs
        = make_obj_term_t.compile_optargs compile_term env rest out := by
  induction before with
  | nil =>
    intro rest optargs out h
    simp only [make_obj_term_t.compile_optargs, Except.ok.injEq] at h
    subst h
    rfl
  | cons p tl ih =>
    intro rest optargs out h
    cases ht : compile_term env p.2 with
    | error e => simp [make_obj_term_t.compile_optargs, ht] at h
    | ok t =>
      cases hflag : (std_map_insert optargs (p.1, t)).2 with
      | false => simp [make_obj_term_t.compile_optargs, ht, hflag, rcheck_false] at h
      | true =>
        simp only [make_obj_term_t.compile_optargs, ht, hflag, rcheck_true] at h
        simp only [List.cons_append, make_obj_term_t.compile_optargs, ht, hflag, rcheck_true]
        exact ih rest _ out h

theorem first_repeated_key {V : Type} (pairs : List (String × V))
    (hdup : ¬ (pairs.map (fun p => p.1)).Nodup) :
    ∃ (before : List (String × V)) (key : String) (child : V) (after : List (String × V)),
      pairs = before ++ (key, child) :: after
        ∧ (before.map (fun p => p.1)).Nodup ∧ key ∈ before.map (fun p => p.1) := by
  induction pairs using List.reverseRecOn with
  | nil => exact absurd List.nodup_nil hdup
  | append_singleton init last ih =>
    by_cases hinit : (init.map (fun p => p.1)).Nodup
    · refine ⟨init, last.1, last.2, [], rfl, hinit, ?_⟩
      by_contra hnot
      apply hdup
      rw [List.map_append, List.nodup_append]
      refine ⟨hinit, List.nodup_singleton _, ?_⟩
      intro key hkey hlast
      rw [List.map_cons, List.map_nil, List.mem_singleton] at hlast
      exact hnot (hlast ▸ hkey)
    · obtain ⟨before, key, child, after, heq, hnodup, hkey⟩ := ih hinit
      refine ⟨before, key, child, after ++ [last], ?_, hnodup, hkey⟩
      rw [heq, List.append_assoc, List.cons_append]

theorem make_obj_term_t.compile_optargs_after_prefix
    (compile_term : compile_env_t → Term → Except exception_t term_t) (env : compile_env_t)
    (before rest : List (String × Term))
    (hnodup : (before.map (fun p => p.1)).Nodup)
    (hcompile : ∀ p ∈ before, ∃ t, compile_term env p.2 = .ok t) :
    ∃ out : List (String × term_t),
      (∀ key : String, key ∈ out.map (fun it => it.1) ↔ key ∈ before.map (fun p => p.1))
      ∧ make_obj_term_t.compile_optargs compile_term env (before ++ rest) []
        = make_obj_term_t.compile_optargs compile_term env rest out := by
  obtain ⟨out, hout, hperm, _, _⟩ :=
    make_obj_term_t.compile_optargs_succeeds compile_term env before [] hnodup (by simp)
      hcompile
  refine ⟨out, ?_, make_obj_term_t.compile_optargs_append compile_term env before rest [] out
    hout⟩
  intro key
  rw [hperm.mem_iff, List.map_nil, List.append_nil]

theorem make_obj_term_t.eval_optargs_of_distinct (B : datum_ptr_lib) (env : scope_env_t)
    (new_flags : eval_flags_t) (entries : List (String × term_t)) :
    ∀ acc : B.object,
      (entries.map (fun it => it.1)).Nodup →
      (∀ key ∈ entries.map (fun it => it.1), key ∉ B.keys acc) →
      (∀ e, make_obj_term_t.eval_optargs B env new_flags entries acc
          ≠ term_eval_t.raised_by_duplicate_check e)
      ∧ ((∀ it ∈ entries, ∃ v, it.2.eval env new_flags = .ok v) →
          ∃ obj, make_obj_term_t.eval_optargs B env new_flags entries acc
              = term_eval_t.returned obj
            ∧ B.keys obj = B.keys acc ∪ (entries.map (fun it => it.1)).toFinset) := by
  induction entries with
  | nil =>
    intro acc _ _
    refine ⟨fun e h => by simp [make_obj_term_t.eval_optargs] at h, fun _ => ⟨acc, rfl, by simp⟩⟩
  | cons it rest ih =>
    intro acc hnodup hfresh
    rw [List.map_cons, List.nodup_cons] at hnodup
    cases hv : it.2.eval env new_flags with
    | error e =>
      refine ⟨fun e h => by simp [make_obj_term_t.eval_optargs, hv] at h, fun hall => ?_⟩
      obtain ⟨v, hv1⟩ := hall it (List.mem_cons_self _ _)
      rw [hv] at hv1
      cases hv1
    | ok v =>
      have hflag : (B.add acc it.1 (as_datum v)).2 = false := by
        have hnot : it.1 ∉ B.keys acc := hfresh it.1 (by simp)
        cases hb : (B.add acc it.1 (as_datum v)).2 with
        | false => rfl
        | true => exact absurd ((B.add_flag acc it.1 (as_datum v)).mp hb) hnot
      have hfresh1 : ∀ key ∈ rest.map (fun it => it.1),
          key ∉ B.keys (B.add acc it.1 (as_datum v)).1 := by
        intro key hkey
        rw [B.keys_add, Finset.mem_insert]
        rintro (h | h)
        · exact hnodup.1 (h ▸ hkey)
        · exact hfresh key (List.mem_cons_of_mem _ hkey) h
      obtain ⟨hnever, hall⟩ := ih (B.add acc it.1 (as_datum v)).1 hnodup.2 hfresh1
      have hstep : make_obj_term_t.eval_optargs B env new_flags (it :: rest) acc
          = make_obj_term_t.eval_optargs B env new_flags rest
              (B.add acc it.1 (as_datum v)).1 := by
        simp only [make_obj_term_t.eval_optargs, hv, hflag, Bool.not_false, rcheck_true]
      refine ⟨fun e => by rw [hstep]; exact hnever e, fun hevals => ?_⟩
      obtain ⟨obj, hobj, hkeys⟩ := hall (fun x hx => hevals x (List.mem_cons_of_mem _ hx))
      refine ⟨obj, by rw [hstep]; exact hobj, ?_⟩
      rw [hkeys, B.keys_add]
      ext key
      simp only [Finset.mem_union, Finset.mem_insert, List.mem_toFinset, List.map_cons,
        List.mem_cons]
      tauto

end ql

/-! ## The reserved database is protected -/

open artificial_reql_cluster_interface_t in
/-- C1: whatever `m_next` is (null or an interface) and whatever the other arguments
are, `db_create` and `db_drop` with the name `rethinkdb`, and `db_config`, `db_wait`,
`db_rebalance`, `db_reconfigure`, `table_create`, `table_drop`, `table_config`,
`table_wait`, `table_rebalance` and `table_reconfigure` with a database whose name is
`rethinkdb`, return `false`, set the error to a non-empty message with state `FAILED`
and make no call on `m_next`. -/
theorem reserved_database_mutations_are_rejected {A : auth_lib}
    (self : artificial_reql_cluster_interface_t A) (user_context : user_context_t)
    (db_id : database_id_t) (name : name_string_t) (interruptor : signal_t)
    (bt : backtrace_id_t) (env : env_t) (config_params : table_generate_config_params_t)
    (primary_key : String) (durability : write_durability_t) (readiness : table_readiness_t)
    (dry_run : Bool) (result_out : datum_t) (selection_out : Option val_t)
    (error_out : admin_err_t) :
    rejected_without_next
      (self.db_create user_context database_name interruptor result_out error_out)
    ∧ rejected_without_next
      (self.db_drop user_context database_name interruptor result_out error_out)
    ∧ rejected_without_next
      (self.db_config user_context { id := db_id, name := database_name } bt env
        selection_out error_out)
    ∧ rejected_without_next
      (self.db_wait { id := db_id, name := database_name } readiness interruptor result_out
        error_out)
    ∧ rejected_without_next
      (self.db_rebalance user_context { id := db_id, name := database_name } interruptor
        result_out error_out)
    ∧ rejected_without_next
      (self.db_reconfigure user_context { id := db_id, name := database_name } config_params
        dry_run interruptor result_out error_out)
    ∧ rejected_without_next
      (self.table_create user_context name { id := db_id, name := database_name }
        config_params primary_key durability interruptor result_out error_out)
    ∧ rejected_without_next
      (self.table_drop user_context name { id := db_id, name := database_name } interruptor
        result_out error_out)
    ∧ rejected_without_next
      (self.table_config user_context { id := db_id, name := database_name } name bt env
        selection_out error_out)
    ∧ rejected_without_next
      (self.table_wait { id := db_id, name := database_name } name readiness interruptor
        result_out error_out)
    ∧ rejected_without_next
      (self.table_rebalance user_context { id := db_id, name := database_name } name
        interruptor result_out error_out)
    ∧ rejected_without_next
      (self.table_reconfigure user_context { id := db_id, name := database_name } name
        config_params dry_run interruptor result_out error_out) := by
  refine ⟨?_, ?_, ?_, ?_, ?_, ?_, ?_, ?_, ?_, ?_, ?_, ?_⟩
  · simp [rejected_without_next, db_create, database_name_c_str]
  · simp [rejected_without_next, db_drop, database_name_c_str]
  · simp [rejected_without_next, db_config, database_name_c_str]
  · simp [rejected_without_next, db_wait, database_name_c_str]
  · simp [rejected_without_next, db_rebalance, database_name_c_str]
  · simp [rejected_without_next, db_reconfigure, database_name_c_str]
  · simp [rejected_without_next, table_create, database_name_c_str]
  · simp [rejected_without_next, table_drop, database_name_c_str]
  · simp [rejected_without_next, table_config, database_name_c_str]
  · simp [rejected_without_next, table_wait, database_name_c_str]
  · simp [rejected_without_next, table_rebalance, database_name_c_str]
  · simp [rejected_without_next, table_reconfigure, database_name_c_str]

/-! ## Tables of the reserved database -/

open artificial_reql_cluster_interface_t in
/-- C2: for every registry and every `m_next` (null included), `table_list` on a
database named `rethinkdb`, called with an empty output set, returns `true`, the output
set is exactly the set of registered table names whose first character is not `_`, and
no call is made on `m_next`. -/
theorem table_list_of_reserved_database {A : auth_lib}
    (self : artificial_reql_cluster_interface_t A) (db_id : database_id_t)
    (interruptor : signal_t) (error_out : admin_err_t) :
    self.table_list { id := db_id, name := database_name } interruptor ∅ error_out
      = .ok { value := true,
              result_out := (self.m_table_backends.names.filter
                (fun n => decide (n.str.data.head? ≠ some '_'))).toFinset,
              error_out := error_out,
              next_calls := [] } := by
  simp only [table_list, if_true]
  congr 2
  ext n
  rw [mem_table_list_loop]
  simp only [Finset.not_mem_empty, false_or, List.mem_toFinset, List.mem_filter,
    decide_eq_true_eq, table_backends_map_t.names, ne_eq, std_string_at0_eq_underscore_iff]

open artificial_reql_cluster_interface_t in
/-- C3: for every table name that is registered and begins with `_`, `table_find` on
the reserved database returns `true` with an `artificial_table_t` bound to the reserved
database id and to one of the two backends of an entry registered under that name,
while `table_list` on the same registry, started from the empty set, does not contain
the name. -/
theorem hidden_table_is_found_but_not_listed {A : auth_lib} (F : uuid_functions)
    (self : artificial_reql_cluster_interface_t A) (name : name_string_t)
    (db_id : database_id_t) (identifier_format : Option admin_identifier_format_t)
    (interruptor : signal_t) (table_out : Option base_table_t) (error_out : admin_err_t)
    (hregistered : name ∈ self.m_table_backends.names)
    (hhidden : name.str.data.head? = some '_') :
    (∃ it ∈ self.m_table_backends.entries, it.1 = name ∧
      ∃ backend : backend_ptr, (backend = it.2.1 ∨ backend = it.2.2) ∧
        self.table_find F name { id := db_id, name := database_name } identifier_format
            interruptor table_out error_out
          = .ok { value := true,
                  result_out := some (base_table_t.artificial_table_t self.m_rdb_context
                    (database_id F) backend),
                  error_out := error_out,
                  next_calls := [] })
    ∧ (∃ r, self.table_list { id := db_id, name := database_name } interruptor ∅ error_out
          = .ok r ∧ name ∉ r.result_out) := by
  constructor
  · cases hfind : self.m_table_backends.find name with
    | none =>
      exact absurd hregistered ((table_backends_map_t.find_eq_none_iff _ _).mp hfind)
    | some it =>
      obtain ⟨hmem, hname⟩ := table_backends_map_t.find_some _ _ _ hfind
      refine ⟨it, hmem, hname, ?_⟩
      cases identifier_format with
      | none => exact ⟨it.2.1, Or.inl rfl, by simp [table_find, hfind]⟩
      | some format =>
        cases format with
        | name => exact ⟨it.2.1, Or.inl rfl, by simp [table_find, hfind]⟩
        | uuid => exact ⟨it.2.2, Or.inr rfl, by simp [table_find, hfind]⟩
  · refine ⟨_, by simp only [table_list, if_true]; rfl, ?_⟩
    rw [mem_table_list_loop]
    simp [std_string_at0_eq_underscore_iff, hhidden]

open artificial_reql_cluster_interface_t in
/-- The statement of C3 on `example_interface` and its hidden table
`_debug_scratch`. -/
theorem hidden_table_is_found_but_not_listed_witness :
    example_debug_scratch ∈ example_interface.m_table_backends.names
    ∧ example_debug_scratch.str.data.head? = some '_'
    ∧ (∃ it ∈ example_interface.m_table_backends.entries, it.1 = example_debug_scratch ∧
        ∃ backend : backend_ptr, (backend = it.2.1 ∨ backend = it.2.2) ∧
          example_interface.table_find example_uuid_functions example_debug_scratch
              { id := { value := 5 }, name := database_name } none (signal_t.plain 0) none
              { msg := "", query_state := query_state_t.INDETERMINATE }
            = .ok { value := true,
                    result_out := some (base_table_t.artificial_table_t
                      example_interface.m_rdb_context (database_id example_uuid_functions)
                      backend),
                    error_out := { msg := "", query_state := query_state_t.INDETERMINATE },
                    next_calls := [] })
    ∧ (∃ r, example_interface.table_list { id := { value := 5 }, name := database_name }
            (signal_t.plain 0) ∅ { msg := "", query_state := query_state_t.INDETERMINATE }
          = .ok r ∧ example_debug_scratch ∉ r.result_out) :=
  have hregistered : example_debug_scratch ∈ example_interface.m_table_backends.names := by
    decide
  have hhidden : example_debug_scratch.str.data.head? = some '_' := by decide
  ⟨hregistered, hhidden,
    hidden_table_is_found_but_not_listed example_uuid_functions example_interface
      example_debug_scratch { value := 5 } none (signal_t.plain 0) none
      { msg := "", query_state := query_state_t.INDETERMINATE } hregistered hhidden⟩

open artificial_reql_cluster_interface_t in
/-- C4: for every table name `N` that is not registered, `table_find` on the reserved
database, with any identifier format and any `m_next`, returns `false` with the error
message exactly "Table `rethinkdb.N` does not exist." and state `FAILED`, leaves the
table output as it was and makes no call on `m_next`; `table_estimate_doc_counts` on the
reserved database fails with the same error for such a name. -/
theorem unregistered_table_does_not_exist {A : auth_lib} (F : uuid_functions)
    (self : artificial_reql_cluster_interface_t A) (name : name_string_t)
    (db_id : database_id_t) (identifier_format : Option admin_identifier_format_t)
    (interruptor : signal_t) (table_out : Option base_table_t)
    (user_context : user_context_t) (env : env_t) (doc_counts_out : List Int)
    (error_out : admin_err_t)
    (hunregistered : name ∉ self.m_table_backends.names) :
    self.table_find F name { id := db_id, name := database_name } identifier_format
        interruptor table_out error_out
      = .ok { value := false,
              result_out := table_out,
              error_out := { msg := "Table `rethinkdb." ++ name.str ++ "` does not exist.",
                             query_state := query_state_t.FAILED },
              next_calls := [] }
    ∧ self.table_estimate_doc_counts user_context { id := db_id, name := database_name } name
        env doc_counts_out error_out
      = .ok { value := false,
              result_out := doc_counts_out,
              error_out := { msg := "Table `rethinkdb." ++ name.str ++ "` does not exist.",
                             query_state := query_state_t.FAILED },
              next_calls := [] } := by
  have hfind : self.m_table_backends.find name = none :=
    (table_backends_map_t.find_eq_none_iff _ _).mpr hunregistered
  have hmsg : "Table `" ++ database_name.c_str ++ "." ++ name.c_str ++ "` does not exist."
      = "Table `rethinkdb." ++ name.str ++ "` does not exist." := by
    rw [database_name_c_str, name_string_t.c_str_eq]
    have hhead : "Table `" ++ "rethinkdb" ++ "." = "Table `rethinkdb." := by decide
    rw [hhead]
  constructor
  · simp only [table_find, if_true, hfind, hmsg]
  · simp only [table_estimate_doc_counts, if_true, hfind, hmsg]

open artificial_reql_cluster_interface_t in
/-- The statement of C4 on `example_interface` and the name `users`, which is not in
its registry. -/
theorem unregistered_table_does_not_exist_witness :
    example_users ∉ example_interface.m_table_backends.names
    ∧ example_interface.table_find example_uuid_functions example_users
        { id := { value := 5 }, name := database_name } (some admin_identifier_format_t.uuid)
        (signal_t.plain 0) none { msg := "", query_state := query_state_t.INDETERMINATE }
      = .ok { value := false,
              result_out := none,
              error_out := { msg := "Table `rethinkdb." ++ example_users.str
                                      ++ "` does not exist.",
                             query_state := query_state_t.FAILED },
              next_calls := [] }
    ∧ example_interface.table_estimate_doc_counts { id := 1 }
        { id := { value := 5 }, name := database_name } example_users
        { id := 2, interruptor := signal_t.plain 0 } [11]
        { msg := "", query_state := query_state_t.INDETERMINATE }
      = .ok { value := false,
              result_out := [11],
              error_out := { msg := "Table `rethinkdb." ++ example_users.str
                                      ++ "` does not exist.",
                             query_state := query_state_t.FAILED },
              next_calls := [] } :=
  have hunregistered : example_users ∉ example_interface.m_table_backends.names := by decide
  ⟨hunregistered,
    unregistered_table_does_not_exist example_uuid_functions example_interface example_users
      { value := 5 } (some admin_identifier_format_t.uuid) (signal_t.plain 0) none { id := 1 }
      { id := 2, interruptor := signal_t.plain 0 } [11]
      { msg := "", query_state := query_state_t.INDETERMINATE } hunregistered⟩

open artificial_reql_cluster_interface_t in
/-- C5: for every table name registered with the pair (name-addressed backend `a`,
uuid-addressed backend `b`) in a map with unique keys: `table_find` with no identifier
format or with format `name` binds the handle to `a`, with format `uuid` to `b`;
`get_table_backend` returns `a` for `name` and `b` for `uuid`, and null for every
name that is not registered; when `a` and `b` are one instance, both formats yield
it. -/
theorem identifier_format_selects_backend {A : auth_lib} (F : uuid_functions)
    (self : artificial_reql_cluster_interface_t A) (name : name_string_t)
    (a b : backend_ptr) (db_id : database_id_t) (interruptor : signal_t)
    (table_out : Option base_table_t) (error_out : admin_err_t)
    (hunique : self.m_table_backends.names.Nodup)
    (hregistered : (name, (a, b)) ∈ self.m_table_backends.entries) :
    self.table_find F name { id := db_id, name := database_name } none interruptor table_out
        error_out
      = .ok { value := true,
              result_out := some (base_table_t.artificial_table_t self.m_rdb_context
                (database_id F) a),
              error_out := error_out, next_calls := [] }
    ∧ self.table_find F name { id := db_id, name := database_name }
        (some admin_identifier_format_t.name) interruptor table_out error_out
      = .ok { value := true,
              result_out := some (base_table_t.artificial_table_t self.m_rdb_context
                (database_id F) a),
              error_out := error_out, next_calls := [] }
    ∧ self.table_find F name { id := db_id, name := database_name }
        (some admin_identifier_format_t.uuid) interruptor table_out error_out
      = .ok { value := true,
              result_out := some (base_table_t.artificial_table_t self.m_rdb_context
                (database_id F) b),
              error_out := error_out, next_calls := [] }
    ∧ self.get_table_backend name admin_identifier_format_t.name = a
    ∧ self.get_table_backend name admin_identifier_format_t.uuid = b
    ∧ (∀ (other : name_string_t) (format : admin_identifier_format_t),
        other ∉ self.m_table_backends.names → self.get_table_backend other format = none)
    ∧ (a = b →
        self.get_table_backend name admin_identifier_format_t.uuid = a
        ∧ self.table_find F name { id := db_id, name := database_name }
            (some admin_identifier_format_t.uuid) interruptor table_out error_out
          = .ok { value := true,
                  result_out := some (base_table_t.artificial_table_t self.m_rdb_context
                    (database_id F) a),
                  error_out := error_out, next_calls := [] }) := by
  have hfind : self.m_table_backends.find name = some (name, (a, b)) :=
    table_backends_map_t.find_of_mem _ _ _ hunique hregistered
  refine ⟨?_, ?_, ?_, ?_, ?_, ?_, ?_⟩
  · simp only [table_find, if_true, hfind]
  · simp only [table_find, if_true, hfind]
  · simp only [table_find, if_true, hfind]
  · simp only [get_table_backend, hfind]
  · simp only [get_table_backend, hfind]
  · intro other format hother
    have hnone : self.m_table_backends.find other = none :=
      (table_backends_map_t.find_eq_none_iff _ _).mpr hother
    simp only [get_table_backend, hnone]
  · intro hab
    subst hab
    constructor
    · simp only [get_table_backend, hfind]
    · simp only [table_find, if_true, hfind]

open artificial_reql_cluster_interface_t in
/-- The statement of C5 on `example_interface` and its table `logs`, registered with
two distinct instances. -/
theorem identifier_format_selects_backend_witness :
    example_interface.m_table_backends.names.Nodup
    ∧ (example_logs, (some example_logs_by_name, some example_logs_by_uuid))
        ∈ example_interface.m_table_backends.entries
    ∧ example_interface.table_find example_uuid_functions example_logs
        { id := { value := 5 }, name := database_name } none (signal_t.plain 0) none
        { msg := "", query_state := query_state_t.INDETERMINATE }
      = .ok { value := true,
              result_out := some (base_table_t.artificial_table_t
                example_interface.m_rdb_context (database_id example_uuid_functions)
                (some example_logs_by_name)),
              error_out := { msg := "", query_state := query_state_t.INDETERMINATE },
              next_calls := [] }
    ∧ example_interface.table_find example_uuid_functions example_logs
        { id := { value := 5 }, name := database_name } (some admin_identifier_format_t.name)
        (signal_t.plain 0) none { msg := "", query_state := query_state_t.INDETERMINATE }
      = .ok { value := true,
              result_out := some (base_table_t.artificial_table_t
                example_interface.m_rdb_context (database_id example_uuid_functions)
                (some example_logs_by_name)),
              error_out := { msg := "", query_state := query_state_t.INDETERMINATE },
              next_calls := [] }
    ∧ example_interface.table_find example_uuid_functions example_logs
        { id := { value := 5 }, name := database_name } (some admin_identifier_format_t.uuid)
        (signal_t.plain 0) none { msg := "", query_state := query_state_t.INDETERMINATE }
      = .ok { value := true,
              result_out := some (base_table_t.artificial_table_t
                example_interface.m_rdb_context (database_id example_uuid_functions)
                (some example_logs_by_uuid)),
              error_out := { msg := "", query_state := query_state_t.INDETERMINATE },
              next_calls := [] }
    ∧ example_interface.get_table_backend example_logs admin_identifier_format_t.name
      = some example_logs_by_name
    ∧ example_interface.get_table_backend example_logs admin_identifier_format_t.uuid
      = some example_logs_by_uuid
    ∧ (∀ (other : name_string_t) (format : admin_identifier_format_t),
        other ∉ example_interface.m_table_backends.names →
          example_interface.get_table_backend other format = none)
    ∧ (some example_logs_by_name = some example_logs_by_uuid →
        example_interface.get_table_backend example_logs admin_identifier_format_t.uuid
          = some example_logs_by_name
        ∧ example_interface.table_find example_uuid_functions example_logs
            { id := { value := 5 }, name := database_name }
            (some admin_identifier_format_t.uuid) (signal_t.plain 0) none
            { msg := "", query_state := query_state_t.INDETERMINATE }
          = .ok { value := true,
                  result_out := some (base_table_t.artificial_table_t
                    example_interface.m_rdb_context (database_id example_uuid_functions)
                    (some example_logs_by_name)),
                  error_out := { msg := "", query_state := query_state_t.INDETERMINATE },
                  next_calls := [] }) :=
  have hunique : example_interface.m_table_backends.names.Nodup := by decide
  have hregistered : (example_logs, (some example_logs_by_name, some example_logs_by_uuid))
      ∈ example_interface.m_table_backends.entries :=
    List.mem_cons_of_mem _ (List.mem_cons_self _ _)
  ⟨hunique, hregistered,
    identifier_format_selects_backend example_uuid_functions example_interface example_logs
      (some example_logs_by_name) (some example_logs_by_uuid) { value := 5 }
      (signal_t.plain 0) none { msg := "", query_state := query_state_t.INDETERMINATE }
      hunique hregistered⟩

/-! ## Forwarding without a next interface -/

open artificial_reql_cluster_interface_t in
/-- C6: when `m_next` is null, every method that forwards through `next_or_error`
(`db_create`, `db_drop`, `db_find`, `db_config`, `db_wait`, `db_rebalance`,
`db_reconfigure`, `table_create`, `table_drop`, `table_list`, `table_find`,
`table_estimate_doc_counts`, `table_config`, `table_status`, `table_wait`,
`table_reconfigure`, `table_emergency_repair`, `table_rebalance`, `grant_global`,
`grant_database`, `grant_table`, `sindex_create`, `sindex_drop`, `sindex_rename`,
`sindex_list`), called with a target that is not the reserved database, returns `false`
with the error exactly "Failed to find an interface." of state `FAILED` and leaves its
result output (and, for the two grants, the semilattice view) unchanged. -/
theorem forwarding_without_next_interface_fails {A : auth_lib} (F : uuid_functions)
    (self : artificial_reql_cluster_interface_t A) (user_context : user_context_t)
    (name : name_string_t) (db : db_t) (table : name_string_t) (interruptor : signal_t)
    (bt : backtrace_id_t) (env : env_t) (params : table_generate_config_params_t)
    (primary_key : String) (durability : write_durability_t)
    (identifier_format : Option admin_identifier_format_t) (readiness : table_readiness_t)
    (dry_run : Bool) (mode : emergency_repair_mode_t) (username : username_t)
    (permissions : datum_t) (database : database_id_t) (table_id : namespace_id_t)
    (index new_name : String) (overwrite : Bool) (config : sindex_config_t)
    (result_out : datum_t) (names_out : Finset name_string_t) (db_out : Option db_t)
    (selection_out : Option val_t) (table_out : Option base_table_t)
    (doc_counts_out : List Int) (configs_and_statuses_out : sindex_map_t)
    (error_out : admin_err_t)
    (hnext : self.m_next = none) (hname : name ≠ database_name)
    (hdb : db.name ≠ database_name) (hdatabase : database ≠ database_id F) :
    self.db_create user_context name interruptor result_out error_out
      = failed_to_find_an_interface result_out
    ∧ self.db_drop user_context name interruptor result_out error_out
      = failed_to_find_an_interface result_out
    ∧ self.db_find F name interruptor db_out error_out
      = failed_to_find_an_interface db_out
    ∧ self.db_config user_context db bt env selection_out error_out
      = failed_to_find_an_interface selection_out
    ∧ self.db_wait db readiness interruptor result_out error_out
      = failed_to_find_an_interface result_out
    ∧ self.db_rebalance user_context db interruptor result_out error_out
      = failed_to_find_an_interface result_out
    ∧ self.db_reconfigure user_context db params dry_run interruptor result_out
        error_out
      = failed_to_find_an_interface result_out
    ∧ self.table_create user_context table db params primary_key durability
        interruptor result_out error_out
      = failed_to_find_an_interface result_out
    ∧ self.table_drop user_context table db interruptor result_out error_out
      = failed_to_find_an_interface result_out
    ∧ self.table_list db interruptor names_out error_out
      = failed_to_find_an_interface names_out
    ∧ self.table_find F table db identifier_format interruptor table_out
        error_out
      = failed_to_find_an_interface table_out
    ∧ self.table_estimate_doc_counts user_context db table env doc_counts_out
        error_out
      = failed_to_find_an_interface doc_counts_out
    ∧ self.table_config user_context db table bt env selection_out error_out
      = failed_to_find_an_interface selection_out
    ∧ self.table_status db table bt env selection_out error_out
      = failed_to_find_an_interface selection_out
    ∧ self.table_wait db table readiness interruptor result_out error_out
      = failed_to_find_an_interface result_out
    ∧ self.table_reconfigure user_context db table params dry_run interruptor
        result_out error_out
      = failed_to_find_an_interface result_out
    ∧ self.table_emergency_repair user_context db table mode dry_run interruptor
        result_out error_out
      = failed_to_find_an_interface result_out
    ∧ self.table_rebalance user_context db table interruptor result_out error_out
      = failed_to_find_an_interface result_out
    ∧ self.grant_global user_context username permissions interruptor result_out
        error_out
      = failed_to_find_an_interface result_out
    ∧ self.grant_database F user_context database username permissions
        interruptor result_out error_out
      = (failed_to_find_an_interface result_out).map
          (fun r => (r, self.m_auth_semilattice_view))
    ∧ self.grant_table F user_context database table_id username permissions
        interruptor result_out error_out
      = (failed_to_find_an_interface result_out).map
          (fun r => (r, self.m_auth_semilattice_view))
    ∧ self.sindex_create user_context db table index config interruptor
        error_out
      = failed_to_find_an_interface ()
    ∧ self.sindex_drop user_context db table index interruptor error_out
      = failed_to_find_an_interface ()
    ∧ self.sindex_rename user_context db table index new_name overwrite
        interruptor error_out
      = failed_to_find_an_interface ()
    ∧ self.sindex_list db table interruptor error_out configs_and_statuses_out
      = failed_to_find_an_interface configs_and_statuses_out := by
  refine ⟨?_, ?_, ?_, ?_, ?_, ?_, ?_, ?_, ?_, ?_, ?_, ?_, ?_, ?_, ?_, ?_, ?_, ?_, ?_, ?_, ?_, ?_,
    ?_, ?_, ?_⟩
  · simp only [db_create, if_neg hname, next_or_error_and_of_null _ _ _ _ _ hnext]
  · simp only [db_drop, if_neg hname, next_or_error_and_of_null _ _ _ _ _ hnext]
  · simp only [db_find, if_neg hname, next_or_error_and_of_null _ _ _ _ _ hnext]
  · simp only [db_config, if_neg hdb, next_or_error_and_of_null _ _ _ _ _ hnext]
  · simp only [db_wait, if_neg hdb, next_or_error_and_of_null _ _ _ _ _ hnext]
  · simp only [db_rebalance, if_neg hdb, next_or_error_and_of_null _ _ _ _ _ hnext]
  · simp only [db_reconfigure, if_neg hdb, next_or_error_and_of_null _ _ _ _ _ hnext]
  · simp only [table_create, if_neg hdb, next_or_error_and_of_null _ _ _ _ _ hnext]
  · simp only [table_drop, if_neg hdb, next_or_error_and_of_null _ _ _ _ _ hnext]
  · simp only [table_list, if_neg hdb, next_or_error_and_of_null _ _ _ _ _ hnext]
  · simp only [table_find, if_neg hdb, next_or_error_and_of_null _ _ _ _ _ hnext]
  · simp only [table_estimate_doc_counts, if_neg hdb,
      next_or_error_and_of_null _ _ _ _ _ hnext]
  · simp only [table_config, if_neg hdb, next_or_error_and_of_null _ _ _ _ _ hnext]
  · simp only [table_status, if_neg hdb, next_or_error_and_of_null _ _ _ _ _ hnext]
  · simp only [table_wait, if_neg hdb, next_or_error_and_of_null _ _ _ _ _ hnext]
  · simp only [table_reconfigure, if_neg hdb, next_or_error_and_of_null _ _ _ _ _ hnext]
  · simp only [table_emergency_repair, if_neg hdb, next_or_error_and_of_null _ _ _ _ _ hnext]
  · simp only [table_rebalance, if_neg hdb, next_or_error_and_of_null _ _ _ _ _ hnext]
  · simp only [grant_global, next_or_error_and_of_null _ _ _ _ _ hnext]
  · simp only [grant_database, if_neg hdatabase, next_or_error_and_of_null _ _ _ _ _ hnext]
  · simp only [grant_table, if_neg hdatabase, next_or_error_and_of_null _ _ _ _ _ hnext]
  · simp only [sindex_create, if_neg hdb, next_or_error_and_of_null _ _ _ _ _ hnext]
  · simp only [sindex_drop, if_neg hdb, next_or_error_and_of_null _ _ _ _ _ hnext]
  · simp only [sindex_rename, if_neg hdb, next_or_error_and_of_null _ _ _ _ _ hnext]
  · simp only [sindex_list, if_neg hdb, next_or_error_and_of_null _ _ _ _ _ hnext]

open artificial_reql_cluster_interface_t in
/-- The statement of C6 on `example_interface`, which has no next interface, for the
database `test`. -/
theorem forwarding_without_next_interface_fails_witness :
    example_interface.m_next = none
    ∧ example_test ≠ database_name
    ∧ example_db.name ≠ database_name
    ∧ (⟨9⟩ : database_id_t) ≠ database_id example_uuid_functions
    ∧ (
    example_interface.db_create example_user_context example_test (signal_t.plain 0)
        datum_t.uninitialized example_error
      = failed_to_find_an_interface datum_t.uninitialized
    ∧ example_interface.db_drop example_user_context example_test (signal_t.plain 0)
        datum_t.uninitialized example_error
      = failed_to_find_an_interface datum_t.uninitialized
    ∧ example_interface.db_find example_uuid_functions example_test (signal_t.plain 0) none
        example_error
      = failed_to_find_an_interface none
    ∧ example_interface.db_config example_user_context example_db backtrace_id_t.empty
        example_env none example_error
      = failed_to_find_an_interface none
    ∧ example_interface.db_wait example_db ⟨1⟩ (signal_t.plain 0) datum_t.uninitialized
        example_error
      = failed_to_find_an_interface datum_t.uninitialized
    ∧ example_interface.db_rebalance example_user_context example_db (signal_t.plain 0)
        datum_t.uninitialized example_error
      = failed_to_find_an_interface datum_t.uninitialized
    ∧ example_interface.db_reconfigure example_user_context example_db ⟨4⟩ true
        (signal_t.plain 0) datum_t.uninitialized
        example_error
      = failed_to_find_an_interface datum_t.uninitialized
    ∧ example_interface.table_create example_user_context example_logs example_db ⟨4⟩ "id" ⟨0⟩
        (signal_t.plain 0) datum_t.uninitialized example_error
      = failed_to_find_an_interface datum_t.uninitialized
    ∧ example_interface.table_drop example_user_context example_logs example_db
        (signal_t.plain 0) datum_t.uninitialized example_error
      = failed_to_find_an_interface datum_t.uninitialized
    ∧ example_interface.table_list example_db (signal_t.plain 0) {example_users} example_error
      = failed_to_find_an_interface {example_users}
    ∧ example_interface.table_find example_uuid_functions example_logs example_db none
        (signal_t.plain 0) (some (base_table_t.other 6))
        example_error
      = failed_to_find_an_interface (some (base_table_t.other 6))
    ∧ example_interface.table_estimate_doc_counts example_user_context example_db example_logs
        example_env [11]
        example_error
      = failed_to_find_an_interface [11]
    ∧ example_interface.table_config example_user_context example_db example_logs
        backtrace_id_t.empty example_env none example_error
      = failed_to_find_an_interface none
    ∧ example_interface.table_status example_db example_logs backtrace_id_t.empty example_env
        none example_error
      = failed_to_find_an_interface none
    ∧ example_interface.table_wait example_db example_logs ⟨1⟩ (signal_t.plain 0)
        datum_t.uninitialized example_error
      = failed_to_find_an_interface datum_t.uninitialized
    ∧ example_interface.table_reconfigure example_user_context example_db example_logs ⟨4⟩ true
        (signal_t.plain 0)
        datum_t.uninitialized example_error
      = failed_to_find_an_interface datum_t.uninitialized
    ∧ example_interface.table_emergency_repair example_user_context example_db example_logs ⟨2⟩
        true (signal_t.plain 0)
        datum_t.uninitialized example_error
      = failed_to_find_an_interface datum_t.uninitialized
    ∧ example_interface.table_rebalance example_user_context example_db example_logs
        (signal_t.plain 0) datum_t.uninitialized example_error
      = failed_to_find_an_interface datum_t.uninitialized
    ∧ example_interface.grant_global example_user_context ⟨"bob"⟩ (datum_t.other 8)
        (signal_t.plain 0) datum_t.uninitialized
        example_error
      = failed_to_find_an_interface datum_t.uninitialized
    ∧ example_interface.grant_database example_uuid_functions example_user_context ⟨9⟩ ⟨"bob"⟩
        (datum_t.other 8)
        (signal_t.plain 0) datum_t.uninitialized example_error
      = (failed_to_find_an_interface datum_t.uninitialized).map
          (fun r => (r, example_interface.m_auth_semilattice_view))
    ∧ example_interface.grant_table example_uuid_functions example_user_context ⟨9⟩ ⟨10⟩ ⟨"bob"⟩
        (datum_t.other 8)
        (signal_t.plain 0) datum_t.uninitialized example_error
      = (failed_to_find_an_interface datum_t.uninitialized).map
          (fun r => (r, example_interface.m_auth_semilattice_view))
    ∧ example_interface.sindex_create example_user_context example_db example_logs "by_time" ⟨12⟩
        (signal_t.plain 0)
        example_error
      = failed_to_find_an_interface ()
    ∧ example_interface.sindex_drop example_user_context example_db example_logs "by_time"
        (signal_t.plain 0) example_error
      = failed_to_find_an_interface ()
    ∧ example_interface.sindex_rename example_user_context example_db example_logs "by_time"
        "by_day" false
        (signal_t.plain 0) example_error
      = failed_to_find_an_interface ()
    ∧ example_interface.sindex_list example_db example_logs (signal_t.plain 0) example_error
        example_sindex_map
      = failed_to_find_an_interface example_sindex_map) :=
  have hnext : example_interface.m_next = none := rfl
  have hname : example_test ≠ database_name := by decide
  have hdb : example_db.name ≠ database_name := by decide
  have hdatabase : (⟨9⟩ : database_id_t) ≠ database_id example_uuid_functions := by decide
  ⟨hnext, hname, hdb, hdatabase,
    forwarding_without_next_interface_fails example_uuid_functions example_interface
      example_user_context example_test example_db example_logs (signal_t.plain 0)
      backtrace_id_t.empty example_env ⟨4⟩ "id" ⟨0⟩
      none ⟨1⟩ true ⟨2⟩
      ⟨"bob"⟩ (datum_t.other 8) ⟨9⟩ ⟨10⟩
      "by_time" "by_day" false ⟨12⟩ datum_t.uninitialized
      {example_users} none none (some (base_table_t.other 6))
      [11] example_sindex_map
      example_error hnext hname hdb hdatabase⟩

open artificial_reql_cluster_interface_t in
/-- C7: on `example_interface`, whose `m_next` is null, and the database `test`,
`set_write_hook` and `get_write_hook` do not return the error
"Failed to find an interface.": both dereference the null `m_next`. The guarded sibling
`sindex_list`, on the same dispatcher and database, returns that error. -/
theorem write_hook_methods_dereference_null_next :
    example_interface.set_write_hook example_user_context example_db example_logs none
        (signal_t.plain 0) example_error
      = .error fault_t.null_dereference
    ∧ example_interface.get_write_hook example_user_context example_db example_logs
        (signal_t.plain 0) datum_t.uninitialized example_error
      = .error fault_t.null_dereference
    ∧ example_interface.sindex_list example_db example_logs (signal_t.plain 0) example_error
        example_sindex_map
      = failed_to_find_an_interface example_sindex_map := by
  have hdb : example_db.name ≠ database_name := by decide
  refine ⟨?_, ?_, ?_⟩
  · simp only [set_write_hook, if_neg hdb, deref_next]
    rfl
  · simp only [get_write_hook, if_neg hdb, deref_next]
    rfl
  · simp only [sindex_list, if_neg hdb]
    exact next_or_error_and_of_null _ _ _ _ _ rfl

/-! ## Estimating document counts -/

open artificial_reql_cluster_interface_t in
/-- C8: for every table registered under the reserved database (in a map with unique
keys) whose uuid-addressed backend is `backend`: `table_estimate_doc_counts` asks
`backend` for the rows of the universe range, unordered; when that request succeeds
with the stream `docs` and the count aggregate evaluates without error, the method
returns `true` with a result vector of exactly one element, the number of rows of
`docs` (so `[0]` for a stream without rows), and makes no call on `m_next`, whatever
`m_next` is. -/
theorem estimate_doc_counts_counts_rows {A : auth_lib}
    (self : artificial_reql_cluster_interface_t A) (user_context : user_context_t)
    (db_id : database_id_t) (name : name_string_t) (env : env_t) (doc_counts_out : List Int)
    (error_out error_out1 : admin_err_t) (by_name : backend_ptr)
    (backend : artificial_table_backend_t) (docs : datum_stream_t)
    (hunique : self.m_table_backends.names.Nodup)
    (hregistered : (name, (by_name, some backend)) ∈ self.m_table_backends.entries)
    (hread : backend.read_all_rows_as_stream user_context backtrace_id_t.empty
        { range := datum_range_t.universe } sorting_t.UNORDERED env.interruptor none error_out
      = (true, some docs, error_out1))
    (heval : ∃ count, docs.run_terminal env {} = .ok count) :
    self.table_estimate_doc_counts user_context { id := db_id, name := database_name } name env
        doc_counts_out error_out
      = .ok { value := true,
              result_out := [(docs.rows.length : Int)],
              error_out := error_out1,
              next_calls := [] }
    ∧ (docs.rows = [] →
        self.table_estimate_doc_counts user_context { id := db_id, name := database_name } name
            env doc_counts_out error_out
          = .ok { value := true, result_out := [0], error_out := error_out1,
                  next_calls := [] }) := by
  have hfind : self.m_table_backends.find name = some (name, (by_name, some backend)) :=
    table_backends_map_t.find_of_mem _ _ _ hunique hregistered
  have hfailure : docs.failure = none := by
    obtain ⟨count, hcount⟩ := heval
    unfold datum_stream_t.run_terminal at hcount
    cases hf : docs.failure with
    | none => rfl
    | some e => rw [hf] at hcount; cases hcount
  have hmain : self.table_estimate_doc_counts user_context
      { id := db_id, name := database_name } name env doc_counts_out error_out
      = .ok { value := true, result_out := [(docs.rows.length : Int)],
              error_out := error_out1, next_calls := [] } := by
    simp only [table_estimate_doc_counts, if_true, hfind, hread,
      datum_stream_t.run_terminal, hfailure, Except.bind, val_t.as_int]
  refine ⟨hmain, ?_⟩
  intro hrows
  rw [hmain, hrows]
  rfl

open artificial_reql_cluster_interface_t in
/-- The statement of C8 on `example_interface` and its table `_debug_scratch`, whose
backend yields no rows: the result is `[0]`. -/
theorem estimate_doc_counts_counts_rows_witness :
    example_interface.m_table_backends.names.Nodup
    ∧ (example_debug_scratch,
        (some example_debug_scratch_backend, some example_debug_scratch_backend))
        ∈ example_interface.m_table_backends.entries
    ∧ example_debug_scratch_backend.read_all_rows_as_stream example_user_context
        backtrace_id_t.empty { range := datum_range_t.universe } sorting_t.UNORDERED
        example_env.interruptor none example_error
      = (true, some example_empty_docs, example_error)
    ∧ (∃ count, example_empty_docs.run_terminal example_env {}
        = .ok count)
    ∧ example_interface.table_estimate_doc_counts example_user_context
        { id := { value := 5 }, name := database_name } example_debug_scratch example_env [11]
        example_error
      = .ok { value := true, result_out := [0], error_out := example_error, next_calls := [] }
    ∧ (example_empty_docs.rows = [] →
        example_interface.table_estimate_doc_counts example_user_context
            { id := { value := 5 }, name := database_name } example_debug_scratch example_env
            [11] example_error
          = .ok { value := true, result_out := [0], error_out := example_error,
                  next_calls := [] }) :=
  have hunique : example_interface.m_table_backends.names.Nodup := by decide
  have hregistered : (example_debug_scratch,
      (some example_debug_scratch_backend, some example_debug_scratch_backend))
      ∈ example_interface.m_table_backends.entries := List.mem_cons_self _ _
  have hread : example_debug_scratch_backend.read_all_rows_as_stream example_user_context
      backtrace_id_t.empty { range := datum_range_t.universe } sorting_t.UNORDERED
      example_env.interruptor none example_error
      = (true, some example_empty_docs, example_error) := by decide
  have heval : ∃ count,
      example_empty_docs.run_terminal example_env {}
        = .ok count := ⟨_, rfl⟩
  ⟨hunique, hregistered, hread, heval,
    estimate_doc_counts_counts_rows example_interface example_user_context { value := 5 }
      example_debug_scratch example_env [11] example_error example_error
      (some example_debug_scratch_backend) example_debug_scratch_backend
      example_empty_docs hunique hregistered hread heval⟩

open artificial_reql_cluster_interface_t in
/-- C9, as stated, fails: on `example_interface_with_issues` the evaluation of the count
aggregate over the stream of `current_issues` raises an exception that is not a
`ql::base_exc_t`; it is not caught, so `table_estimate_doc_counts` does not return
`false` with an error: the exception leaves the call. -/
theorem estimate_doc_counts_lets_other_exception_escape :
    example_interrupted_backend.read_all_rows_as_stream example_user_context
        backtrace_id_t.empty { range := datum_range_t.universe } sorting_t.UNORDERED
        example_env.interruptor none example_error
      = (true, some example_interrupted_docs, example_error)
    ∧ example_interrupted_docs.run_terminal example_env {}
      = .error (exception_t.other "interrupted")
    ∧ example_interface_with_issues.table_estimate_doc_counts example_user_context
        { id := { value := 5 }, name := database_name } example_issues example_env [11]
        example_error
      = .error (fault_t.uncaught (exception_t.other "interrupted"))
    ∧ ¬ ∃ r, example_interface_with_issues.table_estimate_doc_counts example_user_context
        { id := { value := 5 }, name := database_name } example_issues example_env [11]
        example_error
      = .ok r := by
  have hcall : example_interface_with_issues.table_estimate_doc_counts example_user_context
      { id := { value := 5 }, name := database_name } example_issues example_env [11]
      example_error
      = .error (fault_t.uncaught (exception_t.other "interrupted")) := rfl
  refine ⟨rfl, rfl, hcall, ?_⟩
  rintro ⟨r, hr⟩
  rw [hcall] at hr
  cases hr

open artificial_reql_cluster_interface_t in
/-- C9, amended: for every table registered under the reserved database (in a map with
unique keys) whose uuid-addressed backend delivers the stream `docs`: if evaluating the
count aggregate raises an exception of the `ql::base_exc_t` hierarchy with message `m`,
the exception is caught and does not leave the method; `table_estimate_doc_counts`
returns `false` with the error exactly `"When estimating doc count: " ++ m` and state
`FAILED`, and the result vector is left as it was. An exception of any other type is
not caught and leaves the method. -/
theorem estimate_doc_counts_converts_evaluation_error {A : auth_lib}
    (self : artificial_reql_cluster_interface_t A) (user_context : user_context_t)
    (db_id : database_id_t) (name : name_string_t) (env : env_t) (doc_counts_out : List Int)
    (error_out error_out1 : admin_err_t) (by_name : backend_ptr)
    (backend : artificial_table_backend_t) (docs : datum_stream_t)
    (hunique : self.m_table_backends.names.Nodup)
    (hregistered : (name, (by_name, some backend)) ∈ self.m_table_backends.entries)
    (hread : backend.read_all_rows_as_stream user_context backtrace_id_t.empty
        { range := datum_range_t.universe } sorting_t.UNORDERED env.interruptor none error_out
      = (true, some docs, error_out1)) :
    (∀ m : String, docs.run_terminal env {} = .error (exception_t.base_exc_t m) →
      self.table_estimate_doc_counts user_context { id := db_id, name := database_name } name
          env doc_counts_out error_out
        = .ok { value := false,
                result_out := doc_counts_out,
                error_out := { msg := "When estimating doc count: " ++ m,
                               query_state := query_state_t.FAILED },
                next_calls := [] })
    ∧ (∀ what : String, docs.run_terminal env {} = .error (exception_t.other what) →
        self.table_estimate_doc_counts user_context { id := db_id, name := database_name }
            name env doc_counts_out error_out
          = .error (fault_t.uncaught (exception_t.other what))) := by
  have hfind : self.m_table_backends.find name = some (name, (by_name, some backend)) :=
    table_backends_map_t.find_of_mem _ _ _ hunique hregistered
  constructor
  · intro m hraise
    simp only [table_estimate_doc_counts, if_true, hfind, hread, hraise, Except.bind]
  · intro what hraise
    simp only [table_estimate_doc_counts, if_true, hfind, hread, hraise, Except.bind]

open artificial_reql_cluster_interface_t in
/-- The amended statement of C9 on `example_interface` and its table `jobs`, whose
stream raises the `ql::base_exc_t` "Evaluation failed." when it is counted, and on
`example_interface_with_issues` and its table `current_issues`, whose stream raises
another exception. -/
theorem estimate_doc_counts_converts_evaluation_error_witness :
    example_interface.m_table_backends.names.Nodup
    ∧ (example_jobs, (some example_jobs_backend, some example_jobs_backend))
        ∈ example_interface.m_table_backends.entries
    ∧ example_jobs_backend.read_all_rows_as_stream example_user_context
        backtrace_id_t.empty { range := datum_range_t.universe } sorting_t.UNORDERED
        example_env.interruptor none example_error
      = (true, some example_failing_docs, example_error)
    ∧ example_failing_docs.run_terminal example_env {}
      = .error (exception_t.base_exc_t "Evaluation failed.")
    ∧ example_interface_with_issues.m_table_backends.names.Nodup
    ∧ (example_issues, (some example_interrupted_backend, some example_interrupted_backend))
        ∈ example_interface_with_issues.m_table_backends.entries
    ∧ example_interrupted_backend.read_all_rows_as_stream example_user_context
        backtrace_id_t.empty { range := datum_range_t.universe } sorting_t.UNORDERED
        example_env.interruptor none example_error
      = (true, some example_interrupted_docs, example_error)
    ∧ example_interrupted_docs.run_terminal example_env {}
      = .error (exception_t.other "interrupted")
    ∧ example_interface.table_estimate_doc_counts example_user_context
        { id := { value := 5 }, name := database_name } example_jobs example_env [11]
        example_error
      = .ok { value := false,
              result_out := [11],
              error_out := { msg := "When estimating doc count: " ++ "Evaluation failed.",
                             query_state := query_state_t.FAILED },
              next_calls := [] }
    ∧ example_interface_with_issues.table_estimate_doc_counts example_user_context
        { id := { value := 5 }, name := database_name } example_issues example_env [11]
        example_error
      = .error (fault_t.uncaught (exception_t.other "interrupted")) :=
  have hunique : example_interface.m_table_backends.names.Nodup := by decide
  have hregistered : (example_jobs, (some example_jobs_backend, some example_jobs_backend))
      ∈ example_interface.m_table_backends.entries :=
    List.mem_cons_of_mem _ (List.mem_cons_of_mem _ (List.mem_cons_self _ _))
  have hread : example_jobs_backend.read_all_rows_as_stream example_user_context
      backtrace_id_t.empty { range := datum_range_t.universe } sorting_t.UNORDERED
      example_env.interruptor none example_error
      = (true, some example_failing_docs, example_error) := by decide
  have hraise : example_failing_docs.run_terminal example_env {}
      = .error (exception_t.base_exc_t "Evaluation failed.") := rfl
  have hunique1 : example_interface_with_issues.m_table_backends.names.Nodup := by decide
  have hregistered1 :
      (example_issues, (some example_interrupted_backend, some example_interrupted_backend))
        ∈ example_interface_with_issues.m_table_backends.entries := List.mem_cons_self _ _
  have hread1 : example_interrupted_backend.read_all_rows_as_stream example_user_context
      backtrace_id_t.empty { range := datum_range_t.universe } sorting_t.UNORDERED
      example_env.interruptor none example_error
      = (true, some example_interrupted_docs, example_error) := by decide
  have hraise1 : example_interrupted_docs.run_terminal example_env {}
      = .error (exception_t.other "interrupted") := rfl
  ⟨hunique, hregistered, hread, hraise, hunique1, hregistered1, hread1, hraise1,
    (estimate_doc_counts_converts_evaluation_error example_interface example_user_context
      { value := 5 } example_jobs example_env [11] example_error example_error
      (some example_jobs_backend) example_jobs_backend example_failing_docs hunique
      hregistered hread).1 "Evaluation failed." hraise,
    (estimate_doc_counts_converts_evaluation_error example_interface_with_issues
      example_user_context { value := 5 } example_issues example_env [11] example_error
      example_error (some example_interrupted_backend) example_interrupted_backend
      example_interrupted_docs hunique1 hregistered1 hread1).2 "interrupted" hraise1⟩

/-! ## Permission grants -/

open artificial_reql_cluster_interface_t in
/-- C10: `grant_database` and `grant_table` called with the reserved database id, for
every `m_next` (null or not), make no call on `m_next` and do not go through
`next_or_error`: their outcome is that of `auth::grant` run for the target user with
the selector `user.get_database_permissions(database_id)` (for `grant_database`) or
`user.get_table_permissions(table)` (for `grant_table`). For any other database id the
call goes to the next interface: with `m_next` set it is the one call made and its reply
is returned, with `m_next` null the call fails in `next_or_error`. -/
theorem grants_on_reserved_database_use_auth_grant {A : auth_lib} (F : uuid_functions)
    (self : artificial_reql_cluster_interface_t A) (user_context : user_context_t)
    (table : namespace_id_t) (username : username_t) (permissions : datum_t)
    (interruptor : signal_t) (result_out : datum_t) (error_out : admin_err_t) :
    self.grant_database F user_context (database_id F) username permissions interruptor
        result_out error_out
      = granted_by_auth self user_context username permissions interruptor
          (fun user => A.get_database_permissions user (database_id F)) result_out error_out
    ∧ self.grant_table F user_context (database_id F) table username permissions interruptor
        result_out error_out
      = granted_by_auth self user_context username permissions interruptor
          (fun user => A.get_table_permissions user table) result_out error_out
    ∧ (∀ (database : database_id_t) (next : reql_cluster_interface_t),
        database ≠ database_id F → self.m_next = some next →
          self.grant_database F user_context database username permissions interruptor
              result_out error_out
            = (forwarded
                (next_call.grant_database user_context database username permissions
                  interruptor result_out error_out)
                (next.grant_database user_context database username permissions interruptor
                  result_out error_out)).map (fun r => (r, self.m_auth_semilattice_view))
          ∧ self.grant_table F user_context database table username permissions interruptor
              result_out error_out
            = (forwarded
                (next_call.grant_table user_context database table username permissions
                  interruptor result_out error_out)
                (next.grant_table user_context database table username permissions
                  interruptor result_out error_out)).map
                (fun r => (r, self.m_auth_semilattice_view)))
    ∧ (∀ (database : database_id_t),
        database ≠ database_id F → self.m_next = none →
          self.grant_database F user_context database username permissions interruptor
              result_out error_out
            = (failed_to_find_an_interface result_out).map
                (fun r => (r, self.m_auth_semilattice_view))
          ∧ self.grant_table F user_context database table username permissions interruptor
              result_out error_out
            = (failed_to_find_an_interface result_out).map
                (fun r => (r, self.m_auth_semilattice_view))) := by
  refine ⟨?_, ?_, ?_, ?_⟩
  · simp only [grant_database, if_true, granted_by_auth]
  · simp only [grant_table, if_true, granted_by_auth]
  · intro database next hother hnext
    constructor
    · simp only [grant_database, if_neg hother, next_or_error_and_of_some _ _ _ _ _ next hnext]
    · simp only [grant_table, if_neg hother, next_or_error_and_of_some _ _ _ _ _ next hnext]
  · intro database hother hnext
    constructor
    · simp only [grant_database, if_neg hother, next_or_error_and_of_null _ _ _ _ _ hnext]
    · simp only [grant_table, if_neg hother, next_or_error_and_of_null _ _ _ _ _ hnext]

open artificial_reql_cluster_interface_t in
/-- The statement of C10 on `example_interface_with_next`: the grants on the reserved
id (the uuid of value 46 under `example_uuid_functions`) are recorded in the view by
`auth::grant` and make no call, the grants on the uuid of value 9 are the one call made
on `example_next`. -/
theorem grants_on_reserved_database_use_auth_grant_witness :
    (⟨9⟩ : database_id_t) ≠ database_id example_uuid_functions
    ∧ example_interface_with_next.m_next = some example_next
    ∧ example_interface_with_next.grant_database example_uuid_functions example_user_context
        (database_id example_uuid_functions) ⟨"bob"⟩ (datum_t.other 8) (signal_t.plain 0)
        datum_t.uninitialized example_error
      = .ok ({ value := true, result_out := datum_t.other 8, error_out := example_error,
               next_calls := [] },
             [("bob", (0, 46))])
    ∧ example_interface_with_next.grant_table example_uuid_functions example_user_context
        (database_id example_uuid_functions) ⟨10⟩ ⟨"bob"⟩ (datum_t.other 8) (signal_t.plain 0)
        datum_t.uninitialized example_error
      = .ok ({ value := true, result_out := datum_t.other 8, error_out := example_error,
               next_calls := [] },
             [("bob", (1, 10))])
    ∧ example_interface_with_next.grant_database example_uuid_functions example_user_context
        ⟨9⟩ ⟨"bob"⟩ (datum_t.other 8) (signal_t.plain 0) datum_t.uninitialized example_error
      = .ok ({ value := true, result_out := datum_t.other 1, error_out := example_error,
               next_calls := [next_call.grant_database example_user_context ⟨9⟩ ⟨"bob"⟩
                 (datum_t.other 8) (signal_t.plain 0) datum_t.uninitialized example_error] },
             [])
    ∧ example_interface_with_next.grant_table example_uuid_functions example_user_context
        ⟨9⟩ ⟨10⟩ ⟨"bob"⟩ (datum_t.other 8) (signal_t.plain 0) datum_t.uninitialized
        example_error
      = .ok ({ value := true, result_out := datum_t.other 1, error_out := example_error,
               next_calls := [next_call.grant_table example_user_context ⟨9⟩ ⟨10⟩ ⟨"bob"⟩
                 (datum_t.other 8) (signal_t.plain 0) datum_t.uninitialized example_error] },
             []) :=
  have hother : (⟨9⟩ : database_id_t) ≠ database_id example_uuid_functions := by decide
  have hnext : example_interface_with_next.m_next = some example_next := rfl
  have h := grants_on_reserved_database_use_auth_grant example_uuid_functions
    example_interface_with_next example_user_context ⟨10⟩ ⟨"bob"⟩ (datum_t.other 8)
    (signal_t.plain 0) datum_t.uninitialized example_error
  ⟨hother, hnext, h.1, h.2.1, (h.2.2.1 ⟨9⟩ example_next hother hnext).1,
    (h.2.2.1 ⟨9⟩ example_next hother hnext).2⟩

/-! ## Forwarding to the next interface -/

open artificial_reql_cluster_interface_t in
/-- C11: with `m_next` set, every method other than `db_list` whose target is not the
reserved database (a name different from `rethinkdb` for the methods that look at a
name, an id different from the reserved id for `grant_database` and `grant_table`),
and `grant_global` for every argument, makes exactly one call on `m_next`, the method of
the same name with exactly the arguments it received, and returns exactly the `bool`,
the result and the error of that call. -/
theorem forwarding_is_verbatim {A : auth_lib} (F : uuid_functions)
    (self : artificial_reql_cluster_interface_t A) (next : reql_cluster_interface_t)
    (user_context : user_context_t) (name : name_string_t) (db : db_t)
    (table : name_string_t) (interruptor : signal_t) (bt : backtrace_id_t) (env : env_t)
    (params : table_generate_config_params_t) (primary_key : String)
    (durability : write_durability_t) (identifier_format : Option admin_identifier_format_t)
    (readiness : table_readiness_t) (dry_run : Bool) (mode : emergency_repair_mode_t)
    (username : username_t) (permissions : datum_t) (database : database_id_t)
    (table_id : namespace_id_t) (index new_name : String) (overwrite : Bool)
    (config : sindex_config_t) (hook_config : Option write_hook_config_t)
    (result_out : datum_t) (names_out : Finset name_string_t) (db_out : Option db_t)
    (selection_out : Option val_t) (table_out : Option base_table_t)
    (doc_counts_out : List Int) (configs_and_statuses_out : sindex_map_t)
    (error_out : admin_err_t)
    (hnext : self.m_next = some next) (hname : name ≠ database_name)
    (hdb : db.name ≠ database_name) (hdatabase : database ≠ database_id F) :
    self.db_create user_context name interruptor result_out error_out
      = forwarded
          (next_call.db_create user_context name interruptor result_out error_out)
          (next.db_create user_context name interruptor result_out error_out)
    ∧ self.db_drop user_context name interruptor result_out error_out
      = forwarded
          (next_call.db_drop user_context name interruptor result_out error_out)
          (next.db_drop user_context name interruptor result_out error_out)
    ∧ self.db_find F name interruptor db_out error_out
      = forwarded
          (next_call.db_find name interruptor db_out error_out)
          (next.db_find name interruptor db_out error_out)
    ∧ self.db_config user_context db bt env selection_out error_out
      = forwarded
          (next_call.db_config user_context db bt env selection_out error_out)
          (next.db_config user_context db bt env selection_out error_out)
    ∧ self.db_wait db readiness interruptor result_out error_out
      = forwarded
          (next_call.db_wait db readiness interruptor result_out error_out)
          (next.db_wait db readiness interruptor result_out error_out)
    ∧ self.db_rebalance user_context db interruptor result_out error_out
      = forwarded
          (next_call.db_rebalance user_context db interruptor result_out error_out)
          (next.db_rebalance user_context db interruptor result_out error_out)
    ∧ self.db_reconfigure user_context db params dry_run interruptor result_out
        error_out
      = forwarded
          (next_call.db_reconfigure user_context db params dry_run interruptor result_out
            error_out)
          (next.db_reconfigure user_context db params dry_run interruptor result_out
            error_out)
    ∧ self.table_create user_context table db params primary_key durability
        interruptor result_out error_out
      = forwarded
          (next_call.table_create user_context table db params primary_key durability
            interruptor result_out error_out)
          (next.table_create user_context table db params primary_key durability
            interruptor result_out error_out)
    ∧ self.table_drop user_context table db interruptor result_out error_out
      = forwarded
          (next_call.table_drop user_context table db interruptor result_out error_out)
          (next.table_drop user_context table db interruptor result_out error_out)
    ∧ self.table_list db interruptor names_out error_out
      = forwarded
          (next_call.table_list db interruptor names_out error_out)
          (next.table_list db interruptor names_out error_out)
    ∧ self.table_find F table db identifier_format interruptor table_out error_out
      = forwarded
          (next_call.table_find table db identifier_format interruptor table_out error_out)
          (next.table_find table db identifier_format interruptor table_out error_out)
    ∧ self.table_estimate_doc_counts user_context db table env doc_counts_out error_out
      = forwarded
          (next_call.table_estimate_doc_counts user_context db table env doc_counts_out
            error_out)
          (next.table_estimate_doc_counts user_context db table env doc_counts_out error_out)
    ∧ self.table_config user_context db table bt env selection_out error_out
      = forwarded
          (next_call.table_config user_context db table bt env selection_out error_out)
          (next.table_config user_context db table bt env selection_out error_out)
    ∧ self.table_status db table bt env selection_out error_out
      = forwarded
          (next_call.table_status db table bt env selection_out error_out)
          (next.table_status db table bt env selection_out error_out)
    ∧ self.table_wait db table readiness interruptor result_out error_out
      = forwarded
          (next_call.table_wait db table readiness interruptor result_out error_out)
          (next.table_wait db table readiness interruptor result_out error_out)
    ∧ self.table_reconfigure user_context db table params dry_run interruptor
        result_out error_out
      = forwarded
          (next_call.table_reconfigure user_context db table params dry_run interruptor
            result_out error_out)
          (next.table_reconfigure user_context db table params dry_run interruptor
            result_out error_out)
    ∧ self.table_emergency_repair user_context db table mode dry_run interruptor
        result_out error_out
      = forwarded
          (next_call.table_emergency_repair user_context db table mode dry_run interruptor
            result_out error_out)
          (next.table_emergency_repair user_context db table mode dry_run interruptor
            result_out error_out)
    ∧ self.table_rebalance user_context db table interruptor result_out error_out
      = forwarded
          (next_call.table_rebalance user_context db table interruptor result_out error_out)
          (next.table_rebalance user_context db table interruptor result_out error_out)
    ∧ self.grant_global user_context username permissions interruptor result_out
        error_out
      = forwarded
          (next_call.grant_global user_context username permissions interruptor result_out
            error_out)
          (next.grant_global user_context username permissions interruptor result_out
            error_out)
    ∧ self.grant_database F user_context database username permissions interruptor
        result_out error_out
      = (forwarded
          (next_call.grant_database user_context database username permissions interruptor
            result_out error_out)
          (next.grant_database user_context database username permissions interruptor
            result_out error_out)).map
          (fun r => (r, self.m_auth_semilattice_view))
    ∧ self.grant_table F user_context database table_id username permissions
        interruptor result_out error_out
      = (forwarded
          (next_call.grant_table user_context database table_id username permissions
            interruptor result_out error_out)
          (next.grant_table user_context database table_id username permissions interruptor
            result_out error_out)).map
          (fun r => (r, self.m_auth_semilattice_view))
    ∧ self.set_write_hook user_context db table hook_config interruptor error_out
      = forwarded
          (next_call.set_write_hook user_context db table hook_config interruptor error_out)
          (next.set_write_hook user_context db table hook_config interruptor error_out)
    ∧ self.get_write_hook user_context db table interruptor result_out error_out
      = forwarded
          (next_call.get_write_hook user_context db table interruptor result_out error_out)
          (next.get_write_hook user_context db table interruptor result_out error_out)
    ∧ self.sindex_create user_context db table index config interruptor error_out
      = forwarded
          (next_call.sindex_create user_context db table index config interruptor error_out)
          (next.sindex_create user_context db table index config interruptor error_out)
    ∧ self.sindex_drop user_context db table index interruptor error_out
      = forwarded
          (next_call.sindex_drop user_context db table index interruptor error_out)
          (next.sindex_drop user_context db table index interruptor error_out)
    ∧ self.sindex_rename user_context db table index new_name overwrite interruptor
        error_out
      = forwarded
          (next_call.sindex_rename user_context db table index new_name overwrite
            interruptor error_out)
          (next.sindex_rename user_context db table index new_name overwrite interruptor
            error_out)
    ∧ self.sindex_list db table interruptor error_out configs_and_statuses_out
      = forwarded
          (next_call.sindex_list db table interruptor error_out configs_and_statuses_out)
          (next.sindex_list db table interruptor error_out configs_and_statuses_out) := by
  refine ⟨?_, ?_, ?_, ?_, ?_, ?_, ?_, ?_, ?_, ?_, ?_, ?_, ?_, ?_, ?_, ?_, ?_, ?_, ?_, ?_, ?_, ?_,
    ?_, ?_, ?_, ?_, ?_⟩
  · simp only [db_create, if_neg hname, next_or_error_and_of_some _ _ _ _ _ next hnext]
  · simp only [db_drop, if_neg hname, next_or_error_and_of_some _ _ _ _ _ next hnext]
  · simp only [db_find, if_neg hname, next_or_error_and_of_some _ _ _ _ _ next hnext]
  · simp only [db_config, if_neg hdb, next_or_error_and_of_some _ _ _ _ _ next hnext]
  · simp only [db_wait, if_neg hdb, next_or_error_and_of_some _ _ _ _ _ next hnext]
  · simp only [db_rebalance, if_neg hdb, next_or_error_and_of_some _ _ _ _ _ next hnext]
  · simp only [db_reconfigure, if_neg hdb, next_or_error_and_of_some _ _ _ _ _ next hnext]
  · simp only [table_create, if_neg hdb, next_or_error_and_of_some _ _ _ _ _ next hnext]
  · simp only [table_drop, if_neg hdb, next_or_error_and_of_some _ _ _ _ _ next hnext]
  · simp only [table_list, if_neg hdb, next_or_error_and_of_some _ _ _ _ _ next hnext]
  · simp only [table_find, if_neg hdb, next_or_error_and_of_some _ _ _ _ _ next hnext]
  · simp only [table_estimate_doc_counts, if_neg hdb,
      next_or_error_and_of_some _ _ _ _ _ next hnext]
  · simp only [table_config, if_neg hdb, next_or_error_and_of_some _ _ _ _ _ next hnext]
  · simp only [table_status, if_neg hdb, next_or_error_and_of_some _ _ _ _ _ next hnext]
  · simp only [table_wait, if_neg hdb, next_or_error_and_of_some _ _ _ _ _ next hnext]
  · simp only [table_reconfigure, if_neg hdb, next_or_error_and_of_some _ _ _ _ _ next hnext]
  · simp only [table_emergency_repair, if_neg hdb, next_or_error_and_of_some _ _ _ _ _ next hnext]
  · simp only [table_rebalance, if_neg hdb, next_or_error_and_of_some _ _ _ _ _ next hnext]
  · simp only [grant_global, next_or_error_and_of_some _ _ _ _ _ next hnext]
  · simp only [grant_database, if_neg hdatabase, next_or_error_and_of_some _ _ _ _ _ next hnext]
  · simp only [grant_table, if_neg hdatabase, next_or_error_and_of_some _ _ _ _ _ next hnext]
  · simp only [set_write_hook, if_neg hdb, deref_next_of_some _ _ _ next hnext]
  · simp only [get_write_hook, if_neg hdb, deref_next_of_some _ _ _ next hnext]
  · simp only [sindex_create, if_neg hdb, next_or_error_and_of_some _ _ _ _ _ next hnext]
  · simp only [sindex_drop, if_neg hdb, next_or_error_and_of_some _ _ _ _ _ next hnext]
  · simp only [sindex_rename, if_neg hdb, next_or_error_and_of_some _ _ _ _ _ next hnext]
  · simp only [sindex_list, if_neg hdb, next_or_error_and_of_some _ _ _ _ _ next hnext]

open artificial_reql_cluster_interface_t in
/-- The statement of C11 on `example_interface_with_next`, whose next interface is
`example_next`, for the database `test`. -/
theorem forwarding_is_verbatim_witness :
    example_interface_with_next.m_next = some example_next
    ∧ example_test ≠ database_name
    ∧ example_db.name ≠ database_name
    ∧ (⟨9⟩ : database_id_t) ≠ database_id example_uuid_functions
    ∧ (
    example_interface_with_next.db_create example_user_context example_test (signal_t.plain 0)
        datum_t.uninitialized example_error
      = forwarded
          (next_call.db_create example_user_context example_test (signal_t.plain 0) datum_t.uninitialized
            example_error)
          (example_next.db_create example_user_context example_test (signal_t.plain 0)
            datum_t.uninitialized example_error)
    ∧ example_interface_with_next.db_drop example_user_context example_test (signal_t.plain 0)
        datum_t.uninitialized example_error
      = forwarded
          (next_call.db_drop example_user_context example_test (signal_t.plain 0) datum_t.uninitialized
            example_error)
          (example_next.db_drop example_user_context example_test (signal_t.plain 0) datum_t.uninitialized
            example_error)
    ∧ example_interface_with_next.db_find example_uuid_functions example_test (signal_t.plain 0) none
        example_error
      = forwarded
          (next_call.db_find example_test (signal_t.plain 0) none example_error)
          (example_next.db_find example_test (signal_t.plain 0) none example_error)
    ∧ example_interface_with_next.db_config example_user_context example_db backtrace_id_t.empty
        example_env none example_error
      = forwarded
          (next_call.db_config example_user_context example_db backtrace_id_t.empty example_env none
            example_error)
          (example_next.db_config example_user_context example_db backtrace_id_t.empty example_env none
            example_error)
    ∧ example_interface_with_next.db_wait example_db ⟨1⟩ (signal_t.plain 0) datum_t.uninitialized
        example_error
      = forwarded
          (next_call.db_wait example_db ⟨1⟩ (signal_t.plain 0) datum_t.uninitialized example_error)
          (example_next.db_wait example_db ⟨1⟩ (signal_t.plain 0) datum_t.uninitialized example_error)
    ∧ example_interface_with_next.db_rebalance example_user_context example_db (signal_t.plain 0)
        datum_t.uninitialized example_error
      = forwarded
          (next_call.db_rebalance example_user_context example_db (signal_t.plain 0) datum_t.uninitialized
            example_error)
          (example_next.db_rebalance example_user_context example_db (signal_t.plain 0)
            datum_t.uninitialized example_error)
    ∧ example_interface_with_next.db_reconfigure example_user_context example_db ⟨4⟩ true
        (signal_t.plain 0) datum_t.uninitialized example_error
      = forwarded
          (next_call.db_reconfigure example_user_context example_db ⟨4⟩ true (signal_t.plain 0)
            datum_t.uninitialized example_error)
          (example_next.db_reconfigure example_user_context example_db ⟨4⟩ true (signal_t.plain 0)
            datum_t.uninitialized example_error)
    ∧ example_interface_with_next.table_create example_user_context example_logs example_db ⟨4⟩ "id"
        ⟨0⟩ (signal_t.plain 0) datum_t.uninitialized example_error
      = forwarded
          (next_call.table_create example_user_context example_logs example_db ⟨4⟩ "id" ⟨0⟩
            (signal_t.plain 0) datum_t.uninitialized example_error)
          (example_next.table_create example_user_context example_logs example_db ⟨4⟩ "id" ⟨0⟩
            (signal_t.plain 0) datum_t.uninitialized example_error)
    ∧ example_interface_with_next.table_drop example_user_context example_logs example_db
        (signal_t.plain 0) datum_t.uninitialized example_error
      = forwarded
          (next_call.table_drop example_user_context example_logs example_db (signal_t.plain 0)
            datum_t.uninitialized example_error)
          (example_next.table_drop example_user_context example_logs example_db (signal_t.plain 0)
            datum_t.uninitialized example_error)
    ∧ example_interface_with_next.table_list example_db (signal_t.plain 0) {example_users}
        example_error
      = forwarded
          (next_call.table_list example_db (signal_t.plain 0) {example_users} example_error)
          (example_next.table_list example_db (signal_t.plain 0) {example_users} example_error)
    ∧ example_interface_with_next.table_find example_uuid_functions example_logs example_db none
        (signal_t.plain 0) (some (base_table_t.other 6)) example_error
      = forwarded
          (next_call.table_find example_logs example_db none (signal_t.plain 0)
            (some (base_table_t.other 6)) example_error)
          (example_next.table_find example_logs example_db none (signal_t.plain 0)
            (some (base_table_t.other 6)) example_error)
    ∧ example_interface_with_next.table_estimate_doc_counts example_user_context example_db
        example_logs example_env [11] example_error
      = forwarded
          (next_call.table_estimate_doc_counts example_user_context example_db example_logs example_env
            [11] example_error)
          (example_next.table_estimate_doc_counts example_user_context example_db example_logs example_env
            [11] example_error)
    ∧ example_interface_with_next.table_config example_user_context example_db example_logs
        backtrace_id_t.empty example_env none example_error
      = forwarded
          (next_call.table_config example_user_context example_db example_logs backtrace_id_t.empty
            example_env none example_error)
          (example_next.table_config example_user_context example_db example_logs backtrace_id_t.empty
            example_env none example_error)
    ∧ example_interface_with_next.table_status example_db example_logs backtrace_id_t.empty
        example_env none example_error
      = forwarded
          (next_call.table_status example_db example_logs backtrace_id_t.empty example_env none
            example_error)
          (example_next.table_status example_db example_logs backtrace_id_t.empty example_env none
            example_error)
    ∧ example_interface_with_next.table_wait example_db example_logs ⟨1⟩ (signal_t.plain 0)
        datum_t.uninitialized example_error
      = forwarded
          (next_call.table_wait example_db example_logs ⟨1⟩ (signal_t.plain 0) datum_t.uninitialized
            example_error)
          (example_next.table_wait example_db example_logs ⟨1⟩ (signal_t.plain 0) datum_t.uninitialized
            example_error)
    ∧ example_interface_with_next.table_reconfigure example_user_context example_db example_logs ⟨4⟩
        true (signal_t.plain 0) datum_t.uninitialized example_error
      = forwarded
          (next_call.table_reconfigure example_user_context example_db example_logs ⟨4⟩ true
            (signal_t.plain 0) datum_t.uninitialized example_error)
          (example_next.table_reconfigure example_user_context example_db example_logs ⟨4⟩ true
            (signal_t.plain 0) datum_t.uninitialized example_error)
    ∧ example_interface_with_next.table_emergency_repair example_user_context example_db example_logs
        ⟨2⟩ true (signal_t.plain 0) datum_t.uninitialized example_error
      = forwarded
          (next_call.table_emergency_repair example_user_context example_db example_logs ⟨2⟩ true
            (signal_t.plain 0) datum_t.uninitialized example_error)
          (example_next.table_emergency_repair example_user_context example_db example_logs ⟨2⟩ true
            (signal_t.plain 0) datum_t.uninitialized example_error)
    ∧ example_interface_with_next.table_rebalance example_user_context example_db example_logs
        (signal_t.plain 0) datum_t.uninitialized example_error
      = forwarded
          (next_call.table_rebalance example_user_context example_db example_logs (signal_t.plain 0)
            datum_t.uninitialized example_error)
          (example_next.table_rebalance example_user_context example_db example_logs (signal_t.plain 0)
            datum_t.uninitialized example_error)
    ∧ example_interface_with_next.grant_global example_user_context ⟨"bob"⟩ (datum_t.other 8)
        (signal_t.plain 0) datum_t.uninitialized example_error
      = forwarded
          (next_call.grant_global example_user_context ⟨"bob"⟩ (datum_t.other 8) (signal_t.plain 0)
            datum_t.uninitialized example_error)
          (example_next.grant_global example_user_context ⟨"bob"⟩ (datum_t.other 8) (signal_t.plain 0)
            datum_t.uninitialized example_error)
    ∧ example_interface_with_next.grant_database example_uuid_functions example_user_context ⟨9⟩
        ⟨"bob"⟩ (datum_t.other 8) (signal_t.plain 0) datum_t.uninitialized example_error
      = (forwarded
          (next_call.grant_database example_user_context ⟨9⟩ ⟨"bob"⟩ (datum_t.other 8) (signal_t.plain 0)
            datum_t.uninitialized example_error)
          (example_next.grant_database example_user_context ⟨9⟩ ⟨"bob"⟩ (datum_t.other 8)
            (signal_t.plain 0) datum_t.uninitialized example_error)).map
          (fun r => (r, example_interface_with_next.m_auth_semilattice_view))
    ∧ example_interface_with_next.grant_table example_uuid_functions example_user_context ⟨9⟩ ⟨10⟩
        ⟨"bob"⟩ (datum_t.other 8) (signal_t.plain 0) datum_t.uninitialized example_error
      = (forwarded
          (next_call.grant_table example_user_context ⟨9⟩ ⟨10⟩ ⟨"bob"⟩ (datum_t.other 8)
            (signal_t.plain 0) datum_t.uninitialized example_error)
          (example_next.grant_table example_user_context ⟨9⟩ ⟨10⟩ ⟨"bob"⟩ (datum_t.other 8)
            (signal_t.plain 0) datum_t.uninitialized example_error)).map
          (fun r => (r, example_interface_with_next.m_auth_semilattice_view))
    ∧ example_interface_with_next.set_write_hook example_user_context example_db example_logs
        (some ⟨14⟩) (signal_t.plain 0) example_error
      = forwarded
          (next_call.set_write_hook example_user_context example_db example_logs (some ⟨14⟩)
            (signal_t.plain 0) example_error)
          (example_next.set_write_hook example_user_context example_db example_logs (some ⟨14⟩)
            (signal_t.plain 0) example_error)
    ∧ example_interface_with_next.get_write_hook example_user_context example_db example_logs
        (signal_t.plain 0) datum_t.uninitialized example_error
      = forwarded
          (next_call.get_write_hook example_user_context example_db example_logs (signal_t.plain 0)
            datum_t.uninitialized example_error)
          (example_next.get_write_hook example_user_context example_db example_logs (signal_t.plain 0)
            datum_t.uninitialized example_error)
    ∧ example_interface_with_next.sindex_create example_user_context example_db example_logs "by_time"
        ⟨12⟩ (signal_t.plain 0) example_error
      = forwarded
          (next_call.sindex_create example_user_context example_db example_logs "by_time" ⟨12⟩
            (signal_t.plain 0) example_error)
          (example_next.sindex_create example_user_context example_db example_logs "by_time" ⟨12⟩
            (signal_t.plain 0) example_error)
    ∧ example_interface_with_next.sindex_drop example_user_context example_db example_logs "by_time"
        (signal_t.plain 0) example_error
      = forwarded
          (next_call.sindex_drop example_user_context example_db example_logs "by_time" (signal_t.plain 0)
            example_error)
          (example_next.sindex_drop example_user_context example_db example_logs "by_time"
            (signal_t.plain 0) example_error)
    ∧ example_interface_with_next.sindex_rename example_user_context example_db example_logs "by_time"
        "by_day" false (signal_t.plain 0) example_error
      = forwarded
          (next_call.sindex_rename example_user_context example_db example_logs "by_time" "by_day" false
            (signal_t.plain 0) example_error)
          (example_next.sindex_rename example_user_context example_db example_logs "by_time" "by_day"
            false (signal_t.plain 0) example_error)
    ∧ example_interface_with_next.sindex_list example_db example_logs (signal_t.plain 0) example_error
        example_sindex_map
      = forwarded
          (next_call.sindex_list example_db example_logs (signal_t.plain 0) example_error
            example_sindex_map)
          (example_next.sindex_list example_db example_logs (signal_t.plain 0) example_error
            example_sindex_map)) :=
  have hnext : example_interface_with_next.m_next = some example_next := rfl
  have hname : example_test ≠ database_name := by decide
  have hdb : example_db.name ≠ database_name := by decide
  have hdatabase : (⟨9⟩ : database_id_t) ≠ database_id example_uuid_functions := by decide
  ⟨hnext, hname, hdb, hdatabase,
    forwarding_is_verbatim example_uuid_functions example_interface_with_next example_next
      example_user_context example_test example_db example_logs (signal_t.plain 0)
      backtrace_id_t.empty example_env ⟨4⟩ "id" ⟨0⟩
      none ⟨1⟩ true ⟨2⟩
      ⟨"bob"⟩ (datum_t.other 8) ⟨9⟩ ⟨10⟩
      "by_time" "by_day" false ⟨12⟩
      (some ⟨14⟩) datum_t.uninitialized {example_users} none
      none (some (base_table_t.other 6)) [11]
      example_sindex_map example_error hnext hname hdb hdatabase⟩

/-! ## Features that system tables do not have -/

open artificial_reql_cluster_interface_t in
/-- C12: on a database named `rethinkdb`, for every table name (registered or not) and
every `m_next`: `get_write_hook` returns `true` with the write-hook output set to the
null datum, and `sindex_list` returns `true` with the output map empty, whatever the map
held before the call; neither makes a call on `m_next`, and neither writes the error. -/
theorem reserved_tables_have_no_write_hook_and_no_indexes {A : auth_lib}
    (self : artificial_reql_cluster_interface_t A) (user_context : user_context_t)
    (db_id : database_id_t) (table : name_string_t) (interruptor : signal_t)
    (write_hook_datum_out : datum_t) (configs_and_statuses_out : sindex_map_t)
    (error_out : admin_err_t) :
    self.get_write_hook user_context { id := db_id, name := database_name } table interruptor
        write_hook_datum_out error_out
      = .ok { value := true, result_out := datum_t.null, error_out := error_out,
              next_calls := [] }
    ∧ self.sindex_list { id := db_id, name := database_name } table interruptor error_out
        configs_and_statuses_out
      = .ok { value := true, result_out := [], error_out := error_out, next_calls := [] } := by
  constructor
  · simp only [get_write_hook, if_true]
  · simp only [sindex_list, if_true]

/-! ## Registration and deregistration -/

open artificial_reql_cluster_interface_t in
/-- C13: after the sentry that registered the table name `N` (its `key`) is
destroyed, `N` is unresolvable in both identifier formats: `get_table_backend` returns
null and `table_find` on the reserved database fails with the does-not-exist error;
every other name resolves as it did before the destruction; and registering `N` again
afterwards succeeds and makes `N` resolve to the newly supplied pair. -/
theorem registration_is_scope_bound_and_reversible {A : auth_lib} (F : uuid_functions)
    (self : artificial_reql_cluster_interface_t A) (sentry : backend_sentry_t)
    (pair : backend_ptr × backend_ptr) (db_id : database_id_t)
    (identifier_format : Option admin_identifier_format_t) (interruptor : signal_t)
    (table_out : Option base_table_t) (error_out : admin_err_t) :
    (∀ format : admin_identifier_format_t,
        (after_destruction self sentry).get_table_backend sentry.key format = none)
    ∧ (after_destruction self sentry).table_find F sentry.key
        { id := db_id, name := database_name } identifier_format interruptor table_out
        error_out
      = .ok { value := false,
              result_out := table_out,
              error_out := { msg := "Table `rethinkdb." ++ sentry.key.str
                                      ++ "` does not exist.",
                             query_state := query_state_t.FAILED },
              next_calls := [] }
    ∧ (∀ (other : name_string_t) (format : admin_identifier_format_t),
        other ≠ sentry.key →
          (after_destruction self sentry).get_table_backend other format
            = self.get_table_backend other format
          ∧ (after_destruction self sentry).table_find F other
              { id := db_id, name := database_name } identifier_format interruptor table_out
              error_out
            = self.table_find F other { id := db_id, name := database_name }
                identifier_format interruptor table_out error_out)
    ∧ (∃ (map1 : table_backends_map_t) (sentry1 : backend_sentry_t),
        backend_sentry_t.constructor (after_destruction self sentry).m_table_backends
            sentry.key pair
          = .ok (map1, sentry1)
        ∧ sentry1.key = sentry.key
        ∧ ((after_destruction self sentry).store_table_backends_map map1).get_table_backend
            sentry.key admin_identifier_format_t.name = pair.1
        ∧ ((after_destruction self sentry).store_table_backends_map map1).get_table_backend
            sentry.key admin_identifier_format_t.uuid = pair.2
        ∧ ((after_destruction self sentry).store_table_backends_map map1).table_find F
            sentry.key { id := db_id, name := database_name } none interruptor table_out
            error_out
          = .ok { value := true,
                  result_out := some (base_table_t.artificial_table_t self.m_rdb_context
                    (database_id F) pair.1),
                  error_out := error_out,
                  next_calls := [] }) := by
  have hgone : (sentry.destructor self.m_table_backends).find sentry.key = none :=
    table_backends_map_t.find_erase_self _ _
  have hmsg : "Table `" ++ database_name.c_str ++ "." ++ sentry.key.c_str
        ++ "` does not exist."
      = "Table `rethinkdb." ++ sentry.key.str ++ "` does not exist." := by
    rw [database_name_c_str, name_string_t.c_str_eq]
    have hhead : "Table `" ++ "rethinkdb" ++ "." = "Table `rethinkdb." := by decide
    rw [hhead]
  refine ⟨?_, ?_, ?_, ?_⟩
  · intro format
    simp only [get_table_backend, after_destruction, store_table_backends_map, hgone]
  · simp only [table_find, if_true, after_destruction, store_table_backends_map, hgone, hmsg]
  · intro other format hother
    have hsame : (sentry.destructor self.m_table_backends).find other
        = self.m_table_backends.find other :=
      table_backends_map_t.find_erase_of_ne _ _ _ hother
    constructor
    · simp only [get_table_backend, after_destruction, store_table_backends_map, hsame]
    · simp only [table_find, if_true, after_destruction, store_table_backends_map, hsame]
  · have hfound : table_backends_map_t.find
        { entries := insert_in_key_order (sentry.key, pair)
            (sentry.destructor self.m_table_backends).entries } sentry.key
        = some (sentry.key, pair) :=
      find_insert_in_key_order_self (sentry.key, pair) _ hgone
    refine ⟨{ entries := insert_in_key_order (sentry.key, pair)
                (sentry.destructor self.m_table_backends).entries },
            { key := sentry.key }, ?_, rfl, ?_, ?_, ?_⟩
    · simp only [backend_sentry_t.constructor, table_backends_map_t.insert, after_destruction,
        store_table_backends_map, hgone]
    · simp only [get_table_backend, store_table_backends_map, hfound]
    · simp only [get_table_backend, store_table_backends_map, hfound]
    · simp only [table_find, if_true, store_table_backends_map, after_destruction, hfound]

open artificial_reql_cluster_interface_t in
/-- The statement of C13 on `example_interface_with_users` and the sentry of its table
`users`; the other name is `logs`, and `users` is registered again with
`example_logs_by_uuid` in both slots. -/
theorem registration_is_scope_bound_and_reversible_witness :
    example_logs ≠ example_users_sentry.key
    ∧ (∀ format : admin_identifier_format_t,
        (after_destruction example_interface_with_users example_users_sentry).get_table_backend
          example_users_sentry.key format = none)
    ∧ (after_destruction example_interface_with_users example_users_sentry).table_find
        example_uuid_functions example_users_sentry.key
        { id := { value := 5 }, name := database_name } none (signal_t.plain 0) none
        example_error
      = .ok { value := false,
              result_out := none,
              error_out := { msg := "Table `rethinkdb." ++ example_users_sentry.key.str
                                      ++ "` does not exist.",
                             query_state := query_state_t.FAILED },
              next_calls := [] }
    ∧ ((after_destruction example_interface_with_users example_users_sentry).get_table_backend
          example_logs admin_identifier_format_t.uuid
        = example_interface_with_users.get_table_backend example_logs
            admin_identifier_format_t.uuid
      ∧ (after_destruction example_interface_with_users example_users_sentry).table_find
          example_uuid_functions example_logs { id := { value := 5 }, name := database_name }
          none (signal_t.plain 0) none example_error
        = example_interface_with_users.table_find example_uuid_functions example_logs
            { id := { value := 5 }, name := database_name } none (signal_t.plain 0) none
            example_error)
    ∧ (∃ (map1 : table_backends_map_t) (sentry1 : backend_sentry_t),
        backend_sentry_t.constructor
            (after_destruction example_interface_with_users
              example_users_sentry).m_table_backends
            example_users_sentry.key (some example_logs_by_uuid, some example_logs_by_uuid)
          = .ok (map1, sentry1)
        ∧ sentry1.key = example_users_sentry.key
        ∧ ((after_destruction example_interface_with_users
              example_users_sentry).store_table_backends_map map1).get_table_backend
            example_users_sentry.key admin_identifier_format_t.name
          = some example_logs_by_uuid
        ∧ ((after_destruction example_interface_with_users
              example_users_sentry).store_table_backends_map map1).get_table_backend
            example_users_sentry.key admin_identifier_format_t.uuid
          = some example_logs_by_uuid
        ∧ ((after_destruction example_interface_with_users
              example_users_sentry).store_table_backends_map map1).table_find
            example_uuid_functions example_users_sentry.key
            { id := { value := 5 }, name := database_name } none (signal_t.plain 0) none
            example_error
          = .ok { value := true,
                  result_out := some (base_table_t.artificial_table_t
                    example_interface_with_users.m_rdb_context
                    (database_id example_uuid_functions) (some example_logs_by_uuid)),
                  error_out := example_error,
                  next_calls := [] }) :=
  have hother : example_logs ≠ example_users_sentry.key := by decide
  have h := registration_is_scope_bound_and_reversible example_uuid_functions
    example_interface_with_users example_users_sentry
    (some example_logs_by_uuid, some example_logs_by_uuid) { value := 5 } none
    (signal_t.plain 0) none example_error
  ⟨hother, h.1, h.2.1, h.2.2.1 example_logs admin_identifier_format_t.uuid hother, h.2.2.2⟩

/-! ## Failures of the row stream -/

open artificial_reql_cluster_interface_t in
/-- C14, as stated, fails: on `example_interface_with_stats` the uuid-addressed backend
of `stats` fails with the message "The server is unreachable." and the state
`INDETERMINATE`; `table_estimate_doc_counts` returns `false` with the prefixed message,
but the state of the error is `INDETERMINATE`, not `FAILED`. -/
theorem estimate_doc_counts_keeps_state_of_backend_error :
    example_unreachable_backend.read_all_rows_as_stream example_user_context
        backtrace_id_t.empty { range := datum_range_t.universe } sorting_t.UNORDERED
        example_env.interruptor none example_error
      = (false, none,
          { msg := "The server is unreachable.", query_state := query_state_t.INDETERMINATE })
    ∧ example_interface_with_stats.table_estimate_doc_counts example_user_context
        { id := { value := 5 }, name := database_name } example_stats example_env [11]
        example_error
      = .ok { value := false,
              result_out := [11],
              error_out := { msg := "When estimating doc count: The server is unreachable.",
                             query_state := query_state_t.INDETERMINATE },
              next_calls := [] }
    ∧ ¬ ∃ r, example_interface_with_stats.table_estimate_doc_counts example_user_context
          { id := { value := 5 }, name := database_name } example_stats example_env [11]
          example_error
        = .ok r ∧ r.error_out.query_state = query_state_t.FAILED := by
  have hcall : example_interface_with_stats.table_estimate_doc_counts example_user_context
      { id := { value := 5 }, name := database_name } example_stats example_env [11]
      example_error
      = .ok { value := false,
              result_out := [11],
              error_out := { msg := "When estimating doc count: The server is unreachable.",
                             query_state := query_state_t.INDETERMINATE },
              next_calls := [] } := by
    rfl
  refine ⟨rfl, hcall, ?_⟩
  rintro ⟨r, hr, hstate⟩
  rw [hcall] at hr
  cases hr
  cases hstate

open artificial_reql_cluster_interface_t in
/-- C14, amended: for every table registered under the reserved database (in a map with
unique keys), if `read_all_rows_as_stream` of the uuid-addressed backend fails and
leaves the error `error_out1`, `table_estimate_doc_counts` returns `false` with the
message "When estimating doc count: " followed by the message of `error_out1` and with
the state of `error_out1`, the state that the backend reported; the result vector is
left as it was and the outcome does not depend on the stream, so the count aggregate is
not run. -/
theorem estimate_doc_counts_prefixes_backend_error {A : auth_lib}
    (self : artificial_reql_cluster_interface_t A) (user_context : user_context_t)
    (db_id : database_id_t) (name : name_string_t) (env : env_t) (doc_counts_out : List Int)
    (error_out error_out1 : admin_err_t) (by_name : backend_ptr)
    (backend : artificial_table_backend_t) (docs : Option datum_stream_t)
    (hunique : self.m_table_backends.names.Nodup)
    (hregistered : (name, (by_name, some backend)) ∈ self.m_table_backends.entries)
    (hread : backend.read_all_rows_as_stream user_context backtrace_id_t.empty
        { range := datum_range_t.universe } sorting_t.UNORDERED env.interruptor none error_out
      = (false, docs, error_out1)) :
    self.table_estimate_doc_counts user_context { id := db_id, name := database_name } name env
        doc_counts_out error_out
      = .ok { value := false,
              result_out := doc_counts_out,
              error_out := { msg := "When estimating doc count: " ++ error_out1.msg,
                             query_state := error_out1.query_state },
              next_calls := [] } := by
  have hfind : self.m_table_backends.find name = some (name, (by_name, some backend)) :=
    table_backends_map_t.find_of_mem _ _ _ hunique hregistered
  simp only [table_estimate_doc_counts, if_true, hfind, hread]

open artificial_reql_cluster_interface_t in
/-- The amended statement of C14 on `example_interface_with_stats` and its table
`stats`. -/
theorem estimate_doc_counts_prefixes_backend_error_witness :
    example_interface_with_stats.m_table_backends.names.Nodup
    ∧ (example_stats, (some example_unreachable_backend, some example_unreachable_backend))
        ∈ example_interface_with_stats.m_table_backends.entries
    ∧ example_unreachable_backend.read_all_rows_as_stream example_user_context
        backtrace_id_t.empty { range := datum_range_t.universe } sorting_t.UNORDERED
        example_env.interruptor none example_error
      = (false, none,
          { msg := "The server is unreachable.", query_state := query_state_t.INDETERMINATE })
    ∧ example_interface_with_stats.table_estimate_doc_counts example_user_context
        { id := { value := 5 }, name := database_name } example_stats example_env [11]
        example_error
      = .ok { value := false,
              result_out := [11],
              error_out := { msg := "When estimating doc count: "
                                      ++ "The server is unreachable.",
                             query_state := query_state_t.INDETERMINATE },
              next_calls := [] } :=
  have hunique : example_interface_with_stats.m_table_backends.names.Nodup := by decide
  have hregistered :
      (example_stats, (some example_unreachable_backend, some example_unreachable_backend))
        ∈ example_interface_with_stats.m_table_backends.entries := List.mem_cons_self _ _
  have hread : example_unreachable_backend.read_all_rows_as_stream example_user_context
      backtrace_id_t.empty { range := datum_range_t.universe } sorting_t.UNORDERED
      example_env.interruptor none example_error
      = (false, none,
          { msg := "The server is unreachable.", query_state := query_state_t.INDETERMINATE }) :=
    rfl
  ⟨hunique, hregistered, hread,
    estimate_doc_counts_prefixes_backend_error example_interface_with_stats
      example_user_context { value := 5 } example_stats example_env [11] example_error
      { msg := "The server is unreachable.", query_state := query_state_t.INDETERMINATE }
      (some example_unreachable_backend) example_unreachable_backend none hunique hregistered
      hread⟩

/-! ## Listing databases -/

open artificial_reql_cluster_interface_t in
/-- C15: on `example_interface`, whose `m_next` is null, `db_list` returns `false` and
leaves the set of names as it was, but it does not set the error: `*error_out` still
holds what it held before the call, so the outcome is not the one of the guarded
methods. -/
theorem db_list_without_next_leaves_error_unset :
    example_interface.db_list (signal_t.plain 0) {example_users} example_error
      = .ok { value := false, result_out := {example_users}, error_out := example_error,
              next_calls := [] }
    ∧ example_interface.db_list (signal_t.plain 0) {example_users} example_error
      ≠ failed_to_find_an_interface {example_users} := by
  have hcall : example_interface.db_list (signal_t.plain 0) {example_users} example_error
      = .ok { value := false, result_out := {example_users}, error_out := example_error,
              next_calls := [] } := rfl
  refine ⟨hcall, ?_⟩
  rw [hcall]
  intro h
  have hmsg : example_error.msg = "Failed to find an interface." := by
    simp only [failed_to_find_an_interface, Except.ok.injEq, ret.mk.injEq] at h
    rw [h.2.2.1]
  revert hmsg
  decide

/-! ## Rejections that name the reserved database -/

open artificial_reql_cluster_interface_t in
/-- C16: for every table name and every `m_next`, `table_status`,
`table_emergency_repair`, `sindex_create`, `set_write_hook`, `sindex_drop` and
`sindex_rename` called on a database named `rethinkdb` return `false` with state
`FAILED` and a non-empty error message that contains the name of the reserved database,
and make no call on `m_next`. -/
theorem unsupported_table_operations_name_reserved_database {A : auth_lib}
    (self : artificial_reql_cluster_interface_t A) (user_context : user_context_t)
    (db_id : database_id_t) (table : name_string_t) (interruptor : signal_t)
    (bt : backtrace_id_t) (env : env_t) (mode : emergency_repair_mode_t) (dry_run : Bool)
    (index new_name : String) (overwrite : Bool) (config : sindex_config_t)
    (hook_config : Option write_hook_config_t) (result_out : datum_t)
    (selection_out : Option val_t) (error_out : admin_err_t) :
    rejected_naming_reserved_database
      (self.table_status { id := db_id, name := database_name } table bt env selection_out
        error_out)
    ∧ rejected_naming_reserved_database
      (self.table_emergency_repair user_context { id := db_id, name := database_name } table
        mode dry_run interruptor result_out error_out)
    ∧ rejected_naming_reserved_database
      (self.sindex_create user_context { id := db_id, name := database_name } table index
        config interruptor error_out)
    ∧ rejected_naming_reserved_database
      (self.set_write_hook user_context { id := db_id, name := database_name } table
        hook_config interruptor error_out)
    ∧ rejected_naming_reserved_database
      (self.sindex_drop user_context { id := db_id, name := database_name } table index
        interruptor error_out)
    ∧ rejected_naming_reserved_database
      (self.sindex_rename user_context { id := db_id, name := database_name } table index
        new_name overwrite interruptor error_out) := by
  have hindex : database_name.str.data <:+:
      ("Index `" ++ std_string_c_str index ++ "` does not exist on table `"
        ++ database_name.c_str ++ "." ++ table.c_str ++ "`.").data := by
    rw [database_name_c_str]
    refine ⟨("Index `" ++ std_string_c_str index ++ "` does not exist on table `").data,
      ("." ++ table.c_str ++ "`.").data, ?_⟩
    simp only [String.data_append, List.append_assoc]
    rfl
  refine ⟨?_, ?_, ?_, ?_, ?_, ?_⟩
  · refine ⟨_, by simp only [table_status, if_true]; rfl, rfl, ?_, ?_, rfl, rfl⟩
    · exact ne_empty_of_database_name_infix _
        (by rw [database_name_c_str]; exact database_name_infix_of_append _ _)
    · rw [database_name_c_str]; exact database_name_infix_of_append _ _
  · refine ⟨_, by simp only [table_emergency_repair, if_true]; rfl, rfl, ?_, ?_, rfl, rfl⟩
    · exact ne_empty_of_database_name_infix _
        (by rw [database_name_c_str]; exact database_name_infix_of_append _ _)
    · rw [database_name_c_str]; exact database_name_infix_of_append _ _
  · refine ⟨_, by simp only [sindex_create, if_true]; rfl, rfl, ?_, ?_, rfl, rfl⟩
    · exact ne_empty_of_database_name_infix _
        (by rw [database_name_c_str]; exact database_name_infix_of_append _ _)
    · rw [database_name_c_str]; exact database_name_infix_of_append _ _
  · refine ⟨_, by simp only [set_write_hook, if_true]; rfl, rfl, ?_, ?_, rfl, rfl⟩
    · exact ne_empty_of_database_name_infix _
        (by rw [database_name_c_str]; exact database_name_infix_of_append _ _)
    · rw [database_name_c_str]; exact database_name_infix_of_append _ _
  · refine ⟨_, by simp only [sindex_drop, if_true]; rfl, rfl, ?_, ?_, rfl, rfl⟩
    · exact ne_empty_of_database_name_infix _ hindex
    · exact hindex
  · refine ⟨_, by simp only [sindex_rename, if_true]; rfl, rfl, ?_, ?_, rfl, rfl⟩
    · exact ne_empty_of_database_name_infix _ hindex
    · exact hindex

/-! ## One message for each operation on the reserved database itself -/

open artificial_reql_cluster_interface_t in
/-- C17: `db_create`, `db_drop`, `db_config`, `db_wait`, `db_rebalance` and
`db_reconfigure` that target `rethinkdb` are rejected, each with an error of state
`FAILED`, and the six error messages are pairwise different. -/
theorem reserved_database_operations_have_distinct_messages {A : auth_lib}
    (self : artificial_reql_cluster_interface_t A) (user_context : user_context_t)
    (db_id : database_id_t) (interruptor : signal_t) (bt : backtrace_id_t) (env : env_t)
    (params : table_generate_config_params_t) (readiness : table_readiness_t)
    (dry_run : Bool) (result_out : datum_t) (selection_out : Option val_t)
    (error_out : admin_err_t) :
    ∃ create drop config wait rebalance reconfigure : admin_err_t,
      self.db_create user_context database_name interruptor result_out error_out
        = .ok { value := false, result_out := result_out, error_out := create,
                next_calls := [] }
      ∧ self.db_drop user_context database_name interruptor result_out error_out
        = .ok { value := false, result_out := result_out, error_out := drop,
                next_calls := [] }
      ∧ self.db_config user_context { id := db_id, name := database_name } bt env
          selection_out error_out
        = .ok { value := false, result_out := selection_out, error_out := config,
                next_calls := [] }
      ∧ self.db_wait { id := db_id, name := database_name } readiness interruptor result_out
          error_out
        = .ok { value := false, result_out := result_out, error_out := wait,
                next_calls := [] }
      ∧ self.db_rebalance user_context { id := db_id, name := database_name } interruptor
          result_out error_out
        = .ok { value := false, result_out := result_out, error_out := rebalance,
                next_calls := [] }
      ∧ self.db_reconfigure user_context { id := db_id, name := database_name } params
          dry_run interruptor result_out error_out
        = .ok { value := false, result_out := result_out, error_out := reconfigure,
                next_calls := [] }
      ∧ [create.msg, drop.msg, config.msg, wait.msg, rebalance.msg,
          reconfigure.msg].Pairwise (fun a b => a ≠ b)
      ∧ ∀ e ∈ [create, drop, config, wait, rebalance, reconfigure],
          e.query_state = query_state_t.FAILED := by
  refine ⟨_, _, _, _, _, _,
    by simp only [db_create, if_true]; rfl,
    by simp only [db_drop, if_true]; rfl,
    by simp only [db_config, if_true]; rfl,
    by simp only [db_wait, if_true]; rfl,
    by simp only [db_rebalance, if_true]; rfl,
    by simp only [db_reconfigure, if_true]; rfl, ?_, ?_⟩
  · simp only [database_name_c_str]
    decide
  · intro e he
    simp only [List.mem_cons, List.mem_singleton, List.not_mem_nil, or_false] at he
    rcases he with h | h | h | h | h | h <;> rw [h]

/-! ## The list of databases and the reserved database handle -/

open artificial_reql_cluster_interface_t in
/-- C18: `db_list` with `m_next` set makes the one call `db_list` on it. If that call
fails, `db_list` returns `false` with the error (and the set) that the call left; if it
succeeds with a set `S` that does not contain `rethinkdb`, `db_list` returns `true` with
`S` plus `rethinkdb`, one element more than `S`; if it succeeds with a set that
contains `rethinkdb`, the `guarantee` fails and the method does not return. -/
theorem db_list_adds_reserved_database {A : auth_lib}
    (self : artificial_reql_cluster_interface_t A) (next : reql_cluster_interface_t)
    (interruptor : signal_t) (names_out : Finset name_string_t) (error_out : admin_err_t)
    (S : Finset name_string_t) (error_out1 : admin_err_t)
    (hnext : self.m_next = some next) :
    (next.db_list interruptor names_out error_out = (false, S, error_out1) →
      self.db_list interruptor names_out error_out
        = .ok { value := false, result_out := S, error_out := error_out1,
                next_calls := [next_call.db_list interruptor names_out error_out] })
    ∧ (next.db_list interruptor names_out error_out = (true, S, error_out1) →
        database_name ∉ S →
          self.db_list interruptor names_out error_out
            = .ok { value := true, result_out := insert database_name S,
                    error_out := error_out1,
                    next_calls := [next_call.db_list interruptor names_out error_out] }
          ∧ (insert database_name S).card = S.card + 1)
    ∧ (next.db_list interruptor names_out error_out = (true, S, error_out1) →
        database_name ∈ S →
          self.db_list interruptor names_out error_out = .error fault_t.guarantee_failed) := by
  refine ⟨?_, ?_, ?_⟩
  · intro hreply
    simp only [db_list, hnext, hreply, if_true]
  · intro hreply hfresh
    refine ⟨?_, Finset.card_insert_of_not_mem hfresh⟩
    simp [db_list, hnext, hreply, hfresh]
  · intro hreply hpresent
    simp [db_list, hnext, hreply, hpresent]

open artificial_reql_cluster_interface_t in
/-- The statement of C18 evaluated in its three cases: `example_failing_next` fails;
`example_next` succeeds with the set it was given, once the set with `users` and once
the set with `rethinkdb`. -/
theorem db_list_adds_reserved_database_witness :
    example_interface_with_failing_next.m_next = some example_failing_next
    ∧ example_interface_with_next.m_next = some example_next
    ∧ example_failing_next.db_list (signal_t.plain 0) {example_users} example_error
      = (false, {example_users},
          { msg := "The cluster is unreachable.", query_state := query_state_t.INDETERMINATE })
    ∧ example_next.db_list (signal_t.plain 0) {example_users} example_error
      = (true, {example_users}, example_error)
    ∧ database_name ∉ ({example_users} : Finset name_string_t)
    ∧ example_next.db_list (signal_t.plain 0) {database_name} example_error
      = (true, {database_name}, example_error)
    ∧ database_name ∈ ({database_name} : Finset name_string_t)
    ∧ example_interface_with_failing_next.db_list (signal_t.plain 0) {example_users}
        example_error
      = .ok { value := false, result_out := {example_users},
              error_out := { msg := "The cluster is unreachable.",
                             query_state := query_state_t.INDETERMINATE },
              next_calls := [next_call.db_list (signal_t.plain 0) {example_users}
                example_error] }
    ∧ (example_interface_with_next.db_list (signal_t.plain 0) {example_users} example_error
        = .ok { value := true, result_out := insert database_name {example_users},
                error_out := example_error,
                next_calls := [next_call.db_list (signal_t.plain 0) {example_users}
                  example_error] }
      ∧ (insert database_name ({example_users} : Finset name_string_t)).card
        = ({example_users} : Finset name_string_t).card + 1)
    ∧ example_interface_with_next.db_list (signal_t.plain 0) {database_name} example_error
      = .error fault_t.guarantee_failed :=
  have hfailing : example_interface_with_failing_next.m_next = some example_failing_next := rfl
  have hnext : example_interface_with_next.m_next = some example_next := rfl
  have hfails : example_failing_next.db_list (signal_t.plain 0) {example_users} example_error
      = (false, {example_users},
          { msg := "The cluster is unreachable.",
            query_state := query_state_t.INDETERMINATE }) := rfl
  have hsucceeds : example_next.db_list (signal_t.plain 0) {example_users} example_error
      = (true, {example_users}, example_error) := rfl
  have hfresh : database_name ∉ ({example_users} : Finset name_string_t) := by decide
  have hrepeats : example_next.db_list (signal_t.plain 0) {database_name} example_error
      = (true, {database_name}, example_error) := rfl
  have hpresent : database_name ∈ ({database_name} : Finset name_string_t) := by decide
  ⟨hfailing, hnext, hfails, hsucceeds, hfresh, hrepeats, hpresent,
    (db_list_adds_reserved_database example_interface_with_failing_next example_failing_next
      (signal_t.plain 0) {example_users} example_error {example_users}
      { msg := "The cluster is unreachable.", query_state := query_state_t.INDETERMINATE }
      hfailing).1 hfails,
    (db_list_adds_reserved_database example_interface_with_next example_next
      (signal_t.plain 0) {example_users} example_error {example_users} example_error
      hnext).2.1 hsucceeds hfresh,
    (db_list_adds_reserved_database example_interface_with_next example_next
      (signal_t.plain 0) {database_name} example_error {database_name} example_error
      hnext).2.2 hrepeats hpresent⟩

open artificial_reql_cluster_interface_t in
/-- C19: `db_find` for the name `rethinkdb` returns `true` with a database handle that
holds exactly the reserved id and the reserved name, for every `m_next` (null included)
and without a call on it; a second call, with any other dispatcher state and arguments,
returns the same handle, so the same id. For every other name `db_find` is the one call
`db_find` on `m_next` and returns its reply, or fails with "Failed to find an
interface." when `m_next` is null. -/
theorem db_find_of_reserved_database {A : auth_lib} (F : uuid_functions)
    (self self2 : artificial_reql_cluster_interface_t A) (interruptor interruptor2 : signal_t)
    (db_out db_out2 : Option db_t) (error_out error_out2 : admin_err_t) :
    self.db_find F database_name interruptor db_out error_out
      = .ok { value := true,
              result_out := some { id := database_id F, name := database_name },
              error_out := error_out,
              next_calls := [] }
    ∧ self2.db_find F database_name interruptor2 db_out2 error_out2
      = .ok { value := true,
              result_out := some { id := database_id F, name := database_name },
              error_out := error_out2,
              next_calls := [] }
    ∧ (∀ (name : name_string_t) (next : reql_cluster_interface_t),
        name ≠ database_name → self.m_next = some next →
          self.db_find F name interruptor db_out error_out
            = forwarded (next_call.db_find name interruptor db_out error_out)
                (next.db_find name interruptor db_out error_out))
    ∧ (∀ name : name_string_t,
        name ≠ database_name → self.m_next = none →
          self.db_find F name interruptor db_out error_out
            = failed_to_find_an_interface db_out) := by
  refine ⟨?_, ?_, ?_, ?_⟩
  · simp only [db_find, if_true]
  · simp only [db_find, if_true]
  · intro name next hname hnext
    simp only [db_find, if_neg hname, next_or_error_and_of_some _ _ _ _ _ next hnext]
  · intro name hname hnext
    simp only [db_find, if_neg hname, next_or_error_and_of_null _ _ _ _ _ hnext]

open artificial_reql_cluster_interface_t in
/-- The statement of C19 on `example_interface_with_next` (first call) and
`example_interface` (second call, no next interface); the other name is `test`. -/
theorem db_find_of_reserved_database_witness :
    example_test ≠ database_name
    ∧ example_interface_with_next.m_next = some example_next
    ∧ example_interface.m_next = none
    ∧ example_interface_with_next.db_find example_uuid_functions database_name
        (signal_t.plain 0) none example_error
      = .ok { value := true,
              result_out := some { id := { value := 46 }, name := database_name },
              error_out := example_error,
              next_calls := [] }
    ∧ example_interface.db_find example_uuid_functions database_name (signal_t.plain 1)
        (some example_db) example_error
      = .ok { value := true,
              result_out := some { id := { value := 46 }, name := database_name },
              error_out := example_error,
              next_calls := [] }
    ∧ example_interface_with_next.db_find example_uuid_functions example_test
        (signal_t.plain 0) none example_error
      = forwarded (next_call.db_find example_test (signal_t.plain 0) none example_error)
          (true, some { id := { value := 9 }, name := example_test }, example_error)
    ∧ example_interface.db_find example_uuid_functions example_test (signal_t.plain 0) none
        example_error
      = failed_to_find_an_interface none :=
  have hname : example_test ≠ database_name := by decide
  have hnext : example_interface_with_next.m_next = some example_next := rfl
  have hnull : example_interface.m_next = none := rfl
  have h := db_find_of_reserved_database example_uuid_functions example_interface_with_next
    example_interface (signal_t.plain 0) (signal_t.plain 1) none (some example_db)
    example_error example_error
  have h2 := db_find_of_reserved_database example_uuid_functions example_interface
    example_interface (signal_t.plain 0) (signal_t.plain 1) none (some example_db)
    example_error example_error
  ⟨hname, hnext, hnull, h.1, h.2.1, h.2.2.1 example_test example_next hname hnext,
    h2.2.2.2 example_test hname hnull⟩

/-! ## The standard backends -/

set_option maxHeartbeats 1000000 in
open artificial_reql_cluster_interface_t in
/-- C20: the constructor of `artificial_reql_cluster_backends_t`, started on a
dispatcher with an empty map, returns (no insertion meets a name that is already
there) and leaves exactly 15 pairwise distinct table names registered: `permissions`,
`users`, `cluster_config`, `db_config`, `current_issues`, `logs`, `server_config`,
`server_status`, `stats`, `table_config`, `table_status`, `jobs`, `_debug_scratch`,
`_debug_stats`, `_debug_table_status`, each with both slots non-null. `table_list` on
the reserved database then returns exactly the 12 names without a leading `_`, and
`users`, `cluster_config`, `db_config`, `server_config` and the three `_debug_` tables
have one instance in both slots. -/
theorem standard_backends_register_fifteen_tables {A : auth_lib}
    (self : artificial_reql_cluster_interface_t A) (created : new_backends_t)
    (db_id : database_id_t) (interruptor : signal_t) (error_out : admin_err_t)
    (hempty : self.m_table_backends.entries = []) :
    ∃ self1 members,
      artificial_reql_cluster_backends_t.constructor self created = .ok (self1, members)
      ∧ self1.m_table_backends.names.Nodup
      ∧ self1.m_table_backends.names.length = 15
      ∧ (∀ n : name_string_t, n ∈ self1.m_table_backends.names ↔
          n.str ∈ ["permissions", "users", "cluster_config", "db_config", "current_issues",
            "logs", "server_config", "server_status", "stats", "table_config", "table_status",
            "jobs", "_debug_scratch", "_debug_stats", "_debug_table_status"])
      ∧ (∀ it ∈ self1.m_table_backends.entries, it.2.1 ≠ none ∧ it.2.2 ≠ none)
      ∧ (∃ r, self1.table_list { id := db_id, name := database_name } interruptor ∅ error_out
            = .ok r
          ∧ r.value = true
          ∧ r.result_out.card = 12
          ∧ ∀ n : name_string_t, n ∈ r.result_out ↔
              n.str ∈ ["permissions", "users", "cluster_config", "db_config",
                "current_issues", "logs", "server_config", "server_status", "stats",
                "table_config", "table_status", "jobs"])
      ∧ (∀ n : name_string_t,
          n.str ∈ ["users", "cluster_config", "db_config", "server_config", "_debug_scratch",
            "_debug_stats", "_debug_table_status"] →
          self1.get_table_backend n admin_identifier_format_t.name
            = self1.get_table_backend n admin_identifier_format_t.uuid
          ∧ self1.get_table_backend n admin_identifier_format_t.name ≠ none) := by
  obtain ⟨members, hconstructor⟩ :=
    artificial_reql_cluster_backends_t.constructor_of_empty self created hempty
  have hnames : (self.store_table_backends_map (standard_table_backends created)).m_table_backends.names
      = [⟨"_debug_scratch", by decide⟩, ⟨"_debug_stats", by decide⟩,
         ⟨"_debug_table_status", by decide⟩, ⟨"cluster_config", by decide⟩,
         ⟨"current_issues", by decide⟩, ⟨"db_config", by decide⟩, ⟨"jobs", by decide⟩,
         ⟨"logs", by decide⟩, ⟨"permissions", by decide⟩, ⟨"server_config", by decide⟩,
         ⟨"server_status", by decide⟩, ⟨"stats", by decide⟩, ⟨"table_config", by decide⟩,
         ⟨"table_status", by decide⟩, ⟨"users", by decide⟩] := rfl
  refine ⟨_, members, hconstructor, ?_, ?_, ?_, ?_, ?_, ?_⟩
  · rw [hnames]
    decide
  · rw [hnames]
    rfl
  · intro n
    rw [hnames]
    obtain ⟨s, hs⟩ := n
    simp only [List.mem_cons, name_string_t.mk.injEq, List.mem_singleton, List.not_mem_nil,
      or_false]
    tauto
  · intro it hit
    simp only [store_table_backends_map, standard_table_backends, List.mem_cons,
      List.mem_singleton, List.not_mem_nil, or_false] at hit
    rcases hit with h | h | h | h | h | h | h | h | h | h | h | h | h | h | h <;>
      subst h <;> simp
  · have hfilter : (self.store_table_backends_map
          (standard_table_backends created)).m_table_backends.names.filter
          (fun n => decide (std_string_at0 n.str ≠ '_'))
        = [⟨"cluster_config", by decide⟩, ⟨"current_issues", by decide⟩,
           ⟨"db_config", by decide⟩, ⟨"jobs", by decide⟩, ⟨"logs", by decide⟩,
           ⟨"permissions", by decide⟩, ⟨"server_config", by decide⟩,
           ⟨"server_status", by decide⟩, ⟨"stats", by decide⟩, ⟨"table_config", by decide⟩,
           ⟨"table_status", by decide⟩, ⟨"users", by decide⟩] := by
      rw [hnames]
      decide
    refine ⟨_, table_list_of_reserved _ db_id interruptor error_out, rfl, ?_, ?_⟩
    · simp only [hfilter]
      decide
    · intro n
      simp only [hfilter]
      obtain ⟨s, hs⟩ := n
      simp only [List.mem_toFinset, List.mem_cons, name_string_t.mk.injEq,
        List.mem_singleton, List.not_mem_nil, or_false]
      tauto
  · intro n hn
    simp only [List.mem_cons, List.mem_singleton, List.not_mem_nil, or_false] at hn
    rcases hn with h | h | h | h | h | h | h
    · have hn : n = ⟨"users", by decide⟩ := name_string_t.eq_of_str_eq _ _ h
      subst hn
      exact ⟨rfl, by simp +decide [get_table_backend, table_backends_map_t.find,
        store_table_backends_map, standard_table_backends]⟩
    · have hn : n = ⟨"cluster_config", by decide⟩ := name_string_t.eq_of_str_eq _ _ h
      subst hn
      exact ⟨rfl, by simp +decide [get_table_backend, table_backends_map_t.find,
        store_table_backends_map, standard_table_backends]⟩
    · have hn : n = ⟨"db_config", by decide⟩ := name_string_t.eq_of_str_eq _ _ h
      subst hn
      exact ⟨rfl, by simp +decide [get_table_backend, table_backends_map_t.find,
        store_table_backends_map, standard_table_backends]⟩
    · have hn : n = ⟨"server_config", by decide⟩ := name_string_t.eq_of_str_eq _ _ h
      subst hn
      exact ⟨rfl, by simp +decide [get_table_backend, table_backends_map_t.find,
        store_table_backends_map, standard_table_backends]⟩
    · have hn : n = ⟨"_debug_scratch", by decide⟩ := name_string_t.eq_of_str_eq _ _ h
      subst hn
      exact ⟨rfl, by simp +decide [get_table_backend, table_backends_map_t.find,
        store_table_backends_map, standard_table_backends]⟩
    · have hn : n = ⟨"_debug_stats", by decide⟩ := name_string_t.eq_of_str_eq _ _ h
      subst hn
      exact ⟨rfl, by simp +decide [get_table_backend, table_backends_map_t.find,
        store_table_backends_map, standard_table_backends]⟩
    · have hn : n = ⟨"_debug_table_status", by decide⟩ := name_string_t.eq_of_str_eq _ _ h
      subst hn
      exact ⟨rfl, by simp +decide [get_table_backend, table_backends_map_t.find,
        store_table_backends_map, standard_table_backends]⟩

open artificial_reql_cluster_interface_t in
/-- The statement of C20 on `example_new_interface`, a dispatcher as its constructor
leaves it, and the created objects `example_new_backends`. -/
theorem standard_backends_register_fifteen_tables_witness :
    example_new_interface.m_table_backends.entries = []
    ∧ ∃ self1 members,
      artificial_reql_cluster_backends_t.constructor example_new_interface
          example_new_backends
        = .ok (self1, members)
      ∧ self1.m_table_backends.names.Nodup
      ∧ self1.m_table_backends.names.length = 15
      ∧ (∀ n : name_string_t, n ∈ self1.m_table_backends.names ↔
          n.str ∈ ["permissions", "users", "cluster_config", "db_config", "current_issues",
            "logs", "server_config", "server_status", "stats", "table_config", "table_status",
            "jobs", "_debug_scratch", "_debug_stats", "_debug_table_status"])
      ∧ (∀ it ∈ self1.m_table_backends.entries, it.2.1 ≠ none ∧ it.2.2 ≠ none)
      ∧ (∃ r, self1.table_list { id := { value := 5 }, name := database_name }
              (signal_t.plain 0) ∅ example_error
            = .ok r
          ∧ r.value = true
          ∧ r.result_out.card = 12
          ∧ ∀ n : name_string_t, n ∈ r.result_out ↔
              n.str ∈ ["permissions", "users", "cluster_config", "db_config",
                "current_issues", "logs", "server_config", "server_status", "stats",
                "table_config", "table_status", "jobs"])
      ∧ (∀ n : name_string_t,
          n.str ∈ ["users", "cluster_config", "db_config", "server_config", "_debug_scratch",
            "_debug_stats", "_debug_table_status"] →
          self1.get_table_backend n admin_identifier_format_t.name
            = self1.get_table_backend n admin_identifier_format_t.uuid
          ∧ self1.get_table_backend n admin_identifier_format_t.name ≠ none) :=
  have hempty : example_new_interface.m_table_backends.entries = [] := rfl
  ⟨hempty,
    standard_backends_register_fifteen_tables example_new_interface example_new_backends
      { value := 5 } (signal_t.plain 0) example_error hempty⟩
/-! ## Construction and evaluation of `make_obj` -/

/-- C21, as stated, fails on three terms without positional arguments.
`example_nested_term` has no two optargs with one key, yet its construction does not
succeed: its sub-term `example_args_term` does not compile, and the constructor is left
by the exception of that sub-term. In `example_bad_then_duplicate_term` and in
`example_duplicate_bad_term` two optargs share the key `a`, yet construction does not
fail with "Duplicate object key: " followed by a key: a sub-term that is compiled before
the repetition is found does not compile, and the constructor is left by the exception
of that sub-term. -/
theorem make_obj_construction_fails_with_sub_term :
    example_compile_term { id := 0 } example_args_term
      = .error (exception_t.base_exc_t "MAKE_OBJ term must not have any args.")
    ∧ (example_nested_term.args_size = 0
      ∧ (example_nested_term.optargs.map (fun p => p.1)).Nodup
      ∧ ql.make_obj_term_t.constructor example_compile_term { id := 0 } example_nested_term
        = .error (exception_t.base_exc_t "MAKE_OBJ term must not have any args.")
      ∧ ¬ ∃ self, ql.make_obj_term_t.constructor example_compile_term { id := 0 }
          example_nested_term = .ok self)
    ∧ (example_bad_then_duplicate_term.args_size = 0
      ∧ ¬ (example_bad_then_duplicate_term.optargs.map (fun p => p.1)).Nodup
      ∧ ql.make_obj_term_t.constructor example_compile_term { id := 0 }
          example_bad_then_duplicate_term
        = .error (exception_t.base_exc_t "MAKE_OBJ term must not have any args.")
      ∧ ∀ key : String, ql.make_obj_term_t.constructor example_compile_term { id := 0 }
          example_bad_then_duplicate_term
        ≠ .error (exception_t.base_exc_t ("Duplicate object key: " ++ std_string_c_str key)))
    ∧ (example_duplicate_bad_term.args_size = 0
      ∧ ¬ (example_duplicate_bad_term.optargs.map (fun p => p.1)).Nodup
      ∧ ql.make_obj_term_t.constructor example_compile_term { id := 0 }
          example_duplicate_bad_term
        = .error (exception_t.base_exc_t "MAKE_OBJ term must not have any args.")
      ∧ ∀ key : String, ql.make_obj_term_t.constructor example_compile_term { id := 0 }
          example_duplicate_bad_term
        ≠ .error (exception_t.base_exc_t
            ("Duplicate object key: " ++ std_string_c_str key))) := by
  have hnested :
      ql.make_obj_term_t.constructor example_compile_term { id := 0 } example_nested_term
        = .error (exception_t.base_exc_t "MAKE_OBJ term must not have any args.") := rfl
  have hfirst :
      ql.make_obj_term_t.constructor example_compile_term { id := 0 }
          example_bad_then_duplicate_term
        = .error (exception_t.base_exc_t "MAKE_OBJ term must not have any args.") := rfl
  have hsecond :
      ql.make_obj_term_t.constructor example_compile_term { id := 0 }
          example_duplicate_bad_term
        = .error (exception_t.base_exc_t "MAKE_OBJ term must not have any args.") := rfl
  have hother : ∀ key : String,
      (.error (exception_t.base_exc_t "MAKE_OBJ term must not have any args.") :
          Except exception_t ql.make_obj_term_t)
        ≠ .error (exception_t.base_exc_t
            ("Duplicate object key: " ++ std_string_c_str key)) := by
    intro key h
    have h1 := congrArg (fun s => s.data.head?)
      (exception_t.base_exc_t.inj (Except.error.inj h))
    simp at h1
  refine ⟨rfl, ⟨rfl, by decide, hnested, ?_⟩, ⟨rfl, by decide, hfirst, ?_⟩,
    ⟨rfl, by decide, hsecond, ?_⟩⟩
  · rintro ⟨self, hself⟩
    rw [hnested] at hself
    cases hself
  · intro key
    rw [hfirst]
    exact hother key
  · intro key
    rw [hsecond]
    exact hother key

open ql in
/-- C21, amended. Construction of a `make_obj` term fails with "MAKE_OBJ term must not
have any args." if the term has a positional argument. Without one, the optargs are
taken in their order, the sub-term of each is compiled and then its key is inserted.
If two optargs share a key, construction fails, and there is a first optarg whose key
has come before. Whenever the keys before an optarg are pairwise distinct and the
sub-terms before it compile: if its key has come before and its own sub-term compiles,
construction fails with "Duplicate object key: " followed by that key (printed with
`%s`), whatever comes after; if its own sub-term does not compile, construction fails
with the exception of that sub-term. If the keys are pairwise distinct and every
sub-term compiles, construction succeeds, holding one compiled sub-term per key. For
every successfully constructed term the keys are pairwise distinct, the
`rcheck(!dup, ...)` of `term_eval` never raises, and `term_eval` returns the value of an
object with exactly those keys, provided every sub-term evaluates. -/
theorem make_obj_construction_and_evaluation (B : datum_ptr_lib)
    (compile_term : compile_env_t → Term → Except exception_t term_t) (env : compile_env_t)
    (term : Term) (scope : scope_env_t) (flags : eval_flags_t) :
    (term.args_size ≠ 0 →
      make_obj_term_t.constructor compile_term env term
        = .error (exception_t.base_exc_t "MAKE_OBJ term must not have any args."))
    ∧ (term.args_size = 0 → ¬ (term.optargs.map (fun p => p.1)).Nodup →
        (∃ e, make_obj_term_t.constructor compile_term env term = .error e)
        ∧ ∃ (before : List (String × Term)) (key : String) (child : Term)
            (after : List (String × Term)),
            term.optargs = before ++ (key, child) :: after
              ∧ (before.map (fun p => p.1)).Nodup ∧ key ∈ before.map (fun p => p.1))
    ∧ (∀ (before : List (String × Term)) (key : String) (child : Term)
        (after : List (String × Term)),
        term.args_size = 0 → term.optargs = before ++ (key, child) :: after →
        (before.map (fun p => p.1)).Nodup →
        (∀ p ∈ before, ∃ t, compile_term env p.2 = .ok t) →
        key ∈ before.map (fun p => p.1) → (∃ t, compile_term env child = .ok t) →
          make_obj_term_t.constructor compile_term env term
            = .error (exception_t.base_exc_t
                ("Duplicate object key: " ++ std_string_c_str key)))
    ∧ (∀ (before : List (String × Term)) (key : String) (child : Term)
        (after : List (String × Term)) (e : exception_t),
        term.args_size = 0 → term.optargs = before ++ (key, child) :: after →
        (before.map (fun p => p.1)).Nodup →
        (∀ p ∈ before, ∃ t, compile_term env p.2 = .ok t) →
        compile_term env child = .error e →
          make_obj_term_t.constructor compile_term env term = .error e)
    ∧ (term.args_size = 0 → (term.optargs.map (fun p => p.1)).Nodup →
        (∀ p ∈ term.optargs, ∃ t, compile_term env p.2 = .ok t) →
          ∃ self, make_obj_term_t.constructor compile_term env term = .ok self
            ∧ (self.optargs.map (fun it => it.1)).Perm (term.optargs.map (fun p => p.1))
            ∧ ∀ (key : String) (child : Term), (key, child) ∈ term.optargs →
                ∃ t, compile_term env child = .ok t ∧ (key, t) ∈ self.optargs)
    ∧ (∀ self, make_obj_term_t.constructor compile_term env term = .ok self →
        (self.optargs.map (fun it => it.1)).Nodup
        ∧ (∀ e, self.term_eval B scope flags ≠ term_eval_t.raised_by_duplicate_check e)
        ∧ ((∀ it ∈ self.optargs,
              ∃ v, it.2.eval scope (make_obj_term_t.new_flags flags) = .ok v) →
            ∃ acc, self.term_eval B scope flags
                = term_eval_t.returned (new_val (B.to_counted acc))
              ∧ B.keys acc = (self.optargs.map (fun it => it.1)).toFinset)) := by
  refine ⟨?_, ?_, ?_, ?_, ?_, ?_⟩
  · intro hargs
    have hcheck : (term.args_size == 0) = false := by simpa using hargs
    simp only [make_obj_term_t.constructor, hcheck, rcheck_false]
  · intro hargs hdup
    have hcheck : (term.args_size == 0) = true := by simpa using hargs
    constructor
    · cases hloop : make_obj_term_t.compile_optargs compile_term env term.optargs [] with
      | error e =>
        exact ⟨e, by simp only [make_obj_term_t.constructor, hcheck, rcheck_true, hloop]⟩
      | ok out =>
        exact absurd
          (make_obj_term_t.keys_of_compile_optargs compile_term env _ _ _ hloop).1.1 hdup
    · exact first_repeated_key term.optargs hdup
  · intro before key child after hargs heq hnodup hcompile hkey hchild
    have hcheck : (term.args_size == 0) = true := by simpa using hargs
    obtain ⟨t, ht⟩ := hchild
    obtain ⟨out, hkeys, hloop⟩ :=
      make_obj_term_t.compile_optargs_after_prefix compile_term env before
        ((key, child) :: after) hnodup hcompile
    have hins := std_map_insert_of_mem out (key, t) ((hkeys key).mpr hkey)
    simp only [make_obj_term_t.constructor, hcheck, rcheck_true, heq, hloop,
      make_obj_term_t.compile_optargs, ht, hins, rcheck_false]
  · intro before key child after e hargs heq hnodup hcompile hchild
    have hcheck : (term.args_size == 0) = true := by simpa using hargs
    obtain ⟨out, _, hloop⟩ :=
      make_obj_term_t.compile_optargs_after_prefix compile_term env before
        ((key, child) :: after) hnodup hcompile
    simp only [make_obj_term_t.constructor, hcheck, rcheck_true, heq, hloop,
      make_obj_term_t.compile_optargs, hchild]
  · intro hargs hnodup hcompile
    have hcheck : (term.args_size == 0) = true := by simpa using hargs
    obtain ⟨out, hout, hperm, _, hall⟩ :=
      make_obj_term_t.compile_optargs_succeeds compile_term env term.optargs [] hnodup
        (by simp) hcompile
    refine ⟨{ optargs := out }, ?_, ?_, hall⟩
    · simp only [make_obj_term_t.constructor, hcheck, rcheck_true, hout]
    · simpa using hperm
  · intro self hself
    have hloop : make_obj_term_t.compile_optargs compile_term env term.optargs []
        = .ok self.optargs := by
      unfold make_obj_term_t.constructor at hself
      cases hcheck : rcheck (term.args_size == 0) "MAKE_OBJ term must not have any args." with
      | error e => rw [hcheck] at hself; cases hself
      | ok u =>
        rw [hcheck] at hself
        cases hout : make_obj_term_t.compile_optargs compile_term env term.optargs [] with
        | error e => rw [hout] at hself; cases hself
        | ok out =>
          rw [hout] at hself
          simp only [Except.ok.injEq] at hself
          rw [← hself]
    have hnodup : (self.optargs.map (fun it => it.1)).Nodup :=
      (make_obj_term_t.keys_of_compile_optargs compile_term env _ _ _ hloop).2 List.nodup_nil
    obtain ⟨hnever, hall⟩ := make_obj_term_t.eval_optargs_of_distinct B scope
      (make_obj_term_t.new_flags flags) self.optargs B.empty hnodup
      (by intro key _; rw [B.keys_empty]; exact Finset.not_mem_empty key)
    refine ⟨hnodup, ?_, ?_⟩
    · intro e h
      unfold make_obj_term_t.term_eval make_obj_term_t.term_eval_acc at h
      cases hacc : make_obj_term_t.eval_optargs B scope (make_obj_term_t.new_flags flags)
          self.optargs B.empty with
      | returned acc => rw [hacc] at h; cases h
      | raised_by_sub_term e1 => rw [hacc] at h; cases h
      | raised_by_duplicate_check e1 => exact hnever e1 hacc
    · intro hevals
      obtain ⟨acc, hacc, hkeys⟩ := hall hevals
      refine ⟨acc, ?_, ?_⟩
      · simp only [make_obj_term_t.term_eval, make_obj_term_t.term_eval_acc, hacc]
      · rw [hkeys, B.keys_empty, Finset.empty_union]

open ql in
/-- The amended statement of C21 on five terms: `example_args_term` (a positional
argument), `example_duplicate_term` (the key `a` twice), `example_duplicate_then_bad_term`
(the key `a` twice, then a sub-term that does not compile), `example_nested_term` (one
sub-term, which does not compile) and `example_object_term` (the keys `b` and `a`),
which is built into `example_make_obj_term` and evaluated. -/
theorem make_obj_construction_and_evaluation_witness :
    example_args_term.args_size ≠ 0
    ∧ example_duplicate_term.args_size = 0
    ∧ ¬ (example_duplicate_term.optargs.map (fun p => p.1)).Nodup
    ∧ example_duplicate_then_bad_term.args_size = 0
    ∧ example_duplicate_then_bad_term.optargs
        = [("a", example_datum_term)] ++ ("a", example_datum_term)
            :: [("b", example_args_term)]
    ∧ ([("a", example_datum_term)].map (fun p => p.1)).Nodup
    ∧ (∀ p ∈ [("a", example_datum_term)], ∃ t, example_compile_term { id := 0 } p.2 = .ok t)
    ∧ "a" ∈ [("a", example_datum_term)].map (fun p => p.1)
    ∧ (∃ t, example_compile_term { id := 0 } example_datum_term = .ok t)
    ∧ example_nested_term.args_size = 0
    ∧ example_nested_term.optargs = [] ++ ("a", example_args_term) :: []
    ∧ (([] : List (String × Term)).map (fun p => p.1)).Nodup
    ∧ (∀ p ∈ ([] : List (String × Term)), ∃ t, example_compile_term { id := 0 } p.2 = .ok t)
    ∧ example_compile_term { id := 0 } example_args_term
      = .error (exception_t.base_exc_t "MAKE_OBJ term must not have any args.")
    ∧ example_object_term.args_size = 0
    ∧ (example_object_term.optargs.map (fun p => p.1)).Nodup
    ∧ (∀ p ∈ example_object_term.optargs, ∃ t, example_compile_term { id := 0 } p.2 = .ok t)
    ∧ make_obj_term_t.constructor example_compile_term { id := 0 } example_object_term
      = .ok example_make_obj_term
    ∧ (∀ it ∈ example_make_obj_term.optargs,
        ∃ v, it.2.eval { id := 0 } (make_obj_term_t.new_flags NO_FLAGS) = .ok v)
    ∧ make_obj_term_t.constructor example_compile_term { id := 0 } example_args_term
      = .error (exception_t.base_exc_t "MAKE_OBJ term must not have any args.")
    ∧ ((∃ e, make_obj_term_t.constructor example_compile_term { id := 0 }
          example_duplicate_term = .error e)
      ∧ ∃ (before : List (String × Term)) (key : String) (child : Term)
          (after : List (String × Term)),
          example_duplicate_term.optargs = before ++ (key, child) :: after
            ∧ (before.map (fun p => p.1)).Nodup ∧ key ∈ before.map (fun p => p.1))
    ∧ make_obj_term_t.constructor example_compile_term { id := 0 }
        example_duplicate_then_bad_term
      = .error (exception_t.base_exc_t ("Duplicate object key: " ++ std_string_c_str "a"))
    ∧ make_obj_term_t.constructor example_compile_term { id := 0 } example_nested_term
      = .error (exception_t.base_exc_t "MAKE_OBJ term must not have any args.")
    ∧ (∃ self, make_obj_term_t.constructor example_compile_term { id := 0 }
          example_object_term = .ok self
        ∧ (self.optargs.map (fun it => it.1)).Perm
            (example_object_term.optargs.map (fun p => p.1))
        ∧ ∀ (key : String) (child : Term), (key, child) ∈ example_object_term.optargs →
            ∃ t, example_compile_term { id := 0 } child = .ok t ∧ (key, t) ∈ self.optargs)
    ∧ (example_make_obj_term.optargs.map (fun it => it.1)).Nodup
    ∧ (∀ e, example_make_obj_term.term_eval example_datum_ptr_lib { id := 0 } NO_FLAGS
        ≠ term_eval_t.raised_by_duplicate_check e)
    ∧ (∃ acc, example_make_obj_term.term_eval example_datum_ptr_lib { id := 0 } NO_FLAGS
          = term_eval_t.returned (new_val (example_datum_ptr_lib.to_counted acc))
        ∧ example_datum_ptr_lib.keys acc
          = (example_make_obj_term.optargs.map (fun it => it.1)).toFinset) :=
  have hargs : example_args_term.args_size ≠ 0 := by decide
  have hnone : example_duplicate_term.args_size = 0 := rfl
  have hdup : ¬ (example_duplicate_term.optargs.map (fun p => p.1)).Nodup := by decide
  have hnone2 : example_duplicate_then_bad_term.args_size = 0 := rfl
  have heq2 : example_duplicate_then_bad_term.optargs
      = [("a", example_datum_term)] ++ ("a", example_datum_term)
          :: [("b", example_args_term)] := rfl
  have hnodup2 : ([("a", example_datum_term)].map (fun p => p.1)).Nodup := by decide
  have hcompile2 : ∀ p ∈ [("a", example_datum_term)],
      ∃ t, example_compile_term { id := 0 } p.2 = .ok t := by
    intro p hp
    rw [List.mem_singleton] at hp
    subst hp
    exact ⟨example_leaf_term, rfl⟩
  have hkey2 : "a" ∈ [("a", example_datum_term)].map (fun p => p.1) := by decide
  have hchild2 : ∃ t, example_compile_term { id := 0 } example_datum_term = .ok t :=
    ⟨example_leaf_term, rfl⟩
  have hnone4 : example_nested_term.args_size = 0 := rfl
  have heq4 : example_nested_term.optargs = [] ++ ("a", example_args_term) :: [] := rfl
  have hnodup4 : (([] : List (String × Term)).map (fun p => p.1)).Nodup := List.nodup_nil
  have hcompile4 : ∀ p ∈ ([] : List (String × Term)),
      ∃ t, example_compile_term { id := 0 } p.2 = .ok t := by
    intro p hp
    cases hp
  have hchild4 : example_compile_term { id := 0 } example_args_term
      = .error (exception_t.base_exc_t "MAKE_OBJ term must not have any args.") := rfl
  have hnone1 : example_object_term.args_size = 0 := rfl
  have hnodup : (example_object_term.optargs.map (fun p => p.1)).Nodup := by decide
  have hcompile1 : ∀ p ∈ example_object_term.optargs,
      ∃ t, example_compile_term { id := 0 } p.2 = .ok t := by
    intro p hp
    simp only [example_object_term, Term.optargs, List.mem_cons, List.mem_singleton,
      List.not_mem_nil, or_false] at hp
    rcases hp with h | h <;> subst h <;> exact ⟨example_leaf_term, rfl⟩
  have hself : make_obj_term_t.constructor example_compile_term { id := 0 }
      example_object_term = .ok example_make_obj_term := rfl
  have hevals : ∀ it ∈ example_make_obj_term.optargs,
      ∃ v, it.2.eval { id := 0 } (make_obj_term_t.new_flags NO_FLAGS) = .ok v := by
    intro it hit
    simp only [example_make_obj_term, List.mem_cons, List.mem_singleton, List.not_mem_nil,
      or_false] at hit
    rcases hit with h | h <;> subst h <;> exact ⟨new_val (datum_t.num 1), rfl⟩
  have h1 := make_obj_construction_and_evaluation example_datum_ptr_lib example_compile_term
    { id := 0 } example_args_term { id := 0 } NO_FLAGS
  have h2 := make_obj_construction_and_evaluation example_datum_ptr_lib example_compile_term
    { id := 0 } example_duplicate_term { id := 0 } NO_FLAGS
  have h3 := make_obj_construction_and_evaluation example_datum_ptr_lib example_compile_term
    { id := 0 } example_object_term { id := 0 } NO_FLAGS
  have h4 := make_obj_construction_and_evaluation example_datum_ptr_lib example_compile_term
    { id := 0 } example_nested_term { id := 0 } NO_FLAGS
  have h5 := make_obj_construction_and_evaluation example_datum_ptr_lib example_compile_term
    { id := 0 } example_duplicate_then_bad_term { id := 0 } NO_FLAGS
  ⟨hargs, hnone, hdup, hnone2, heq2, hnodup2, hcompile2, hkey2, hchild2, hnone4, heq4,
    hnodup4, hcompile4, hchild4, hnone1, hnodup, hcompile1, hself, hevals,
    h1.1 hargs, h2.2.1 hnone hdup,
    h5.2.2.1 [("a", example_datum_term)] "a" example_datum_term [("b", example_args_term)]
      hnone2 heq2 hnodup2 hcompile2 hkey2 hchild2,
    h4.2.2.2.1 [] "a" example_args_term [] _ hnone4 heq4 hnodup4 hcompile4 hchild4,
    h3.2.2.2.2.1 hnone1 hnodup hcompile1, (h3.2.2.2.2.2 example_make_obj_term hself).1,
    (h3.2.2.2.2.2 example_make_obj_term hself).2.1,
    (h3.2.2.2.2.2 example_make_obj_term hself).2.2 hevals⟩
